import Mathlib

/-!
The st_asm330lhh core: configuration and acquisition.

A shallow embedding of `drivers/iio/imu/st_asm330lhh/st_asm330lhh_core.c`.

Conventions of the embedding:

* machine integers are `Nat`/`Int`; a store into a `u8`, `u16`, `u32` object is an explicit
  reduction modulo `2^8`, `2^16`, `2^32`;
* the bus (`hw->tf`, `hw->dev`) is a pair of functions over an explicit device state;
* a function returning `int` and writing through pointers returns a tuple;
* locks (`hw->lock`, `hw->fifo_lock`, `iio_dev->mlock`) and log messages have no effect on
  the sequential behaviour and are left out;
* declarations the file takes from `st_asm330lhh.h`, which is not part of the translated
  file, are collected in the record `st_asm330lhh_h` and passed explicitly.
-/

namespace StAsm330lhh

/-! ## Kernel primitives -/

/-- Kernel `BIT(nr)`: the word with only bit `nr` set. -/
def BIT (nr : Nat) : Nat := 1 <<< nr

/-- Kernel `GENMASK(h, l)`: the word with bits `l..h` set. -/
def GENMASK (h l : Nat) : Nat := 2 ^ (h + 1) - 2 ^ l

/-- Scan used by `__ffs`: `k` positions remain, `i` is the current bit index. -/
def ffs_scan : Nat → Nat → Nat → Nat
  | 0, _, i => i
  | k + 1, w, i => if w % 2 = 1 then i else ffs_scan k (w / 2) (i + 1)

/-- Modelled from the spec: kernel `__ffs(word)`, the index of the lowest set bit of an
`unsigned long`. The C result is undefined for `word = 0`; the scan then runs off the end
of the 64-bit word and answers 64. -/
def __ffs (word : Nat) : Nat := ffs_scan 64 word 0

/-- C `~x` on an operand promoted to 32-bit `int`, as a bit pattern. -/
def bitnot32 (x : Nat) : Nat := (2 ^ 32 - 1) ^^^ x

/-- Store into a `u8` object. -/
def u8 (x : Nat) : Nat := x % 2 ^ 8

/-- Store into a `u16` object. -/
def u16 (x : Nat) : Nat := x % 2 ^ 16

/-- Store into a `u32` object. -/
def u32 (x : Nat) : Nat := x % 2 ^ 32

/-- Conversion of an `int` argument to a `u16` parameter. -/
def int_to_u16 (x : Int) : Nat := (x % 2 ^ 16).toNat

/-- Conversion of an `int` argument to a `u32` parameter. -/
def int_to_u32 (x : Int) : Nat := (x % 2 ^ 32).toNat

/-- C cast `(s16)x` of a 16-bit object. -/
def s16 (x : Nat) : Int := if x % 2 ^ 16 < 2 ^ 15 then (x % 2 ^ 16 : Nat) else (x % 2 ^ 16 : Nat) - 2 ^ 16

def EBUSY : Int := 16
def EINVAL : Int := 22
def INT_MAX : Nat := 2147483647

/-- The loop `for (i = 0; i < n; i++) if (p i) break;`: `first_index p k i` runs the loop
from index `i` with `k` iterations left and answers the final value of `i`. -/
def first_index (p : Nat → Bool) : Nat → Nat → Nat
  | 0, i => i
  | k + 1, i => if p i then i else first_index p k (i + 1)

/-! ## Register addresses and masks defined in the file -/

def ST_ASM330LHH_REG_CTRL1_XL_ADDR : Nat := 0x10
def ST_ASM330LHH_REG_CTRL2_G_ADDR : Nat := 0x11
def ST_ASM330LHH_TEMP_GAIN : Nat := 256
def ST_ASM330LHH_TEMP_FS_GAIN : Nat := 1000000 / ST_ASM330LHH_TEMP_GAIN
def ST_ASM330LHH_OFFSET : Nat := 6400

/-! ## Data model -/

/-- The enum `st_asm330lhh_sensor_id` (the three sensor kinds). -/
inductive st_asm330lhh_sensor_id where
  | ST_ASM330LHH_ID_ACC
  | ST_ASM330LHH_ID_GYRO
  | ST_ASM330LHH_ID_TEMP
  deriving DecidableEq, Repr

open st_asm330lhh_sensor_id

/-- What the file uses from `st_asm330lhh.h` and from the IIO headers without defining it. -/
structure st_asm330lhh_h where
  /-- Number of slots of `odr_avl[]`, scanned by `st_asm330lhh_get_odr_val`. -/
  ST_ASM330LHH_ODR_LIST_SIZE : Nat
  ST_ASM330LHH_FS_ACC_LIST_SIZE : Nat
  ST_ASM330LHH_FS_GYRO_LIST_SIZE : Nat
  ST_ASM330LHH_FS_TEMP_LIST_SIZE : Nat
  ST_ASM330LHH_REG_STATUS_ADDR : Nat
  ST_ASM330LHH_REG_STATUS_TDA : Nat
  ST_ASM330LHH_REG_OUT_TEMP_L_ADDR : Nat
  ST_ASM330LHH_REG_FIFO_BATCH_ADDR : Nat
  /-- The FIFO mode `ST_ASM330LHH_FIFO_CONT` passed to `st_asm330lhh_set_fifo_mode`. -/
  ST_ASM330LHH_FIFO_CONT : Nat
  /-- Numeric value of each enumerator of `st_asm330lhh_sensor_id`. -/
  id_value : st_asm330lhh_sensor_id → Nat
  /-- The enumerator `ST_ASM330LHH_ID_MAX`, the length of `hw->iio_devs[]`. -/
  ST_ASM330LHH_ID_MAX : Nat
  /-- The flag `asm330_check_regulator` tested by `st_asm330lhh_probe`. -/
  asm330_check_regulator : Bool
  /-- The macro `IIO_G_TO_M_S_2`. -/
  IIO_G_TO_M_S_2 : Nat → Nat
  /-- The macro `IIO_DEGREE_TO_RAD`. -/
  IIO_DEGREE_TO_RAD : Nat → Nat
  IIO_VAL_INT : Int
  IIO_VAL_INT_PLUS_MICRO : Int
  IIO_VAL_FRACTIONAL : Int

/-- Modelled from the spec: a header with the table sizes the spec gives (4 ranges for
acceleration, 6 for angular-rate, 1 for temperature), seven rate slots (the largest
initialised index of `odr_avl` is 6), and the kernel values of the IIO constants and
unit-conversion macros. Used to evaluate the model on concrete inputs. -/
def reference_header : st_asm330lhh_h where
  ST_ASM330LHH_ODR_LIST_SIZE := 7
  ST_ASM330LHH_FS_ACC_LIST_SIZE := 4
  ST_ASM330LHH_FS_GYRO_LIST_SIZE := 6
  ST_ASM330LHH_FS_TEMP_LIST_SIZE := 1
  ST_ASM330LHH_REG_STATUS_ADDR := 0x1e
  ST_ASM330LHH_REG_STATUS_TDA := BIT 2
  ST_ASM330LHH_REG_OUT_TEMP_L_ADDR := 0x20
  ST_ASM330LHH_REG_FIFO_BATCH_ADDR := 0x09
  ST_ASM330LHH_FIFO_CONT := 0x6
  id_value := fun id =>
    match id with
    | ST_ASM330LHH_ID_ACC => 0
    | ST_ASM330LHH_ID_GYRO => 1
    | ST_ASM330LHH_ID_TEMP => 2
  ST_ASM330LHH_ID_MAX := 3
  asm330_check_regulator := true
  IIO_G_TO_M_S_2 := fun g => g * 980665 / 100000
  IIO_DEGREE_TO_RAD := fun deg => (deg * 314159 + 9000000) / 18000000
  IIO_VAL_INT := 1
  IIO_VAL_INT_PLUS_MICRO := 2
  IIO_VAL_FRACTIONAL := 10

structure st_asm330lhh_reg where
  addr : Nat
  mask : Nat
  deriving DecidableEq, Repr

structure st_asm330lhh_odr where
  hz : Nat
  val : Nat
  deriving DecidableEq, Repr

structure st_asm330lhh_odr_table_entry where
  reg : st_asm330lhh_reg
  /-- The initialised slots; every further slot of the array is zero. -/
  odr_avl : List st_asm330lhh_odr

structure st_asm330lhh_fs where
  gain : Nat
  val : Nat
  deriving DecidableEq, Repr

structure st_asm330lhh_fs_table_entry where
  reg : st_asm330lhh_reg
  size : Nat
  /-- The initialised slots; every further slot of the array is zero. -/
  fs_avl : List st_asm330lhh_fs

structure st_asm330lhh_std_entry where
  odr : Nat
  val : Nat
  deriving DecidableEq, Repr

/-- Minimal number of samples to be discarded. -/
def st_asm330lhh_std_table : List st_asm330lhh_std_entry :=
  [⟨13, 2⟩, ⟨26, 3⟩, ⟨52, 4⟩, ⟨104, 6⟩, ⟨208, 8⟩, ⟨416, 18⟩]

def st_asm330lhh_odr_table : st_asm330lhh_sensor_id → st_asm330lhh_odr_table_entry
  | ST_ASM330LHH_ID_ACC =>
    { reg := ⟨ST_ASM330LHH_REG_CTRL1_XL_ADDR, GENMASK 7 4⟩
      odr_avl := [⟨0, 0x00⟩, ⟨13, 0x01⟩, ⟨26, 0x02⟩, ⟨52, 0x03⟩, ⟨104, 0x04⟩, ⟨208, 0x05⟩,
        ⟨416, 0x06⟩] }
  | ST_ASM330LHH_ID_GYRO =>
    { reg := ⟨ST_ASM330LHH_REG_CTRL2_G_ADDR, GENMASK 7 4⟩
      odr_avl := [⟨0, 0x00⟩, ⟨13, 0x01⟩, ⟨26, 0x02⟩, ⟨52, 0x03⟩, ⟨104, 0x04⟩, ⟨208, 0x05⟩,
        ⟨416, 0x06⟩] }
  | ST_ASM330LHH_ID_TEMP =>
    { reg := ⟨0, 0⟩
      odr_avl := [⟨0, 0x00⟩, ⟨52, 0x01⟩] }

/-- Slot `i` of `st_asm330lhh_odr_table[id].odr_avl`. -/
def odr_avl_at (id : st_asm330lhh_sensor_id) (i : Nat) : st_asm330lhh_odr :=
  (st_asm330lhh_odr_table id).odr_avl.getD i ⟨0, 0⟩

def st_asm330lhh_fs_table (H : st_asm330lhh_h) :
    st_asm330lhh_sensor_id → st_asm330lhh_fs_table_entry
  | ST_ASM330LHH_ID_ACC =>
    { reg := ⟨ST_ASM330LHH_REG_CTRL1_XL_ADDR, GENMASK 3 2⟩
      size := H.ST_ASM330LHH_FS_ACC_LIST_SIZE
      fs_avl := [⟨u32 (H.IIO_G_TO_M_S_2 61), 0x0⟩, ⟨u32 (H.IIO_G_TO_M_S_2 122), 0x2⟩,
        ⟨u32 (H.IIO_G_TO_M_S_2 244), 0x3⟩, ⟨u32 (H.IIO_G_TO_M_S_2 488), 0x1⟩] }
  | ST_ASM330LHH_ID_GYRO =>
    { reg := ⟨ST_ASM330LHH_REG_CTRL2_G_ADDR, GENMASK 3 0⟩
      size := H.ST_ASM330LHH_FS_GYRO_LIST_SIZE
      fs_avl := [⟨u32 (H.IIO_DEGREE_TO_RAD 4375), 0x2⟩, ⟨u32 (H.IIO_DEGREE_TO_RAD 8750), 0x0⟩,
        ⟨u32 (H.IIO_DEGREE_TO_RAD 17500), 0x4⟩, ⟨u32 (H.IIO_DEGREE_TO_RAD 35000), 0x8⟩,
        ⟨u32 (H.IIO_DEGREE_TO_RAD 70000), 0xC⟩, ⟨u32 (H.IIO_DEGREE_TO_RAD 140000), 0x1⟩] }
  | ST_ASM330LHH_ID_TEMP =>
    { reg := ⟨0, 0⟩
      size := H.ST_ASM330LHH_FS_TEMP_LIST_SIZE
      fs_avl := [⟨u32 ST_ASM330LHH_TEMP_FS_GAIN, 0x0⟩] }

/-- Slot `i` of `st_asm330lhh_fs_table[id].fs_avl`. -/
def fs_avl_at (H : st_asm330lhh_h) (id : st_asm330lhh_sensor_id) (i : Nat) : st_asm330lhh_fs :=
  (st_asm330lhh_fs_table H id).fs_avl.getD i ⟨0, 0⟩

/-- The bus capability `struct st_asm330lhh_transfer_function` over a device state `β`:
`read dev addr len` answers the status, the object left in the buffer (as the integer the
little-endian CPU loads from it) and the new device state; `write dev addr len data`
answers the status and the new device state. -/
structure st_asm330lhh_transfer_function (β : Type) where
  read : β → Nat → Nat → Int × Nat × β
  write : β → Nat → Nat → Nat → Int × β

/-- The register read-modify-write of `st_asm330lhh_write_with_mask`:
`data = (data & ~mask) | ((val << __ffs(mask)) & mask)` stored back into the `u8`. -/
def masked_byte (data mask val : Nat) : Nat :=
  u8 ((data &&& bitnot32 mask) ||| ((val <<< __ffs mask) &&& mask))

def st_asm330lhh_write_with_mask {β : Type} (tf : st_asm330lhh_transfer_function β)
    (dev : β) (addr mask val : Nat) : Int × β :=
  match tf.read dev addr 1 with
  | (err, data, dev1) =>
    if err < 0 then (err, dev1)
    else tf.write dev1 addr 1 (masked_byte (u8 data) mask val)

/-! ## An ideal register file

The bus on which every transfer succeeds and the device behaves as a byte-addressed
register file; it also records every transfer issued. -/

inductive bus_op where
  | rd (addr len : Nat)
  | wr (addr len data : Nat)
  deriving DecidableEq, Repr

structure reg_file where
  /-- The byte held at each register address. -/
  mem : Nat → Nat
  /-- The transfers issued so far, oldest first. -/
  log : List bus_op

/-- The object read from `len` consecutive registers, least significant byte first. -/
def reg_load (mem : Nat → Nat) (addr : Nat) : Nat → Nat
  | 0 => 0
  | len + 1 => mem addr % 256 + 256 * reg_load mem (addr + 1) len

/-- The register file after `len` bytes of `data` are stored from `addr` on. -/
def reg_store (mem : Nat → Nat) (addr len data : Nat) : Nat → Nat :=
  fun a => if addr ≤ a ∧ a < addr + len then data / 256 ^ (a - addr) % 256 else mem a

def reg_bus : st_asm330lhh_transfer_function reg_file where
  read := fun s addr len => (0, reg_load s.mem addr len, { s with log := s.log ++ [bus_op.rd addr len] })
  write := fun s addr len data =>
    (0, { mem := reg_store s.mem addr len data, log := s.log ++ [bus_op.wr addr len data] })

/-! ## Configuration tables: lookup -/

/-- Lookup of `st_asm330lhh_get_odr_val`: the first slot whose rate is at least `odr`;
`-EINVAL` when the scan reaches `ST_ASM330LHH_ODR_LIST_SIZE`, else the slot's encoding
(the value stored through `val`). -/
def st_asm330lhh_get_odr_val (H : st_asm330lhh_h) (id : st_asm330lhh_sensor_id) (odr : Nat) :
    Except Int Nat :=
  let i := first_index (fun i => decide ((odr_avl_at id i).hz ≥ odr))
    H.ST_ASM330LHH_ODR_LIST_SIZE 0
  if i = H.ST_ASM330LHH_ODR_LIST_SIZE then Except.error (-EINVAL)
  else Except.ok (odr_avl_at id i).val

/-- The per-kind instance `struct st_asm330lhh_sensor` (declared in `st_asm330lhh.h`); the
back pointer `hw` is passed alongside the instance instead of being stored in it. -/
structure st_asm330lhh_sensor where
  id : st_asm330lhh_sensor_id
  gain : Nat
  odr : Nat
  offset : Nat
  old_data : Nat
  std_samples : Nat
  std_level : Nat
  watermark : Nat
  batch_mask : Nat
  batch_addr : Nat
  deriving DecidableEq, Repr

/-- The device handle `struct st_asm330lhh_hw` over the bus device state `β`: the state
behind `hw->dev`, the enable mask, the interrupt number and the instances of `iio_devs[]`
(`none` for a null slot). -/
structure st_asm330lhh_hw (β : Type) where
  dev : β
  enable_mask : Nat
  irq : Int
  iio_devs : List (Option st_asm330lhh_sensor)

/-- The scan of `st_asm330lhh_set_full_scale`:
`for (i = 0; i < size; i++) if (fs_avl[i].gain == gain) break;`, answering the final `i`. -/
def fs_lookup_index (H : st_asm330lhh_h) (id : st_asm330lhh_sensor_id) (gain : Nat) : Nat :=
  first_index (fun i => decide ((fs_avl_at H id i).gain = gain))
    (st_asm330lhh_fs_table H id).size 0

def st_asm330lhh_set_full_scale {β : Type} (H : st_asm330lhh_h)
    (tf : st_asm330lhh_transfer_function β) (hw : st_asm330lhh_hw β)
    (sensor : st_asm330lhh_sensor) (gain : Nat) :
    Int × st_asm330lhh_hw β × st_asm330lhh_sensor :=
  let id := sensor.id
  let i := fs_lookup_index H id gain
  if i = (st_asm330lhh_fs_table H id).size then (-EINVAL, hw, sensor)
  else
    let val := u8 (fs_avl_at H id i).val
    match st_asm330lhh_write_with_mask tf hw.dev (st_asm330lhh_fs_table H id).reg.addr
        (st_asm330lhh_fs_table H id).reg.mask val with
    | (err, dev1) =>
      if err < 0 then (err, { hw with dev := dev1 }, sensor)
      else (0, { hw with dev := dev1 }, { sensor with gain := gain })

/-! ## Sensor instance model -/

/-- The scan of `st_asm330lhh_set_std_level` over `st_asm330lhh_std_table`. -/
def std_lookup_index (odr : Nat) : Nat :=
  first_index (fun i => decide ((st_asm330lhh_std_table.getD i ⟨0, 0⟩).odr = odr))
    st_asm330lhh_std_table.length 0

def st_asm330lhh_set_std_level (sensor : st_asm330lhh_sensor) (odr : Nat) :
    Int × st_asm330lhh_sensor :=
  let i := std_lookup_index odr
  if i = st_asm330lhh_std_table.length then (-EINVAL, sensor)
  else (0, { sensor with
    std_level := (st_asm330lhh_std_table.getD i ⟨0, 0⟩).val
    std_samples := 0 })

/-- In `st_asm330lhh_set_odr` a negative answer of the lookup returns `-EINVAL`; the lookup
answers either 0 or `-EINVAL`, so its error case is the negative one. -/
def st_asm330lhh_set_odr {β : Type} (H : st_asm330lhh_h)
    (tf : st_asm330lhh_transfer_function β) (hw : st_asm330lhh_hw β)
    (sensor : st_asm330lhh_sensor) (odr : Nat) : Int × st_asm330lhh_hw β :=
  match st_asm330lhh_get_odr_val H sensor.id odr with
  | Except.error _ => (-EINVAL, hw)
  | Except.ok val =>
    match st_asm330lhh_write_with_mask tf hw.dev (st_asm330lhh_odr_table sensor.id).reg.addr
        (st_asm330lhh_odr_table sensor.id).reg.mask (u8 val) with
    | (err, dev1) => (err, { hw with dev := dev1 })

/-- C `~x` on an `unsigned long`, as a bit pattern. -/
def bitnot64 (x : Nat) : Nat := (2 ^ 64 - 1) ^^^ x

/-- The tail of `st_asm330lhh_sensor_set_enable`: `enable_mask |= BIT(id)` when enabling,
`enable_mask &= ~BIT(id)` when disabling. -/
def update_enable_mask {β : Type} (H : st_asm330lhh_h) (hw : st_asm330lhh_hw β)
    (sensor : st_asm330lhh_sensor) (enable : Bool) : st_asm330lhh_hw β :=
  if enable then { hw with enable_mask := hw.enable_mask ||| BIT (H.id_value sensor.id) }
  else { hw with enable_mask := hw.enable_mask &&& bitnot64 (BIT (H.id_value sensor.id)) }

def st_asm330lhh_sensor_set_enable {β : Type} (H : st_asm330lhh_h)
    (tf : st_asm330lhh_transfer_function β) (hw : st_asm330lhh_hw β)
    (sensor : st_asm330lhh_sensor) (enable : Bool) : Int × st_asm330lhh_hw β :=
  let odr := if enable then sensor.odr else 0
  if sensor.id ≠ ST_ASM330LHH_ID_TEMP then
    match st_asm330lhh_set_odr H tf hw sensor odr with
    | (err, hw1) =>
      if err < 0 then (err, hw1)
      else (0, update_enable_mask H hw1 sensor enable)
  else (0, update_enable_mask H hw sensor enable)

/-- The result of `st_asm330lhh_read_oneshot`: the return value, the value stored through
`val` (`none` when the function returns without storing), the device handle and the
instance. -/
structure oneshot_result (β : Type) where
  ret : Int
  val : Option Int
  hw : st_asm330lhh_hw β
  sensor : st_asm330lhh_sensor

/-- The function `st_asm330lhh_read_oneshot`. `data0` is the indeterminate initial content of
the local `data`. The answer is `none` where the C behaviour is undefined: the division
`1000000 / sensor->odr` with a recorded ODR of 0. The sleep has no effect on the state. -/
def st_asm330lhh_read_oneshot {β : Type} (H : st_asm330lhh_h)
    (tf : st_asm330lhh_transfer_function β) (hw : st_asm330lhh_hw β)
    (sensor : st_asm330lhh_sensor) (addr : Nat) (data0 : Nat) : Option (oneshot_result β) :=
  if sensor.id = ST_ASM330LHH_ID_TEMP then
    match tf.read hw.dev H.ST_ASM330LHH_REG_STATUS_ADDR 1 with
    | (err, status, dev1) =>
      if err < 0 then
        some ⟨H.IIO_VAL_INT, some (s16 data0), { hw with dev := dev1 }, sensor⟩
      else if u8 status &&& H.ST_ASM330LHH_REG_STATUS_TDA ≠ 0 then
        match tf.read dev1 addr 2 with
        | (err2, data, dev2) =>
          if err2 < 0 then
            some ⟨H.IIO_VAL_INT, some (s16 (u16 data)), { hw with dev := dev2 }, sensor⟩
          else
            some ⟨H.IIO_VAL_INT, some (s16 (u16 data)), { hw with dev := dev2 },
              { sensor with old_data := u16 data }⟩
      else
        some ⟨H.IIO_VAL_INT, some (s16 sensor.old_data), { hw with dev := dev1 }, sensor⟩
  else
    match st_asm330lhh_sensor_set_enable H tf hw sensor true with
    | (err, hw1) =>
      if err < 0 then some ⟨err, none, hw1, sensor⟩
      else if sensor.odr = 0 then none
      else
        match tf.read hw1.dev addr 2 with
        | (err2, data, dev2) =>
          if err2 < 0 then some ⟨err2, none, { hw1 with dev := dev2 }, sensor⟩
          else
            let hw3 := (st_asm330lhh_sensor_set_enable H tf { hw1 with dev := dev2 } sensor
              false).2
            some ⟨H.IIO_VAL_INT, some (s16 (u16 data)), hw3, sensor⟩

/-- The attribute selector `mask` of `read_raw`/`write_raw` (an `IIO_CHAN_INFO_*` value). -/
inductive iio_chan_info_enum where
  | IIO_CHAN_INFO_RAW
  | IIO_CHAN_INFO_OFFSET
  | IIO_CHAN_INFO_SCALE
  | IIO_CHAN_INFO_SAMP_FREQ
  | other (n : Nat)
  deriving DecidableEq, Repr

open iio_chan_info_enum

/-- The function `st_asm330lhh_write_raw`; `sensor` is `iio_priv(iio_dev)`. The `int`
arguments are converted to the `u32 gain` and `u16 odr` parameters of the callees, and
`sensor->odr = val` stores into the 16-bit field. -/
def st_asm330lhh_write_raw {β : Type} (H : st_asm330lhh_h)
    (tf : st_asm330lhh_transfer_function β) (hw : st_asm330lhh_hw β)
    (sensor : st_asm330lhh_sensor) (val val2 : Int) (mask : iio_chan_info_enum) :
    Int × st_asm330lhh_hw β × st_asm330lhh_sensor :=
  match mask with
  | IIO_CHAN_INFO_SCALE => st_asm330lhh_set_full_scale H tf hw sensor (int_to_u32 val2)
  | IIO_CHAN_INFO_SAMP_FREQ =>
    match st_asm330lhh_set_std_level sensor (int_to_u16 val) with
    | (err, sensor1) =>
      if err < 0 then (err, hw, sensor1)
      else
        let sensor2 : st_asm330lhh_sensor :=
          match st_asm330lhh_get_odr_val H sensor1.id (int_to_u16 val) with
          | Except.ok _ => { sensor1 with odr := int_to_u16 val }
          | Except.error _ => sensor1
        match st_asm330lhh_set_odr H tf hw sensor2 sensor2.odr with
        | (err1, hw1) => (err1, hw1, sensor2)
  | _ => (-EINVAL, hw, sensor)

/-- The instance built by `st_asm330lhh_alloc_iiodev` for kind `id`; `alloc_ok` tells
whether `devm_iio_device_alloc` (which zeroes the instance) succeeded. `none` is `NULL`. -/
def st_asm330lhh_alloc_iiodev (H : st_asm330lhh_h) (alloc_ok : Bool)
    (id : st_asm330lhh_sensor_id) : Option st_asm330lhh_sensor :=
  if !alloc_ok then none
  else
    let sensor : st_asm330lhh_sensor :=
      { id := id
        odr := (odr_avl_at id 1).hz
        gain := (fs_avl_at H id 0).gain
        watermark := 1
        old_data := 0
        offset := 0, std_samples := 0, std_level := 0, batch_mask := 0, batch_addr := 0 }
    match id with
    | ST_ASM330LHH_ID_ACC =>
      some { sensor with
        batch_addr := H.ST_ASM330LHH_REG_FIFO_BATCH_ADDR
        batch_mask := GENMASK 3 0
        offset := 0 }
    | ST_ASM330LHH_ID_GYRO =>
      some { sensor with
        batch_addr := H.ST_ASM330LHH_REG_FIFO_BATCH_ADDR
        batch_mask := GENMASK 7 4
        offset := 0 }
    | ST_ASM330LHH_ID_TEMP => some { sensor with offset := ST_ASM330LHH_OFFSET }

/-! ## Power sequencer -/

/-- The two supply rails `hw->vdd` and `hw->vio`. -/
inductive rail where
  | vdd
  | vio
  deriving DecidableEq, Repr

/-- The calls into the regulator framework made by the core. -/
inductive rail_op where
  | regulator_set_voltage (r : rail) (min_uV max_uV : Nat)
  | regulator_set_load (r : rail) (load_uA : Nat)
  | regulator_enable (r : rail)
  | regulator_disable (r : rail)
  deriving DecidableEq, Repr

open rail rail_op

/-- The regulator framework as seen by the core: the return value of a call, given the calls
issued before it (oldest first). -/
abbrev regulator_backend := List rail_op → rail_op → Int

/-- Issue one regulator call: its return value and the extended call history. -/
def regulator_call (rb : regulator_backend) (log : List rail_op) (op : rail_op) :
    Int × List rail_op :=
  (rb log op, log ++ [op])

/-- Label `remove_vdd_voltage` of `st_asm330lhh_regulator_power_up`, down to `return err`. -/
def remove_vdd_voltage (rb : regulator_backend) (log : List rail_op) (err : Int) :
    Int × List rail_op :=
  (err, (regulator_call rb log (regulator_set_voltage vdd 0 INT_MAX)).2)

/-- Label `remove_vdd_current`, falling through to `remove_vdd_voltage`. -/
def remove_vdd_current (rb : regulator_backend) (log : List rail_op) (err : Int) :
    Int × List rail_op :=
  remove_vdd_voltage rb (regulator_call rb log (regulator_set_load vdd 0)).2 err

/-- Label `disable_vdd`, falling through to `remove_vdd_current`. -/
def disable_vdd (rb : regulator_backend) (log : List rail_op) (err : Int) :
    Int × List rail_op :=
  remove_vdd_current rb (regulator_call rb log (regulator_disable vdd)).2 err

/-- Label `remove_vio_voltage`, falling through to `disable_vdd`. -/
def remove_vio_voltage (rb : regulator_backend) (log : List rail_op) (err : Int) :
    Int × List rail_op :=
  disable_vdd rb (regulator_call rb log (regulator_set_voltage vio 0 INT_MAX)).2 err

/-- Label `remove_vio_current`, falling through to `remove_vio_voltage`. -/
def remove_vio_current (rb : regulator_backend) (log : List rail_op) (err : Int) :
    Int × List rail_op :=
  remove_vio_voltage rb (regulator_call rb log (regulator_set_load vio 0)).2 err

/-- The function `st_asm330lhh_regulator_power_up`: the return value and the call history
after it, from the history `log` before it. -/
def st_asm330lhh_regulator_power_up (rb : regulator_backend) (log : List rail_op) :
    Int × List rail_op :=
  let vdd_voltage : Nat × Nat := (3000000, 3600000)
  let vio_voltage : Nat × Nat := (1620000, 3600000)
  let vdd_current : Nat := 30000
  let vio_current : Nat := 30000
  let s1 : Int × List rail_op :=
    if vdd_voltage.1 > 0 ∧ vdd_voltage.1 ≤ vdd_voltage.2 then
      regulator_call rb log (regulator_set_voltage vdd vdd_voltage.1 vdd_voltage.2)
    else (0, log)
  if (vdd_voltage.1 > 0 ∧ vdd_voltage.1 ≤ vdd_voltage.2) ∧ s1.1 ≠ 0 then (s1.1, s1.2)
  else
    let s2 : Int × List rail_op :=
      if vdd_current > 0 then regulator_call rb s1.2 (regulator_set_load vdd vdd_current)
      else s1
    if vdd_current > 0 ∧ s2.1 < 0 then remove_vdd_voltage rb s2.2 s2.1
    else
      let s3 := regulator_call rb s2.2 (regulator_enable vdd)
      if s3.1 ≠ 0 then remove_vdd_current rb s3.2 s3.1
      else
        let s4 : Int × List rail_op :=
          if vio_voltage.1 > 0 ∧ vio_voltage.1 ≤ vio_voltage.2 then
            regulator_call rb s3.2 (regulator_set_voltage vio vio_voltage.1 vio_voltage.2)
          else s3
        if (vio_voltage.1 > 0 ∧ vio_voltage.1 ≤ vio_voltage.2) ∧ s4.1 ≠ 0 then
          disable_vdd rb s4.2 s4.1
        else
          let s5 : Int × List rail_op :=
            if vio_current > 0 then regulator_call rb s4.2 (regulator_set_load vio vio_current)
            else s4
          if vio_current > 0 ∧ s5.1 < 0 then remove_vio_voltage rb s5.2 s5.1
          else
            let s6 := regulator_call rb s5.2 (regulator_enable vio)
            if s6.1 ≠ 0 then remove_vio_current rb s6.2 s6.1
            else (0, s6.2)

/-- The function `st_asm330lhh_regulator_power_down`: the call history after it. -/
def st_asm330lhh_regulator_power_down (rb : regulator_backend) (log : List rail_op) :
    List rail_op :=
  let l1 := (regulator_call rb log (regulator_disable vdd)).2
  let l2 := (regulator_call rb l1 (regulator_set_voltage vdd 0 INT_MAX)).2
  let l3 := (regulator_call rb l2 (regulator_set_load vdd 0)).2
  let l4 := (regulator_call rb l3 (regulator_disable vio)).2
  let l5 := (regulator_call rb l4 (regulator_set_voltage vio 0 INT_MAX)).2
  (regulator_call rb l5 (regulator_set_load vio 0)).2

/-- The six forward steps of power-up, in the order the function attempts them. -/
def power_up_steps : List rail_op :=
  [regulator_set_voltage vdd 3000000 3600000, regulator_set_load vdd 30000,
    regulator_enable vdd, regulator_set_voltage vio 1620000 3600000,
    regulator_set_load vio 30000, regulator_enable vio]

/-- The undo action of each of the first five forward steps, in the same order. -/
def power_up_undo : List rail_op :=
  [regulator_set_voltage vdd 0 INT_MAX, regulator_set_load vdd 0, regulator_disable vdd,
    regulator_set_voltage vio 0 INT_MAX, regulator_set_load vio 0]

/-- The test the function applies to the return value of forward step `k` (counted from 0):
`err < 0` after the two set-load steps, `err != 0` after the others. -/
def step_failed (k : Nat) (err : Int) : Prop :=
  if k = 1 ∨ k = 4 then err < 0 else err ≠ 0

instance (k : Nat) (err : Int) : Decidable (step_failed k err) := by
  unfold step_failed; infer_instance

/-- A regulator backend on which enabling Vio fails with `-22` and every other call
succeeds. -/
def vio_enable_fails : regulator_backend :=
  fun _ op => if op = regulator_enable vio then -22 else 0

/-! ## Device lifecycle -/

/-- The outcome of `st_asm330lhh_probe`: the return value, the device handle (when it was
allocated) and the regulator call history. -/
structure probe_result (β : Type) where
  ret : Int
  hw : Option (st_asm330lhh_hw β)
  rails : List rail_op

/-- Label `regulator_shutdown` of `st_asm330lhh_probe`. -/
def regulator_shutdown {β : Type} (H : st_asm330lhh_h) (rb : regulator_backend)
    (rails : List rail_op) (err : Int) (hw : st_asm330lhh_hw β) : probe_result β :=
  if H.asm330_check_regulator then ⟨err, some hw, st_asm330lhh_regulator_power_down rb rails⟩
  else ⟨err, some hw, rails⟩

/-- A register file holding 0 everywhere: its identity register does not hold `0x6b`. -/
def blank_device : reg_file := ⟨fun _ => 0, []⟩

/-- A bus on which every transfer fails with `-5` (`-EIO`) and nothing is transferred. -/
def dead_bus : st_asm330lhh_transfer_function Unit where
  read := fun s _ _ => (-5, 0, s)
  write := fun s _ _ _ => (-5, s)

/-! ## Suspend and resume -/

/-- The loop shared in shape by `st_asm330lhh_suspend` and `st_asm330lhh_resume`, `k` slots
left from slot `i` on, `err` being the current value of the local `err`: null slots and
instances whose bit is clear in `enable_mask` are skipped, the others get
`st_asm330lhh_set_odr(sensor, odr_of sensor)`. Answers whether the loop left by
`return err`, the value of `err`, and the handle. -/
def pm_odr_loop {β : Type} (H : st_asm330lhh_h) (tf : st_asm330lhh_transfer_function β)
    (odr_of : st_asm330lhh_sensor → Nat) :
    Nat → Nat → Int → st_asm330lhh_hw β → Bool × Int × st_asm330lhh_hw β
  | 0, _, err, hw => (false, err, hw)
  | k + 1, i, err, hw =>
    match hw.iio_devs.getD i none with
    | none => pm_odr_loop H tf odr_of k (i + 1) err hw
    | some sensor =>
      if hw.enable_mask &&& BIT (H.id_value sensor.id) = 0 then
        pm_odr_loop H tf odr_of k (i + 1) err hw
      else
        match st_asm330lhh_set_odr H tf hw sensor (odr_of sensor) with
        | (err1, hw1) =>
          if err1 < 0 then (true, err1, hw1)
          else pm_odr_loop H tf odr_of k (i + 1) err1 hw1

/-- The function `st_asm330lhh_suspend`; `suspend_fifo` is the collaborator
`st_asm330lhh_suspend_fifo` of the streaming subsystem. -/
def st_asm330lhh_suspend {β : Type} (H : st_asm330lhh_h)
    (tf : st_asm330lhh_transfer_function β)
    (suspend_fifo : st_asm330lhh_hw β → Int × st_asm330lhh_hw β) (hw : st_asm330lhh_hw β) :
    Int × st_asm330lhh_hw β :=
  match pm_odr_loop H tf (fun _ => 0) H.ST_ASM330LHH_ID_MAX 0 0 hw with
  | (true, err, hw1) => (err, hw1)
  | (false, err, hw1) => if hw1.enable_mask ≠ 0 then suspend_fifo hw1 else (err, hw1)

/-- The function `st_asm330lhh_resume`; `set_fifo_mode` is the collaborator
`st_asm330lhh_set_fifo_mode` of the streaming subsystem. -/
def st_asm330lhh_resume {β : Type} (H : st_asm330lhh_h)
    (tf : st_asm330lhh_transfer_function β)
    (set_fifo_mode : st_asm330lhh_hw β → Nat → Int × st_asm330lhh_hw β)
    (hw : st_asm330lhh_hw β) : Int × st_asm330lhh_hw β :=
  match pm_odr_loop H tf (fun sensor => sensor.odr) H.ST_ASM330LHH_ID_MAX 0 0 hw with
  | (true, err, hw1) => (err, hw1)
  | (false, err, hw1) =>
    if hw1.enable_mask ≠ 0 then set_fifo_mode hw1 H.ST_ASM330LHH_FIFO_CONT else (err, hw1)

/-- The bytes written to register `addr` according to a transfer log, oldest first. -/
def writes_to (addr : Nat) (log : List bus_op) : List Nat :=
  log.filterMap fun op =>
    match op with
    | bus_op.wr a _ d => if a = addr then some d else none
    | bus_op.rd _ _ => none

/-- The content of the ODR bit-field of kind `id` in a register file. -/
def odr_field (mem : Nat → Nat) (id : st_asm330lhh_sensor_id) : Nat :=
  (mem (st_asm330lhh_odr_table id).reg.addr &&& (st_asm330lhh_odr_table id).reg.mask)
    >>> __ffs (st_asm330lhh_odr_table id).reg.mask

/-- What is assumed of a streaming-subsystem collaborator over the ideal register file: it
leaves the enable mask, the instances and the two control registers `CTRL1_XL`, `CTRL2_G`
alone. -/
def fifo_frame (f : st_asm330lhh_hw reg_file → Int × st_asm330lhh_hw reg_file) : Prop :=
  ∀ hw, (f hw).2.enable_mask = hw.enable_mask ∧ (f hw).2.iio_devs = hw.iio_devs ∧
    ∀ a, a = ST_ASM330LHH_REG_CTRL1_XL_ADDR ∨ a = ST_ASM330LHH_REG_CTRL2_G_ADDR →
      (f hw).2.dev.mem a = hw.dev.mem a ∧
      writes_to a (f hw).2.dev.log = writes_to a hw.dev.log

/-- A handle over the ideal register file with the three instances of a probed device, the
acceleration instance enabled and recording 104 Hz while `CTRL1_XL` holds `0x10`, the
encoding of 13 Hz: the state left by a rate change from 13 Hz to 104 Hz whose register
write failed. -/
def stale_rate_hw : st_asm330lhh_hw reg_file where
  dev := ⟨fun a => if a = 0x10 then 0x10 else 0, []⟩
  enable_mask := 1
  irq := 0
  iio_devs :=
    [some ⟨ST_ASM330LHH_ID_ACC, 598, 104, 0, 0, 0, 6, 1, 15, 9⟩,
     some ⟨ST_ASM330LHH_ID_GYRO, 76, 13, 0, 0, 0, 0, 1, 240, 9⟩,
     some ⟨ST_ASM330LHH_ID_TEMP, 3906, 52, 6400, 0, 0, 0, 1, 0, 0⟩]

/-! ## Attribute read path -/

/-- The channel type `ch->type` (an `enum iio_chan_type` value). -/
inductive iio_chan_type where
  | IIO_ACCEL
  | IIO_ANGL_VEL
  | IIO_TEMP
  | other (n : Nat)
  deriving DecidableEq, Repr

open iio_chan_type

/-- What `st_asm330lhh_read_raw` uses of `struct iio_chan_spec`. -/
structure iio_chan_spec where
  type : iio_chan_type
  address : Nat
  deriving DecidableEq, Repr

/-- Conversion of a `u32` object to `int`. -/
def u32_to_int (x : Nat) : Int := if x % 2 ^ 32 < 2 ^ 31 then (x % 2 ^ 32 : Nat) else (x % 2 ^ 32 : Nat) - 2 ^ 32

/-- The result of `st_asm330lhh_read_raw`: the return value, the values stored through `val`
and `val2` (`none` when nothing is stored), the device handle and the instance. -/
structure read_raw_result (β : Type) where
  ret : Int
  val : Option Int
  val2 : Option Int
  hw : st_asm330lhh_hw β
  sensor : st_asm330lhh_sensor

/-- The function `st_asm330lhh_read_raw`; `sensor` is `iio_priv(iio_dev)`, `buffer_enabled`
the answer of `iio_buffer_enabled(iio_dev)`, `data0` the indeterminate local of the one-shot
read. `none` is the undefined behaviour of the one-shot read. -/
def st_asm330lhh_read_raw {β : Type} (H : st_asm330lhh_h)
    (tf : st_asm330lhh_transfer_function β) (hw : st_asm330lhh_hw β)
    (sensor : st_asm330lhh_sensor) (buffer_enabled : Bool) (ch : iio_chan_spec) (data0 : Nat)
    (mask : iio_chan_info_enum) : Option (read_raw_result β) :=
  match mask with
  | IIO_CHAN_INFO_RAW =>
    if buffer_enabled then some ⟨-EBUSY, none, none, hw, sensor⟩
    else
      match st_asm330lhh_read_oneshot H tf hw sensor ch.address data0 with
      | none => none
      | some r => some ⟨r.ret, r.val, none, r.hw, r.sensor⟩
  | IIO_CHAN_INFO_OFFSET =>
    match ch.type with
    | IIO_TEMP => some ⟨H.IIO_VAL_INT, some (u32_to_int sensor.offset), none, hw, sensor⟩
    | _ => some ⟨-EINVAL, none, none, hw, sensor⟩
  | IIO_CHAN_INFO_SAMP_FREQ => some ⟨H.IIO_VAL_INT, some (sensor.odr : Nat), none, hw, sensor⟩
  | IIO_CHAN_INFO_SCALE =>
    match ch.type with
    | IIO_TEMP =>
      some ⟨H.IIO_VAL_FRACTIONAL, some 1, some (ST_ASM330LHH_TEMP_GAIN : Nat), hw, sensor⟩
    | IIO_ACCEL =>
      some ⟨H.IIO_VAL_INT_PLUS_MICRO, some 0, some (u32_to_int sensor.gain), hw, sensor⟩
    | IIO_ANGL_VEL =>
      some ⟨H.IIO_VAL_INT_PLUS_MICRO, some 0, some (u32_to_int sensor.gain), hw, sensor⟩
    | _ => some ⟨-EINVAL, none, none, hw, sensor⟩
  | _ => some ⟨-EINVAL, none, none, hw, sensor⟩

/-! ## Observation devices for the properties -/

/-- A bus that behaves as `tf` and records every transfer issued, oldest first. -/
def logging_bus {β : Type} (tf : st_asm330lhh_transfer_function β) :
    st_asm330lhh_transfer_function (β × List bus_op) where
  read := fun s addr len =>
    ((tf.read s.1 addr len).1, (tf.read s.1 addr len).2.1,
      ((tf.read s.1 addr len).2.2, s.2 ++ [bus_op.rd addr len]))
  write := fun s addr len data =>
    ((tf.write s.1 addr len data).1,
      ((tf.write s.1 addr len data).2, s.2 ++ [bus_op.wr addr len data]))

/-- The content of the full-scale bit-field of kind `id` in a register file. -/
def fs_field (H : st_asm330lhh_h) (mem : Nat → Nat) (id : st_asm330lhh_sensor_id) : Nat :=
  (mem (st_asm330lhh_fs_table H id).reg.addr &&& (st_asm330lhh_fs_table H id).reg.mask)
    >>> __ffs (st_asm330lhh_fs_table H id).reg.mask

/-- The instance states of kind `id` reachable from construction by
`st_asm330lhh_alloc_iiodev` through calls of `st_asm330lhh_write_raw`, with any arguments on
any bus in any state. -/
inductive reachable_sensor (H : st_asm330lhh_h) (id : st_asm330lhh_sensor_id) :
    st_asm330lhh_sensor → Prop where
  | alloc (s : st_asm330lhh_sensor) :
      st_asm330lhh_alloc_iiodev H true id = some s → reachable_sensor H id s
  | write_raw (s : st_asm330lhh_sensor) (β : Type) (tf : st_asm330lhh_transfer_function β)
      (hw : st_asm330lhh_hw β) (val val2 : Int) (mask : iio_chan_info_enum) :
      reachable_sensor H id s →
      reachable_sensor H id (st_asm330lhh_write_raw H tf hw s val val2 mask).2.2

/-- The kernel's definitions of the two unit-conversion macros in `include/linux/iio/iio.h`
and the table sizes the spec states, as a condition on the header. -/
def header_units_and_sizes (H : st_asm330lhh_h) : Prop :=
  (∀ g, H.IIO_G_TO_M_S_2 g = g * 980665 / 100000) ∧
  (∀ deg, H.IIO_DEGREE_TO_RAD deg = (deg * 314159 + 9000000) / 18000000) ∧
  H.ST_ASM330LHH_FS_ACC_LIST_SIZE = 4 ∧ H.ST_ASM330LHH_FS_GYRO_LIST_SIZE = 6 ∧
  H.ST_ASM330LHH_FS_TEMP_LIST_SIZE = 1

/-- An acceleration instance as `st_asm330lhh_alloc_iiodev` builds it under the reference
header. -/
def probed_acc : st_asm330lhh_sensor := ⟨ST_ASM330LHH_ID_ACC, 598, 13, 0, 0, 0, 0, 1, 15, 9⟩

/-- A handle over the blank register file with no instance enabled. -/
def idle_hw : st_asm330lhh_hw reg_file := ⟨blank_device, 0, 0, []⟩

/-- A temperature instance as `st_asm330lhh_alloc_iiodev` builds it under the reference
header. -/
def probed_temp : st_asm330lhh_sensor :=
  ⟨ST_ASM330LHH_ID_TEMP, 3906, 52, 6400, 0, 0, 0, 1, 0, 0⟩

/-- The recorded rate and gain that the reachable states keep: the gain is the gain of a
scale-table entry; the rate is the Hz of a rate-table entry for acceleration and
angular-rate, and one of 13, 26, 52 for temperature. -/
def rate_gain_invariant (H : st_asm330lhh_h) (id : st_asm330lhh_sensor_id)
    (s : st_asm330lhh_sensor) : Prop :=
  s.id = id ∧
  (∃ e ∈ (st_asm330lhh_fs_table H id).fs_avl, e.gain = s.gain) ∧
  (id ≠ ST_ASM330LHH_ID_TEMP → ∃ e ∈ (st_asm330lhh_odr_table id).odr_avl, e.hz = s.odr) ∧
  (id = ST_ASM330LHH_ID_TEMP → s.odr = 13 ∨ s.odr = 26 ∨ s.odr = 52)

/-- A bus whose state counts the transfers issued: the first `n` succeed, every later one
fails with `-5` (`-EIO`); every read leaves `0xFFFE` in the buffer. -/
def fails_after (n : Nat) : st_asm330lhh_transfer_function Nat where
  read := fun s _ _ => (if s < n then 0 else -5, 0xFFFE, s + 1)
  write := fun s _ _ _ => (if s < n then 0 else -5, s + 1)

/-- The ideal register file except that every 2-byte read (the sample read of the one-shot
protocol) fails with `-5` (`-EIO`); 1-byte register transfers succeed. -/
def data_read_fails : st_asm330lhh_transfer_function reg_file where
  read := fun s addr len =>
    if len = 2 then (-5, 0, { s with log := s.log ++ [bus_op.rd addr len] })
    else reg_bus.read s addr len
  write := reg_bus.write

/-- A handle over the blank register file holding the three instances of a probed device,
only the temperature instance enabled (bit 2 of the mask under the reference header). -/
def temp_enabled_hw : st_asm330lhh_hw reg_file where
  dev := blank_device
  enable_mask := 4
  irq := 0
  iio_devs := [some probed_acc, some ⟨ST_ASM330LHH_ID_GYRO, 76, 13, 0, 0, 0, 0, 1, 240, 9⟩,
    some probed_temp]

/-- The rates that `st_asm330lhh_set_std_level` accepts, as a condition on the recorded ODR
of an instance. -/
def odr_is_std_rate (s : st_asm330lhh_sensor) : Prop :=
  s.odr = 13 ∨ s.odr = 26 ∨ s.odr = 52 ∨ s.odr = 104 ∨ s.odr = 208 ∨ s.odr = 416

/-- A register file whose status register `0x1e` has the temperature data-ready bit set and
whose temperature output registers `0x20`, `0x21` hold `0xFE`, `0xFF` (the sample -2). -/
def temp_ready_device : reg_file :=
  ⟨fun a => if a = 0x1e then 0x04 else if a = 0x20 then 0xFE else if a = 0x21 then 0xFF else 0,
    []⟩

/-- A temperature instance whose staleness cache holds 7. -/
def cached_temp : st_asm330lhh_sensor :=
  ⟨ST_ASM330LHH_ID_TEMP, 3906, 52, 6400, 7, 0, 0, 1, 0, 0⟩

theorem testBit_255 (i : Nat) : Nat.testBit 255 i = decide (i < 8) :=
  Nat.testBit_two_pow_sub_one 8 i

theorem masked_byte_lt (data mask val : Nat) : masked_byte data mask val < 256 :=
  Nat.mod_lt _ (by decide)

/-- Bits outside the mask are the bits of the byte read. -/
theorem masked_byte_outside (data mask val : Nat) :
    masked_byte data mask val &&& (255 ^^^ mask) = u8 data &&& (255 ^^^ mask) := by
  apply Nat.eq_of_testBit_eq
  intro i
  simp only [masked_byte, u8, bitnot32, Nat.testBit_and, Nat.testBit_or, Nat.testBit_xor,
    Nat.testBit_mod_two_pow, Nat.testBit_two_pow_sub_one, testBit_255]
  by_cases h8 : i < 8 <;> by_cases h32 : i < 32 <;>
    cases Nat.testBit mask i <;> cases Nat.testBit data i <;> simp [h8, h32]
  omega

/-- Bits inside the mask are the bits of the shifted value. -/
theorem masked_byte_inside (data mask val : Nat) (hm : mask < 256) :
    masked_byte data mask val &&& mask = (val <<< __ffs mask) &&& mask := by
  apply Nat.eq_of_testBit_eq
  intro i
  simp only [masked_byte, u8, bitnot32, Nat.testBit_and, Nat.testBit_or, Nat.testBit_xor,
    Nat.testBit_mod_two_pow, Nat.testBit_two_pow_sub_one]
  by_cases h8 : i < 8
  · have h32 : i < 32 := by omega
    cases Nat.testBit mask i <;> simp [h8, h32]
  · have hmi : Nat.testBit mask i = false := by
      apply Nat.testBit_lt_two_pow
      calc mask < 2 ^ 8 := hm
        _ ≤ 2 ^ i := Nat.pow_le_pow_right (by decide) (by omega)
    simp [hmi]

/-- C1: for every register address, every non-zero 8-bit mask, every 8-bit value and every
byte `d` read back from the bus with a non-negative status, `st_asm330lhh_write_with_mask`
issues the write of a byte `w` that agrees with `d` on every bit outside the mask; and on a
register holding `0b11001111`, mask `0b00110000` with value `0b10` leaves `0b11101111` in the
register. -/
theorem write_with_mask_preserves_unmasked_bits :
    (∀ (β : Type) (tf : st_asm330lhh_transfer_function β) (dev dev1 : β)
      (addr mask val d : Nat) (e : Int),
      mask ≠ 0 → mask < 256 → val < 256 → tf.read dev addr 1 = (e, d, dev1) → 0 ≤ e →
      ∃ w, w < 256 ∧ st_asm330lhh_write_with_mask tf dev addr mask val = tf.write dev1 addr 1 w
        ∧ w &&& (255 ^^^ mask) = u8 d &&& (255 ^^^ mask)) ∧
    (∀ addr : Nat,
      (st_asm330lhh_write_with_mask reg_bus ⟨fun _ => 0b11001111, []⟩ addr 0b00110000 0b10).2.mem
        addr = 0b11101111) := by
  constructor
  · intro β tf dev dev1 addr mask val d e _ _ _ hr he
    refine ⟨masked_byte (u8 d) mask val, masked_byte_lt _ _ _, ?_, ?_⟩
    · simp [st_asm330lhh_write_with_mask, hr, not_lt.mpr he]
    · rw [masked_byte_outside]; simp [u8]
  · intro addr
    simp [st_asm330lhh_write_with_mask, reg_bus, reg_load, reg_store]
    decide

theorem write_with_mask_preserves_unmasked_bits_witness :
    ∃ w, w < 256 ∧
      st_asm330lhh_write_with_mask reg_bus ⟨fun _ => 0xCF, []⟩ 0x10 0x30 2
        = reg_bus.write (reg_bus.read ⟨fun _ => 0xCF, []⟩ 0x10 1).2.2 0x10 1 w
      ∧ w &&& (255 ^^^ 0x30) = u8 0xCF &&& (255 ^^^ 0x30) :=
  write_with_mask_preserves_unmasked_bits.1 reg_file reg_bus ⟨fun _ => 0xCF, []⟩ _ 0x10 0x30 2
    0xCF 0 (by decide) (by decide) (by decide) rfl (by decide)

/-- The lowest set bit of a contiguous 8-bit field of width `k` at position `s` is `s`. -/
theorem ffs_contiguous (k s : Nat) (hk : 1 ≤ k) (hks : k + s ≤ 8) :
    __ffs ((2 ^ k - 1) <<< s) = s := by
  have hs : s ≤ 7 := by omega
  have hk8 : k ≤ 8 := by omega
  interval_cases s <;> interval_cases k <;> rfl

/-- A value that fits a contiguous field is read back from the field unchanged. -/
theorem field_extract (k s v : Nat) (hv : v < 2 ^ k) :
    ((v <<< s) &&& ((2 ^ k - 1) <<< s)) >>> s = v := by
  apply Nat.eq_of_testBit_eq
  intro i
  simp only [Nat.testBit_shiftRight, Nat.testBit_and, Nat.testBit_shiftLeft,
    Nat.testBit_two_pow_sub_one]
  have h1 : s + i ≥ s := by omega
  have h2 : s + i - s = i := by omega
  simp only [h1, h2, decide_True, Bool.true_and]
  by_cases hik : i < k
  · simp [hik]
  · have : Nat.testBit v i = false := by
      apply Nat.testBit_lt_two_pow
      calc v < 2 ^ k := hv
        _ ≤ 2 ^ i := Nat.pow_le_pow_right (by decide) (by omega)
    simp [this]

/-- C2: for every non-zero 8-bit mask, value `v` and read-back byte `d`,
`st_asm330lhh_write_with_mask` issues the write of a byte `w` whose masked bits are
`((v << __ffs(mask)) & mask) mod 2^8`; and when the mask is a contiguous field of width `k`
at bit `s` and `v < 2^k`, then `(w & mask) >> __ffs(mask)` is `v`. -/
theorem write_with_mask_sets_field (β : Type) (tf : st_asm330lhh_transfer_function β)
    (dev dev1 : β) (addr mask v d : Nat) (e : Int)
    (hm0 : mask ≠ 0) (hm : mask < 256) (hr : tf.read dev addr 1 = (e, d, dev1)) (he : 0 ≤ e) :
    ∃ w, st_asm330lhh_write_with_mask tf dev addr mask v = tf.write dev1 addr 1 w
      ∧ w &&& mask = ((v <<< __ffs mask) &&& mask) % 2 ^ 8
      ∧ ∀ k s, 1 ≤ k → k + s ≤ 8 → mask = (2 ^ k - 1) <<< s → v < 2 ^ k →
          (w &&& mask) >>> __ffs mask = v := by
  have _ := hm0
  refine ⟨masked_byte (u8 d) mask v, ?_, ?_, ?_⟩
  · simp [st_asm330lhh_write_with_mask, hr, not_lt.mpr he]
  · rw [masked_byte_inside _ _ _ hm]
    have hlt : (v <<< __ffs mask) &&& mask < 2 ^ 8 :=
      lt_of_le_of_lt Nat.and_le_right hm
    exact (Nat.mod_eq_of_lt hlt).symm
  · intro k s hk hks hmask hv
    rw [masked_byte_inside _ _ _ hm, hmask, ffs_contiguous k s hk hks]
    exact field_extract k s v hv

theorem write_with_mask_sets_field_witness :
    ∃ w, st_asm330lhh_write_with_mask reg_bus ⟨fun _ => 0xCF, []⟩ 0x10 0x30 2
        = reg_bus.write (reg_bus.read ⟨fun _ => 0xCF, []⟩ 0x10 1).2.2 0x10 1 w
      ∧ w &&& 0x30 = ((2 <<< __ffs 0x30) &&& 0x30) % 2 ^ 8
      ∧ ∀ k s, 1 ≤ k → k + s ≤ 8 → 0x30 = (2 ^ k - 1) <<< s → 2 < 2 ^ k →
          (w &&& 0x30) >>> __ffs 0x30 = 2 :=
  write_with_mask_sets_field reg_file reg_bus ⟨fun _ => 0xCF, []⟩ _ 0x10 0x30 2 0xCF 0
    (by decide) (by decide) rfl (by decide)

/-! ## Rate lookup -/

theorem first_index_succ (p : Nat → Bool) (k i : Nat) :
    first_index p (k + 1) i = if p i then i else first_index p k (i + 1) := rfl

/-- A scan in which no slot matches runs to the end. -/
theorem first_index_none (p : Nat → Bool) (k i : Nat) (h : ∀ j, i ≤ j → p j = false) :
    first_index p k i = i + k := by
  induction k generalizing i with
  | zero => rfl
  | succ k ih =>
    rw [first_index_succ, h i (Nat.le_refl i), ih (i + 1) (fun j hj => h j (by omega))]
    simp; omega

/-- The scan stops at or before its bound. -/
theorem first_index_le (p : Nat → Bool) (k i : Nat) : first_index p k i ≤ i + k := by
  induction k generalizing i with
  | zero => exact Nat.le_refl _
  | succ k ih =>
    rw [first_index_succ]
    split
    · omega
    · have := ih (i + 1); omega

theorem odr_avl_at_acc_zero (j : Nat) (h : 7 ≤ j) :
    odr_avl_at ST_ASM330LHH_ID_ACC j = ⟨0, 0⟩ := by
  unfold odr_avl_at st_asm330lhh_odr_table
  exact List.getD_eq_default _ _ (by simpa using h)

theorem odr_avl_at_gyro_zero (j : Nat) (h : 7 ≤ j) :
    odr_avl_at ST_ASM330LHH_ID_GYRO j = ⟨0, 0⟩ := by
  unfold odr_avl_at st_asm330lhh_odr_table
  exact List.getD_eq_default _ _ (by simpa using h)

theorem odr_avl_at_temp_zero (j : Nat) (h : 2 ≤ j) :
    odr_avl_at ST_ASM330LHH_ID_TEMP j = ⟨0, 0⟩ := by
  unfold odr_avl_at st_asm330lhh_odr_table
  exact List.getD_eq_default _ _ (by simpa using h)

theorem get_odr_val_acc (H : st_asm330lhh_h) (hz : Nat)
    (hn : 7 ≤ H.ST_ASM330LHH_ODR_LIST_SIZE) :
    st_asm330lhh_get_odr_val H ST_ASM330LHH_ID_ACC hz =
      if hz ≤ 0 then Except.ok 0 else if hz ≤ 13 then Except.ok 1
      else if hz ≤ 26 then Except.ok 2 else if hz ≤ 52 then Except.ok 3
      else if hz ≤ 104 then Except.ok 4 else if hz ≤ 208 then Except.ok 5
      else if hz ≤ 416 then Except.ok 6 else Except.error (-EINVAL) := by
  obtain ⟨m, hm⟩ : ∃ m, H.ST_ASM330LHH_ODR_LIST_SIZE = m + 7 := ⟨_, (Nat.sub_add_cancel hn).symm⟩
  unfold st_asm330lhh_get_odr_val
  rw [hm]
  simp only [first_index_succ]
  have e0 : odr_avl_at ST_ASM330LHH_ID_ACC 0 = ⟨0, 0⟩ := rfl
  have e1 : odr_avl_at ST_ASM330LHH_ID_ACC 1 = ⟨13, 1⟩ := rfl
  have e2 : odr_avl_at ST_ASM330LHH_ID_ACC 2 = ⟨26, 2⟩ := rfl
  have e3 : odr_avl_at ST_ASM330LHH_ID_ACC 3 = ⟨52, 3⟩ := rfl
  have e4 : odr_avl_at ST_ASM330LHH_ID_ACC 4 = ⟨104, 4⟩ := rfl
  have e5 : odr_avl_at ST_ASM330LHH_ID_ACC 5 = ⟨208, 5⟩ := rfl
  have e6 : odr_avl_at ST_ASM330LHH_ID_ACC 6 = ⟨416, 6⟩ := rfl
  simp only [Nat.zero_add, Nat.reduceAdd, e0, e1, e2, e3, e4, e5, e6, ge_iff_le, decide_eq_true_eq]
  by_cases h0 : hz ≤ 0
  · simp [h0, e0]
  by_cases h1 : hz ≤ 13
  · simp [h0, h1, e0, e1, e2, e3, e4, e5, e6]
  by_cases h2 : hz ≤ 26
  · simp [h0, h1, h2, e0, e1, e2, e3, e4, e5, e6]
  by_cases h3 : hz ≤ 52
  · simp [h0, h1, h2, h3, e0, e1, e2, e3, e4, e5, e6]
  by_cases h4 : hz ≤ 104
  · simp [h0, h1, h2, h3, h4, e0, e1, e2, e3, e4, e5, e6]
  by_cases h5 : hz ≤ 208
  · simp [h0, h1, h2, h3, h4, h5, e0, e1, e2, e3, e4, e5, e6]
  by_cases h6 : hz ≤ 416
  · simp [h0, h1, h2, h3, h4, h5, h6, e0, e1, e2, e3, e4, e5, e6]
  · have hnone : first_index (fun i => decide ((odr_avl_at ST_ASM330LHH_ID_ACC i).hz ≥ hz)) m 7
        = 7 + m := by
      apply first_index_none
      intro j hj
      rw [odr_avl_at_acc_zero j hj]
      simp; omega
    simp only [ge_iff_le] at hnone
    simp [h0, h1, h2, h3, h4, h5, h6, hnone, Nat.add_comm, e0, e1, e2, e3, e4, e5, e6]

theorem get_odr_val_gyro (H : st_asm330lhh_h) (hz : Nat)
    (hn : 7 ≤ H.ST_ASM330LHH_ODR_LIST_SIZE) :
    st_asm330lhh_get_odr_val H ST_ASM330LHH_ID_GYRO hz =
      if hz ≤ 0 then Except.ok 0 else if hz ≤ 13 then Except.ok 1
      else if hz ≤ 26 then Except.ok 2 else if hz ≤ 52 then Except.ok 3
      else if hz ≤ 104 then Except.ok 4 else if hz ≤ 208 then Except.ok 5
      else if hz ≤ 416 then Except.ok 6 else Except.error (-EINVAL) := by
  obtain ⟨m, hm⟩ : ∃ m, H.ST_ASM330LHH_ODR_LIST_SIZE = m + 7 := ⟨_, (Nat.sub_add_cancel hn).symm⟩
  unfold st_asm330lhh_get_odr_val
  rw [hm]
  simp only [first_index_succ]
  have e0 : odr_avl_at ST_ASM330LHH_ID_GYRO 0 = ⟨0, 0⟩ := rfl
  have e1 : odr_avl_at ST_ASM330LHH_ID_GYRO 1 = ⟨13, 1⟩ := rfl
  have e2 : odr_avl_at ST_ASM330LHH_ID_GYRO 2 = ⟨26, 2⟩ := rfl
  have e3 : odr_avl_at ST_ASM330LHH_ID_GYRO 3 = ⟨52, 3⟩ := rfl
  have e4 : odr_avl_at ST_ASM330LHH_ID_GYRO 4 = ⟨104, 4⟩ := rfl
  have e5 : odr_avl_at ST_ASM330LHH_ID_GYRO 5 = ⟨208, 5⟩ := rfl
  have e6 : odr_avl_at ST_ASM330LHH_ID_GYRO 6 = ⟨416, 6⟩ := rfl
  simp only [Nat.zero_add, Nat.reduceAdd, e0, e1, e2, e3, e4, e5, e6, ge_iff_le, decide_eq_true_eq]
  by_cases h0 : hz ≤ 0
  · simp [h0, e0]
  by_cases h1 : hz ≤ 13
  · simp [h0, h1, e0, e1, e2, e3, e4, e5, e6]
  by_cases h2 : hz ≤ 26
  · simp [h0, h1, h2, e0, e1, e2, e3, e4, e5, e6]
  by_cases h3 : hz ≤ 52
  · simp [h0, h1, h2, h3, e0, e1, e2, e3, e4, e5, e6]
  by_cases h4 : hz ≤ 104
  · simp [h0, h1, h2, h3, h4, e0, e1, e2, e3, e4, e5, e6]
  by_cases h5 : hz ≤ 208
  · simp [h0, h1, h2, h3, h4, h5, e0, e1, e2, e3, e4, e5, e6]
  by_cases h6 : hz ≤ 416
  · simp [h0, h1, h2, h3, h4, h5, h6, e0, e1, e2, e3, e4, e5, e6]
  · have hnone : first_index (fun i => decide ((odr_avl_at ST_ASM330LHH_ID_GYRO i).hz ≥ hz)) m 7
        = 7 + m := by
      apply first_index_none
      intro j hj
      rw [odr_avl_at_gyro_zero j hj]
      simp; omega
    simp only [ge_iff_le] at hnone
    simp [h0, h1, h2, h3, h4, h5, h6, hnone, Nat.add_comm, e0, e1, e2, e3, e4, e5, e6]

theorem get_odr_val_temp (H : st_asm330lhh_h) (hz : Nat)
    (hn : 7 ≤ H.ST_ASM330LHH_ODR_LIST_SIZE) :
    st_asm330lhh_get_odr_val H ST_ASM330LHH_ID_TEMP hz =
      if hz ≤ 0 then Except.ok 0 else if hz ≤ 52 then Except.ok 1
      else Except.error (-EINVAL) := by
  obtain ⟨m, hm⟩ : ∃ m, H.ST_ASM330LHH_ODR_LIST_SIZE = m + 2 :=
    ⟨_, (Nat.sub_add_cancel (by omega)).symm⟩
  unfold st_asm330lhh_get_odr_val
  rw [hm]
  simp only [first_index_succ]
  have e0 : odr_avl_at ST_ASM330LHH_ID_TEMP 0 = ⟨0, 0⟩ := rfl
  have e1 : odr_avl_at ST_ASM330LHH_ID_TEMP 1 = ⟨52, 1⟩ := rfl
  simp only [Nat.zero_add, Nat.reduceAdd, e0, e1, ge_iff_le, decide_eq_true_eq]
  by_cases h0 : hz ≤ 0
  · simp [h0, e0]
  by_cases h1 : hz ≤ 52
  · simp [h0, h1, e0, e1]
  · have hnone : first_index (fun i => decide ((odr_avl_at ST_ASM330LHH_ID_TEMP i).hz ≥ hz)) m 2
        = 2 + m := by
      apply first_index_none
      intro j hj
      rw [odr_avl_at_temp_zero j hj]
      simp; omega
    simp only [ge_iff_le] at hnone
    simp [h0, h1, hnone, Nat.add_comm, e0, e1]


theorem odr_slots_acc :
    odr_avl_at ST_ASM330LHH_ID_ACC 0 = ⟨0, 0⟩ ∧ odr_avl_at ST_ASM330LHH_ID_ACC 1 = ⟨13, 1⟩ ∧
    odr_avl_at ST_ASM330LHH_ID_ACC 2 = ⟨26, 2⟩ ∧ odr_avl_at ST_ASM330LHH_ID_ACC 3 = ⟨52, 3⟩ ∧
    odr_avl_at ST_ASM330LHH_ID_ACC 4 = ⟨104, 4⟩ ∧ odr_avl_at ST_ASM330LHH_ID_ACC 5 = ⟨208, 5⟩ ∧
    odr_avl_at ST_ASM330LHH_ID_ACC 6 = ⟨416, 6⟩ :=
  ⟨rfl, rfl, rfl, rfl, rfl, rfl, rfl⟩

theorem odr_slots_gyro :
    odr_avl_at ST_ASM330LHH_ID_GYRO 0 = ⟨0, 0⟩ ∧ odr_avl_at ST_ASM330LHH_ID_GYRO 1 = ⟨13, 1⟩ ∧
    odr_avl_at ST_ASM330LHH_ID_GYRO 2 = ⟨26, 2⟩ ∧ odr_avl_at ST_ASM330LHH_ID_GYRO 3 = ⟨52, 3⟩ ∧
    odr_avl_at ST_ASM330LHH_ID_GYRO 4 = ⟨104, 4⟩ ∧ odr_avl_at ST_ASM330LHH_ID_GYRO 5 = ⟨208, 5⟩ ∧
    odr_avl_at ST_ASM330LHH_ID_GYRO 6 = ⟨416, 6⟩ :=
  ⟨rfl, rfl, rfl, rfl, rfl, rfl, rfl⟩

theorem odr_slots_temp :
    odr_avl_at ST_ASM330LHH_ID_TEMP 0 = ⟨0, 0⟩ ∧ odr_avl_at ST_ASM330LHH_ID_TEMP 1 = ⟨52, 1⟩ :=
  ⟨rfl, rfl⟩

/-- An exact table rate resolves to its own encoding. -/
theorem get_odr_val_exact (H : st_asm330lhh_h) (id : st_asm330lhh_sensor_id) (hz : Nat)
    (hn : 7 ≤ H.ST_ASM330LHH_ODR_LIST_SIZE) :
    ∀ e ∈ (st_asm330lhh_odr_table id).odr_avl, e.hz = hz →
      st_asm330lhh_get_odr_val H id hz = Except.ok e.val := by
  intro e he heq
  cases id
  · rw [get_odr_val_acc H hz hn]
    simp only [st_asm330lhh_odr_table, List.mem_cons, List.mem_singleton, List.not_mem_nil,
      or_false] at he
    rcases he with h | h | h | h | h | h | h <;> subst h <;> subst heq <;> simp
  · rw [get_odr_val_gyro H hz hn]
    simp only [st_asm330lhh_odr_table, List.mem_cons, List.mem_singleton, List.not_mem_nil,
      or_false] at he
    rcases he with h | h | h | h | h | h | h <;> subst h <;> subst heq <;> simp
  · rw [get_odr_val_temp H hz hn]
    simp only [st_asm330lhh_odr_table, List.mem_cons, List.mem_singleton, List.not_mem_nil,
      or_false] at he
    rcases he with h | h <;> subst h <;> subst heq <;> simp

/-- A rate strictly between two consecutive entries resolves to the higher one. -/
theorem get_odr_val_between (H : st_asm330lhh_h) (id : st_asm330lhh_sensor_id) (hz : Nat)
    (hn : 7 ≤ H.ST_ASM330LHH_ODR_LIST_SIZE) :
    ∀ i, i + 1 < (st_asm330lhh_odr_table id).odr_avl.length →
      (odr_avl_at id i).hz < hz → hz < (odr_avl_at id (i + 1)).hz →
      st_asm330lhh_get_odr_val H id hz = Except.ok (odr_avl_at id (i + 1)).val := by
  intro i hi hlo hhi
  obtain ⟨a0, a1, a2, a3, a4, a5, a6⟩ := odr_slots_acc
  obtain ⟨g0, g1, g2, g3, g4, g5, g6⟩ := odr_slots_gyro
  obtain ⟨t0, t1⟩ := odr_slots_temp
  cases id
  · rw [get_odr_val_acc H hz hn]
    have hi6 : i < 6 := by
      simp only [st_asm330lhh_odr_table, List.length_cons, List.length_nil] at hi; omega
    interval_cases i <;> simp only [Nat.zero_add, Nat.reduceAdd, a0, a1, a2, a3, a4, a5, a6]
      at hlo hhi ⊢ <;> simp (disch := omega) only [if_pos, if_neg]
  · rw [get_odr_val_gyro H hz hn]
    have hi6 : i < 6 := by
      simp only [st_asm330lhh_odr_table, List.length_cons, List.length_nil] at hi; omega
    interval_cases i <;> simp only [Nat.zero_add, Nat.reduceAdd, g0, g1, g2, g3, g4, g5, g6]
      at hlo hhi ⊢ <;> simp (disch := omega) only [if_pos, if_neg]
  · rw [get_odr_val_temp H hz hn]
    have hi1 : i < 1 := by
      simp only [st_asm330lhh_odr_table, List.length_cons, List.length_nil] at hi; omega
    interval_cases i
    simp only [Nat.zero_add, t0, t1] at hlo hhi ⊢
    simp (disch := omega) only [if_pos, if_neg]

/-- A rate above every entry of the table is refused. -/
theorem get_odr_val_above (H : st_asm330lhh_h) (id : st_asm330lhh_sensor_id) (hz : Nat)
    (hn : 7 ≤ H.ST_ASM330LHH_ODR_LIST_SIZE) :
    (∀ e ∈ (st_asm330lhh_odr_table id).odr_avl, e.hz < hz) →
      st_asm330lhh_get_odr_val H id hz = Except.error (-EINVAL) := by
  intro hall
  cases id
  · rw [get_odr_val_acc H hz hn]
    have h416 : 416 < hz := hall ⟨416, 6⟩ (by simp [st_asm330lhh_odr_table])
    split_ifs <;> first | rfl | omega
  · rw [get_odr_val_gyro H hz hn]
    have h416 : 416 < hz := hall ⟨416, 6⟩ (by simp [st_asm330lhh_odr_table])
    split_ifs <;> first | rfl | omega
  · rw [get_odr_val_temp H hz hn]
    have h52 : 52 < hz := hall ⟨52, 1⟩ (by simp [st_asm330lhh_odr_table])
    split_ifs <;> first | rfl | omega

/-- C3: for every sensor kind and every 16-bit rate `hz`, with at least the seven initialised
rate slots scanned, `st_asm330lhh_get_odr_val` answers the encoding of the entry whose Hz is
`hz` when there is one, the encoding of the next-higher entry when `hz` lies strictly
between two consecutive entries, and `-EINVAL` with no encoding when `hz` exceeds every
entry; acceleration 53 Hz gives `0x04`, acceleration 417 Hz and temperature 53 Hz fail. -/
theorem get_odr_val_rounds_up (H : st_asm330lhh_h) (id : st_asm330lhh_sensor_id) (hz : Nat)
    (hn : 7 ≤ H.ST_ASM330LHH_ODR_LIST_SIZE) (hhz : hz < 2 ^ 16) :
    (∀ e ∈ (st_asm330lhh_odr_table id).odr_avl, e.hz = hz →
      st_asm330lhh_get_odr_val H id hz = Except.ok e.val) ∧
    (∀ i, i + 1 < (st_asm330lhh_odr_table id).odr_avl.length →
      (odr_avl_at id i).hz < hz → hz < (odr_avl_at id (i + 1)).hz →
      st_asm330lhh_get_odr_val H id hz = Except.ok (odr_avl_at id (i + 1)).val) ∧
    ((∀ e ∈ (st_asm330lhh_odr_table id).odr_avl, e.hz < hz) →
      st_asm330lhh_get_odr_val H id hz = Except.error (-EINVAL)) ∧
    st_asm330lhh_get_odr_val H ST_ASM330LHH_ID_ACC 53 = Except.ok 0x04 ∧
    st_asm330lhh_get_odr_val H ST_ASM330LHH_ID_ACC 417 = Except.error (-EINVAL) ∧
    st_asm330lhh_get_odr_val H ST_ASM330LHH_ID_TEMP 53 = Except.error (-EINVAL) := by
  have _ := hhz
  refine ⟨get_odr_val_exact H id hz hn, get_odr_val_between H id hz hn,
    get_odr_val_above H id hz hn, ?_, ?_, ?_⟩
  · rw [get_odr_val_acc H 53 hn]; simp
  · rw [get_odr_val_acc H 417 hn]; simp
  · rw [get_odr_val_temp H 53 hn]; simp

theorem get_odr_val_rounds_up_witness :
    (∀ e ∈ (st_asm330lhh_odr_table ST_ASM330LHH_ID_GYRO).odr_avl, e.hz = 27 →
      st_asm330lhh_get_odr_val reference_header ST_ASM330LHH_ID_GYRO 27 = Except.ok e.val) ∧
    (∀ i, i + 1 < (st_asm330lhh_odr_table ST_ASM330LHH_ID_GYRO).odr_avl.length →
      (odr_avl_at ST_ASM330LHH_ID_GYRO i).hz < 27 →
      27 < (odr_avl_at ST_ASM330LHH_ID_GYRO (i + 1)).hz →
      st_asm330lhh_get_odr_val reference_header ST_ASM330LHH_ID_GYRO 27
        = Except.ok (odr_avl_at ST_ASM330LHH_ID_GYRO (i + 1)).val) ∧
    ((∀ e ∈ (st_asm330lhh_odr_table ST_ASM330LHH_ID_GYRO).odr_avl, e.hz < 27) →
      st_asm330lhh_get_odr_val reference_header ST_ASM330LHH_ID_GYRO 27
        = Except.error (-EINVAL)) ∧
    st_asm330lhh_get_odr_val reference_header ST_ASM330LHH_ID_ACC 53 = Except.ok 0x04 ∧
    st_asm330lhh_get_odr_val reference_header ST_ASM330LHH_ID_ACC 417
      = Except.error (-EINVAL) ∧
    st_asm330lhh_get_odr_val reference_header ST_ASM330LHH_ID_TEMP 53
      = Except.error (-EINVAL) :=
  get_odr_val_rounds_up reference_header ST_ASM330LHH_ID_GYRO 27 (by decide) (by decide)

/-! ## Scale lookup -/

/-- The scan runs to its bound exactly when no scanned slot matches. -/
theorem first_index_eq_bound_iff (p : Nat → Bool) (k i : Nat) :
    first_index p k i = i + k ↔ ∀ j, i ≤ j → j < i + k → p j = false := by
  induction k generalizing i with
  | zero =>
    constructor
    · intro _ j h1 h2; omega
    · intro _; rfl
  | succ k ih =>
    rw [first_index_succ]
    by_cases hp : p i = true
    · rw [if_pos hp]
      constructor
      · intro h; omega
      · intro h
        have := h i (Nat.le_refl i) (by omega)
        rw [hp] at this; cases this
    · rw [if_neg hp]
      have hpf : p i = false := by simpa using hp
      rw [show i + (k + 1) = (i + 1) + k by omega, ih (i + 1)]
      constructor
      · intro h j h1 h2
        rcases Nat.eq_or_lt_of_le h1 with heq | hlt
        · rw [← heq]; exact hpf
        · exact h j hlt h2
      · intro h j h1 h2
        exact h j (by omega) h2

/-- C4: for every sensor kind and every 32-bit gain `g`, the scan of
`st_asm330lhh_set_full_scale` stops before `size` if and only if `g` is the gain of one of
the first `size` entries of the kind's scale table; and for `g` not among them the function
returns `-EINVAL` with the device state (hence the bus) and the instance, its recorded gain
included, exactly as they were. -/
theorem set_full_scale_exact_match (β : Type) (H : st_asm330lhh_h)
    (tf : st_asm330lhh_transfer_function β) (hw : st_asm330lhh_hw β)
    (sensor : st_asm330lhh_sensor) (g : Nat) (hg : g < 2 ^ 32) :
    (fs_lookup_index H sensor.id g ≠ (st_asm330lhh_fs_table H sensor.id).size ↔
      ∃ i, i < (st_asm330lhh_fs_table H sensor.id).size ∧ (fs_avl_at H sensor.id i).gain = g) ∧
    ((¬ ∃ i, i < (st_asm330lhh_fs_table H sensor.id).size ∧
        (fs_avl_at H sensor.id i).gain = g) →
      st_asm330lhh_set_full_scale H tf hw sensor g = (-EINVAL, hw, sensor) ∧
      (st_asm330lhh_set_full_scale H tf hw sensor g).2.2.gain = sensor.gain) := by
  have _ := hg
  have key : fs_lookup_index H sensor.id g = (st_asm330lhh_fs_table H sensor.id).size ↔
      ¬ ∃ i, i < (st_asm330lhh_fs_table H sensor.id).size ∧
        (fs_avl_at H sensor.id i).gain = g := by
    unfold fs_lookup_index
    have h := first_index_eq_bound_iff (fun i => decide ((fs_avl_at H sensor.id i).gain = g))
      (st_asm330lhh_fs_table H sensor.id).size 0
    rw [Nat.zero_add] at h
    rw [h]
    constructor
    · rintro hall ⟨i, hi, hgi⟩
      have := hall i (Nat.zero_le i) hi
      simp [hgi] at this
    · intro hne j _ hj
      by_cases hgj : (fs_avl_at H sensor.id j).gain = g
      · exact absurd ⟨j, hj, hgj⟩ hne
      · simp [hgj]
  refine ⟨?_, ?_⟩
  · rw [Ne, key, not_not]
  · intro hne
    have hidx := key.mpr hne
    have hres : st_asm330lhh_set_full_scale H tf hw sensor g = (-EINVAL, hw, sensor) := by
      unfold st_asm330lhh_set_full_scale
      simp [hidx]
    exact ⟨hres, by rw [hres]⟩

theorem set_full_scale_exact_match_witness :
    (fs_lookup_index reference_header ST_ASM330LHH_ID_ACC 1197
        ≠ (st_asm330lhh_fs_table reference_header ST_ASM330LHH_ID_ACC).size ↔
      ∃ i, i < (st_asm330lhh_fs_table reference_header ST_ASM330LHH_ID_ACC).size ∧
        (fs_avl_at reference_header ST_ASM330LHH_ID_ACC i).gain = 1197) ∧
    ((¬ ∃ i, i < (st_asm330lhh_fs_table reference_header ST_ASM330LHH_ID_ACC).size ∧
        (fs_avl_at reference_header ST_ASM330LHH_ID_ACC i).gain = 1197) →
      st_asm330lhh_set_full_scale reference_header reg_bus ⟨⟨fun _ => 0, []⟩, 0, 0, []⟩
          ⟨ST_ASM330LHH_ID_ACC, 598, 13, 0, 0, 0, 0, 1, 0, 0⟩ 1197
        = (-EINVAL, ⟨⟨fun _ => 0, []⟩, 0, 0, []⟩,
            ⟨ST_ASM330LHH_ID_ACC, 598, 13, 0, 0, 0, 0, 1, 0, 0⟩) ∧
      (st_asm330lhh_set_full_scale reference_header reg_bus ⟨⟨fun _ => 0, []⟩, 0, 0, []⟩
          ⟨ST_ASM330LHH_ID_ACC, 598, 13, 0, 0, 0, 0, 1, 0, 0⟩ 1197).2.2.gain = 598) :=
  set_full_scale_exact_match reg_file reference_header reg_bus ⟨⟨fun _ => 0, []⟩, 0, 0, []⟩
    ⟨ST_ASM330LHH_ID_ACC, 598, 13, 0, 0, 0, 0, 1, 0, 0⟩ 1197 (by decide)

/-! ## Rate change through `write_raw` -/

theorem std_level_104 (sensor : st_asm330lhh_sensor) :
    st_asm330lhh_set_std_level sensor 104 = (0, { sensor with std_level := 6, std_samples := 0 }) :=
  rfl

/-- C5 (the code at a failing input): on an acceleration instance recording 13 Hz, a
sampling-frequency write of 104 Hz whose masked register write fails with `e < 0` returns
`e`, yet the instance then records 104 Hz: the new rate is stored before the register write
is attempted. -/
theorem write_raw_failed_write_records_new_odr (β : Type) (H : st_asm330lhh_h)
    (tf : st_asm330lhh_transfer_function β) (hw : st_asm330lhh_hw β)
    (sensor : st_asm330lhh_sensor) (e : Int) (dev1 : β)
    (hn : 7 ≤ H.ST_ASM330LHH_ODR_LIST_SIZE)
    (hid : sensor.id = ST_ASM330LHH_ID_ACC) (hodr : sensor.odr = 13)
    (hfail : st_asm330lhh_write_with_mask tf hw.dev ST_ASM330LHH_REG_CTRL1_XL_ADDR
      (GENMASK 7 4) 4 = (e, dev1))
    (he : e < 0) :
    (st_asm330lhh_write_raw H tf hw sensor 104 0 IIO_CHAN_INFO_SAMP_FREQ).1 = e ∧
    (st_asm330lhh_write_raw H tf hw sensor 104 0 IIO_CHAN_INFO_SAMP_FREQ).2.2.odr = 104 ∧
    (st_asm330lhh_write_raw H tf hw sensor 104 0 IIO_CHAN_INFO_SAMP_FREQ).2.2.odr
      ≠ sensor.odr := by
  have h104 : int_to_u16 104 = 104 := rfl
  have hget : st_asm330lhh_get_odr_val H ST_ASM330LHH_ID_ACC 104 = Except.ok 4 := by
    rw [get_odr_val_acc H 104 hn]; simp
  have hres : st_asm330lhh_write_raw H tf hw sensor 104 0 IIO_CHAN_INFO_SAMP_FREQ
      = (e, { hw with dev := dev1 },
          { sensor with std_level := 6, std_samples := 0, odr := 104 }) := by
    have _ := he
    simp only [st_asm330lhh_write_raw, h104, std_level_104, st_asm330lhh_set_odr, hid, hget]
    have hu : u8 4 = 4 := rfl
    have hreg : (st_asm330lhh_odr_table ST_ASM330LHH_ID_ACC).reg
        = ⟨ST_ASM330LHH_REG_CTRL1_XL_ADDR, GENMASK 7 4⟩ := rfl
    simp [hu, hreg, hfail]
  rw [hres]
  refine ⟨rfl, rfl, ?_⟩
  rw [hodr]
  show (104 : Nat) ≠ 13
  omega

theorem write_raw_failed_write_records_new_odr_witness :
    (st_asm330lhh_write_raw reference_header
        ⟨fun s _ _ => (-5, 0, s), fun s _ _ _ => (0, s)⟩
        ⟨(), 0, 0, []⟩ ⟨ST_ASM330LHH_ID_ACC, 598, 13, 0, 0, 0, 0, 1, 0, 0⟩ 104 0
        IIO_CHAN_INFO_SAMP_FREQ).1 = -5 ∧
    (st_asm330lhh_write_raw reference_header
        ⟨fun s _ _ => (-5, 0, s), fun s _ _ _ => (0, s)⟩
        ⟨(), 0, 0, []⟩ ⟨ST_ASM330LHH_ID_ACC, 598, 13, 0, 0, 0, 0, 1, 0, 0⟩ 104 0
        IIO_CHAN_INFO_SAMP_FREQ).2.2.odr = 104 ∧
    (st_asm330lhh_write_raw reference_header
        ⟨fun s _ _ => (-5, 0, s), fun s _ _ _ => (0, s)⟩
        ⟨(), 0, 0, []⟩ ⟨ST_ASM330LHH_ID_ACC, 598, 13, 0, 0, 0, 0, 1, 0, 0⟩ 104 0
        IIO_CHAN_INFO_SAMP_FREQ).2.2.odr
      ≠ (⟨ST_ASM330LHH_ID_ACC, 598, 13, 0, 0, 0, 0, 1, 0, 0⟩ : st_asm330lhh_sensor).odr :=
  write_raw_failed_write_records_new_odr Unit reference_header
    ⟨fun s _ _ => (-5, 0, s), fun s _ _ _ => (0, s)⟩ ⟨(), 0, 0, []⟩
    ⟨ST_ASM330LHH_ID_ACC, 598, 13, 0, 0, 0, 0, 1, 0, 0⟩ (-5) () (by decide) rfl rfl rfl
    (by decide)

/-! ## Power sequencer -/

/-- C6: for each of the six forward steps of `st_asm330lhh_regulator_power_up`, if it is the
first whose return value the function treats as a failure, with value `e`, then the calls
issued are exactly the forward steps up to and including that one followed by the undo
actions of the completed steps in reverse order, and `e` is returned, whatever the undo
calls return; a failure at Vio enable clears Vio load, Vio voltage, disables Vdd, clears Vdd
load and Vdd voltage. -/
theorem power_up_unwinds_completed_steps (rb : regulator_backend) (log0 : List rail_op)
    (k : Nat) (e : Int) (hk : k < 6)
    (hprev : ∀ j, j < k → ¬ step_failed j
      (rb (log0 ++ power_up_steps.take j) (power_up_steps.getD j (regulator_enable vio))))
    (hret : rb (log0 ++ power_up_steps.take k) (power_up_steps.getD k (regulator_enable vio))
      = e)
    (hfail : step_failed k e) :
    st_asm330lhh_regulator_power_up rb log0
      = (e, log0 ++ power_up_steps.take (k + 1) ++ (power_up_undo.take k).reverse) ∧
    (k = 5 → (st_asm330lhh_regulator_power_up rb log0).2
      = log0 ++ power_up_steps ++
        [regulator_set_load vio 0, regulator_set_voltage vio 0 INT_MAX, regulator_disable vdd,
          regulator_set_load vdd 0, regulator_set_voltage vdd 0 INT_MAX]) := by
  have h0 := hprev 0
  have h1 := hprev 1
  have h2 := hprev 2
  have h3 := hprev 3
  have h4 := hprev 4
  clear hprev
  have main : st_asm330lhh_regulator_power_up rb log0
      = (e, log0 ++ power_up_steps.take (k + 1) ++ (power_up_undo.take k).reverse) := by
    interval_cases k <;>
      (simp [power_up_steps, step_failed] at h0 h1 h2 h3 h4 hret hfail
       simp [st_asm330lhh_regulator_power_up, regulator_call, remove_vio_current,
         remove_vio_voltage, disable_vdd, remove_vdd_current, remove_vdd_voltage,
         power_up_steps, power_up_undo, *]
       try (split_ifs <;> first | rfl | omega))
  refine ⟨main, ?_⟩
  intro hk5
  subst hk5
  rw [main]
  simp [power_up_steps, power_up_undo]

theorem power_up_unwinds_completed_steps_witness :
    st_asm330lhh_regulator_power_up vio_enable_fails []
      = (-22, [] ++ power_up_steps.take (5 + 1) ++ (power_up_undo.take 5).reverse) ∧
    (5 = 5 → (st_asm330lhh_regulator_power_up vio_enable_fails []).2
      = [] ++ power_up_steps ++
        [regulator_set_load vio 0, regulator_set_voltage vio 0 INT_MAX, regulator_disable vdd,
          regulator_set_load vdd 0, regulator_set_voltage vdd 0 INT_MAX]) :=
  power_up_unwinds_completed_steps vio_enable_fails [] 5 (-22) (by decide) (by decide) rfl
    (by decide)

/-! ## Probe -/

theorem regulator_shutdown_ret {β : Type} (H : st_asm330lhh_h) (rb : regulator_backend)
    (rails : List rail_op) (err : Int) (hw : st_asm330lhh_hw β) :
    (regulator_shutdown H rb rails err hw).ret = err := by
  unfold regulator_shutdown; split <;> rfl

theorem regulator_shutdown_rails {β : Type} (H : st_asm330lhh_h) (rb : regulator_backend)
    (rails : List rail_op) (err : Int) (hw : st_asm330lhh_hw β) :
    (regulator_shutdown H rb rails err hw).rails
      = if H.asm330_check_regulator then st_asm330lhh_regulator_power_down rb rails
        else rails := by
  unfold regulator_shutdown; split <;> rfl

/-- The label `regulator_shutdown` reached with a non-zero error. -/
theorem regulator_shutdown_outcome {β : Type} (H : st_asm330lhh_h) (rb : regulator_backend)
    (rails : List rail_op) (err : Int) (hw : st_asm330lhh_hw β) (herr : err ≠ 0) :
    ((regulator_shutdown H rb rails err hw).ret = 0 ∧
      (regulator_shutdown H rb rails err hw).rails = rails) ∨
    ((regulator_shutdown H rb rails err hw).ret ≠ 0 ∧
      (regulator_shutdown H rb rails err hw).rails
        = if H.asm330_check_regulator then st_asm330lhh_regulator_power_down rb rails
          else rails) := by
  right
  rw [regulator_shutdown_ret, regulator_shutdown_rails]
  exact ⟨herr, rfl⟩

/-- The store into a `u8` object keeps the low 8 bits. -/
theorem u8_eq (x : Nat) : u8 x = x % 256 := rfl

/-- The store into a `u16` object keeps the low 16 bits. -/
theorem u16_eq (x : Nat) : u16 x = x % 65536 := rfl

/-- The cast `(s16)` reads the low 16 bits as a two's-complement number. -/
theorem s16_eq (x : Nat) :
    s16 x = if x % 65536 < 32768 then ((x % 65536 : Nat) : Int)
      else ((x % 65536 : Nat) : Int) - 65536 := rfl

/-- The cast `(s16)` of a 16-bit object. -/
theorem s16_u16_eq (x : Nat) :
    s16 (u16 x) = if x % 65536 < 32768 then ((x % 65536 : Nat) : Int)
      else ((x % 65536 : Nat) : Int) - 65536 := by
  rw [s16_eq, u16_eq, Nat.mod_mod]

/-- C8: for a temperature instance with cache `c` whose status read succeeds with status
byte `st`. If the data-ready bit of the status byte is set and the 2-byte data read succeeds
with the object `r`, the one-shot read returns `IIO_VAL_INT` and stores the low 16 bits of
`r` read as a two's-complement number (`r` itself below 32768, `r - 65536` from 32768 up to
65535), and the cache becomes those 16 bits. If the bit is clear no further transfer is
issued (the device state is the one left by the status read), the read returns
`IIO_VAL_INT` with the cache `c` read the same way (`c` itself below 32768) and the cache
stays `c`. On the instance built by `st_asm330lhh_alloc_iiodev` (cache 0) with the bit clear
it stores 0. -/
theorem temp_oneshot_uses_cache_unless_data_ready (β : Type) (H : st_asm330lhh_h)
    (tf : st_asm330lhh_transfer_function β) (hw : st_asm330lhh_hw β)
    (sensor : st_asm330lhh_sensor) (addr data0 st : Nat) (e : Int) (dev1 : β)
    (hid : sensor.id = ST_ASM330LHH_ID_TEMP)
    (hst : tf.read hw.dev H.ST_ASM330LHH_REG_STATUS_ADDR 1 = (e, st, dev1)) (he : 0 ≤ e) :
    (∀ (e2 : Int) (r : Nat) (dev2 : β),
      (st % 256) &&& H.ST_ASM330LHH_REG_STATUS_TDA ≠ 0 →
      tf.read dev1 addr 2 = (e2, r, dev2) → 0 ≤ e2 →
      st_asm330lhh_read_oneshot H tf hw sensor addr data0
        = some ⟨H.IIO_VAL_INT,
            some (if r % 65536 < 32768 then ((r % 65536 : Nat) : Int)
              else ((r % 65536 : Nat) : Int) - 65536),
            { hw with dev := dev2 }, { sensor with old_data := r % 65536 }⟩) ∧
    ((st % 256) &&& H.ST_ASM330LHH_REG_STATUS_TDA = 0 →
      st_asm330lhh_read_oneshot H tf hw sensor addr data0
        = some ⟨H.IIO_VAL_INT,
            some (if sensor.old_data % 65536 < 32768 then ((sensor.old_data % 65536 : Nat) : Int)
              else ((sensor.old_data % 65536 : Nat) : Int) - 65536),
            { hw with dev := dev1 }, sensor⟩) ∧
    ((st % 256) &&& H.ST_ASM330LHH_REG_STATUS_TDA = 0 →
      ∀ fresh, st_asm330lhh_alloc_iiodev H true ST_ASM330LHH_ID_TEMP = some fresh →
        st_asm330lhh_read_oneshot H tf hw fresh addr data0
          = some ⟨H.IIO_VAL_INT, some 0, { hw with dev := dev1 }, fresh⟩) := by
  refine ⟨?_, ?_, ?_⟩
  · intro e2 r dev2 hbit hrd he2
    rw [← u8_eq] at hbit
    rw [← s16_u16_eq, ← u16_eq]
    simp [st_asm330lhh_read_oneshot, hid, hst, not_lt.mpr he, hbit, hrd, not_lt.mpr he2]
  · intro hbit
    rw [← u8_eq] at hbit
    rw [← s16_eq]
    simp [st_asm330lhh_read_oneshot, hid, hst, not_lt.mpr he, hbit]
  · intro hbit fresh hfresh
    rw [← u8_eq] at hbit
    simp only [st_asm330lhh_alloc_iiodev, Bool.not_true, Bool.false_eq_true, if_false,
      Option.some.injEq] at hfresh
    subst hfresh
    simp [st_asm330lhh_read_oneshot, hst, not_lt.mpr he, hbit, s16]

theorem temp_oneshot_uses_cache_unless_data_ready_witness :
    ((st_asm330lhh_read_oneshot reference_header reg_bus ⟨temp_ready_device, 0, 0, []⟩
        cached_temp 0x20 0).map
      (fun res => (res.ret, res.val, res.sensor.old_data, res.hw.dev.log))
      = some (1, some (-2), 65534, [bus_op.rd 0x1e 1, bus_op.rd 0x20 2])) ∧
    ((st_asm330lhh_read_oneshot reference_header reg_bus ⟨blank_device, 0, 0, []⟩
        cached_temp 0x20 0).map
      (fun res => (res.ret, res.val, res.sensor.old_data, res.hw.dev.log))
      = some (1, some 7, 7, [bus_op.rd 0x1e 1])) ∧
    ((st_asm330lhh_read_oneshot reference_header reg_bus ⟨blank_device, 0, 0, []⟩
        probed_temp 0x20 0).map
      (fun res => (res.ret, res.val, res.sensor.old_data, res.hw.dev.log))
      = some (1, some 0, 0, [bus_op.rd 0x1e 1])) := by
  refine ⟨?_, ?_, ?_⟩
  · rw [(temp_oneshot_uses_cache_unless_data_ready reg_file reference_header reg_bus
      ⟨temp_ready_device, 0, 0, []⟩ cached_temp 0x20 0 4 0
      (reg_bus.read temp_ready_device 0x1e 1).2.2 rfl rfl (by decide)).1 0 0xFFFE
      (reg_bus.read (reg_bus.read temp_ready_device 0x1e 1).2.2 0x20 2).2.2
      (by decide) rfl (by decide)]
    rfl
  · rw [(temp_oneshot_uses_cache_unless_data_ready reg_file reference_header reg_bus
      ⟨blank_device, 0, 0, []⟩ cached_temp 0x20 0 0 0
      (reg_bus.read blank_device 0x1e 1).2.2 rfl rfl (by decide)).2.1 (by decide)]
    rfl
  · rw [(temp_oneshot_uses_cache_unless_data_ready reg_file reference_header reg_bus
      ⟨blank_device, 0, 0, []⟩ cached_temp 0x20 0 0 0
      (reg_bus.read blank_device 0x1e 1).2.2 rfl rfl (by decide)).2.2 (by decide)
      probed_temp rfl]
    rfl

/-- C9 (the code at a failing input): on a temperature instance, a status read failing with
`e < 0` does not make the one-shot read return `e`: it returns the success code
`IIO_VAL_INT` and stores the indeterminate content of the local `data`; a failing data read
likewise returns `IIO_VAL_INT`. -/
theorem temp_oneshot_swallows_bus_error (β : Type) (H : st_asm330lhh_h)
    (tf : st_asm330lhh_transfer_function β) (hw : st_asm330lhh_hw β)
    (sensor : st_asm330lhh_sensor) (addr data0 st : Nat) (e : Int) (dev1 : β)
    (hid : sensor.id = ST_ASM330LHH_ID_TEMP)
    (hst : tf.read hw.dev H.ST_ASM330LHH_REG_STATUS_ADDR 1 = (e, st, dev1)) :
    (e < 0 →
      st_asm330lhh_read_oneshot H tf hw sensor addr data0
        = some ⟨H.IIO_VAL_INT, some (s16 data0), { hw with dev := dev1 }, sensor⟩) ∧
    (0 ≤ e → u8 st &&& H.ST_ASM330LHH_REG_STATUS_TDA ≠ 0 →
      ∀ (e2 : Int) (r : Nat) (dev2 : β), tf.read dev1 addr 2 = (e2, r, dev2) → e2 < 0 →
      st_asm330lhh_read_oneshot H tf hw sensor addr data0
        = some ⟨H.IIO_VAL_INT, some (s16 (u16 r)), { hw with dev := dev2 }, sensor⟩) := by
  refine ⟨?_, ?_⟩
  · intro he
    simp [st_asm330lhh_read_oneshot, hid, hst, he]
  · intro he hbit e2 r dev2 hrd he2
    simp [st_asm330lhh_read_oneshot, hid, hst, not_lt.mpr he, hbit, hrd, he2]

theorem temp_oneshot_swallows_bus_error_witness :
    ((-5 : Int) < 0 →
      st_asm330lhh_read_oneshot reference_header dead_bus ⟨(), 0, 0, []⟩
          ⟨ST_ASM330LHH_ID_TEMP, 3906, 52, 6400, 0, 0, 0, 1, 0, 0⟩ 0x20 0xBEEF
        = some ⟨reference_header.IIO_VAL_INT, some (s16 0xBEEF),
            { (⟨(), 0, 0, []⟩ : st_asm330lhh_hw Unit) with dev := () },
            ⟨ST_ASM330LHH_ID_TEMP, 3906, 52, 6400, 0, 0, 0, 1, 0, 0⟩⟩) ∧
    ((0 : Int) ≤ -5 → u8 0 &&& reference_header.ST_ASM330LHH_REG_STATUS_TDA ≠ 0 →
      ∀ (e2 : Int) (r : Nat) (dev2 : Unit), dead_bus.read () 0x20 2 = (e2, r, dev2) → e2 < 0 →
      st_asm330lhh_read_oneshot reference_header dead_bus ⟨(), 0, 0, []⟩
          ⟨ST_ASM330LHH_ID_TEMP, 3906, 52, 6400, 0, 0, 0, 1, 0, 0⟩ 0x20 0xBEEF
        = some ⟨reference_header.IIO_VAL_INT, some (s16 (u16 r)),
            { (⟨(), 0, 0, []⟩ : st_asm330lhh_hw Unit) with dev := dev2 },
            ⟨ST_ASM330LHH_ID_TEMP, 3906, 52, 6400, 0, 0, 0, 1, 0, 0⟩⟩) :=
  temp_oneshot_swallows_bus_error Unit reference_header dead_bus ⟨(), 0, 0, []⟩
    ⟨ST_ASM330LHH_ID_TEMP, 3906, 52, 6400, 0, 0, 0, 1, 0, 0⟩ 0x20 0xBEEF 0 (-5) () rfl rfl

/-! ## Suspend and resume -/

/-- C10 (as stated, refuted): on a device whose acceleration instance is enabled and records
104 Hz while the ODR bit-field of `CTRL1_XL` holds 1, with every transfer succeeding, the
field holds 4 after suspend-then-resume: not its pre-suspend value. -/
theorem suspend_resume_field_differs :
    stale_rate_hw.enable_mask &&& BIT (reference_header.id_value ST_ASM330LHH_ID_ACC) ≠ 0 ∧
    odr_field stale_rate_hw.dev.mem ST_ASM330LHH_ID_ACC = 1 ∧
    odr_field
      (st_asm330lhh_resume reference_header reg_bus (fun hw _ => (0, hw))
        (st_asm330lhh_suspend reference_header reg_bus (fun hw => (0, hw))
          stale_rate_hw).2).2.dev.mem ST_ASM330LHH_ID_ACC = 4 := by
  refine ⟨by decide, by decide, by decide⟩

/-- On the ideal register file a masked write succeeds, stores the merged byte and logs one
read and one write of the register. -/
theorem write_with_mask_reg_bus (dev : reg_file) (addr mask val : Nat) :
    st_asm330lhh_write_with_mask reg_bus dev addr mask val
      = (0, ⟨reg_store dev.mem addr 1 (masked_byte (u8 (reg_load dev.mem addr 1)) mask val),
          dev.log ++ [bus_op.rd addr 1] ++
            [bus_op.wr addr 1 (masked_byte (u8 (reg_load dev.mem addr 1)) mask val)]⟩) := by
  simp [st_asm330lhh_write_with_mask, reg_bus]

theorem reg_store_same (mem : Nat → Nat) (addr w : Nat) (hw : w < 256) :
    reg_store mem addr 1 w addr = w := by
  simp [reg_store, Nat.mod_eq_of_lt hw]

theorem reg_store_other (mem : Nat → Nat) (addr w a : Nat) (ha : addr ≠ a) :
    reg_store mem addr 1 w a = mem a := by
  unfold reg_store
  rw [if_neg]
  omega

theorem u8_reg_load_one (mem : Nat → Nat) (addr : Nat) :
    u8 (reg_load mem addr 1) = u8 (mem addr) := by
  simp [reg_load, u8]

theorem writes_to_append (a : Nat) (l1 l2 : List bus_op) :
    writes_to a (l1 ++ l2) = writes_to a l1 ++ writes_to a l2 := by
  simp [writes_to, List.filterMap_append]

/-- The registers of the three kinds are pairwise distinct. -/
theorem odr_reg_addr_injective (c d : st_asm330lhh_sensor_id)
    (h : (st_asm330lhh_odr_table c).reg.addr = (st_asm330lhh_odr_table d).reg.addr) : c = d := by
  cases c <;> cases d <;> first | rfl | (exact absurd h (by decide))

/-- Every encoding the rate lookup answers fits the four-bit ODR field. -/
theorem get_odr_val_lt (H : st_asm330lhh_h) (id : st_asm330lhh_sensor_id) (odr v : Nat)
    (hn : 7 ≤ H.ST_ASM330LHH_ODR_LIST_SIZE)
    (h : st_asm330lhh_get_odr_val H id odr = Except.ok v) : v < 16 := by
  cases id
  · rw [get_odr_val_acc H odr hn] at h
    split_ifs at h <;> cases h <;> omega
  · rw [get_odr_val_gyro H odr hn] at h
    split_ifs at h <;> cases h <;> omega
  · rw [get_odr_val_temp H odr hn] at h
    split_ifs at h <;> cases h <;> omega

/-- The rate 0 resolves to the off encoding 0 for every kind. -/
theorem get_odr_val_zero (H : st_asm330lhh_h) (id : st_asm330lhh_sensor_id)
    (hn : 7 ≤ H.ST_ASM330LHH_ODR_LIST_SIZE) :
    st_asm330lhh_get_odr_val H id 0 = Except.ok 0 := by
  cases id
  · rw [get_odr_val_acc H 0 hn]; simp
  · rw [get_odr_val_gyro H 0 hn]; simp
  · rw [get_odr_val_temp H 0 hn]; simp

/-- On the ideal register file, a resolvable rate is written into the kind's register:
the call succeeds, touches the handle's device state only, stores the merged byte and logs
one read and one write of that register. -/
theorem set_odr_reg_bus (H : st_asm330lhh_h) (hw : st_asm330lhh_hw reg_file)
    (sensor : st_asm330lhh_sensor) (odr v : Nat)
    (hv : st_asm330lhh_get_odr_val H sensor.id odr = Except.ok v) :
    ∃ hw1, st_asm330lhh_set_odr H reg_bus hw sensor odr = (0, hw1) ∧
      hw1.iio_devs = hw.iio_devs ∧ hw1.enable_mask = hw.enable_mask ∧
      hw1.dev.mem = reg_store hw.dev.mem (st_asm330lhh_odr_table sensor.id).reg.addr 1
        (masked_byte (u8 (hw.dev.mem (st_asm330lhh_odr_table sensor.id).reg.addr))
          (st_asm330lhh_odr_table sensor.id).reg.mask (u8 v)) ∧
      hw1.dev.log = hw.dev.log ++ [bus_op.rd (st_asm330lhh_odr_table sensor.id).reg.addr 1] ++
        [bus_op.wr (st_asm330lhh_odr_table sensor.id).reg.addr 1
          (masked_byte (u8 (hw.dev.mem (st_asm330lhh_odr_table sensor.id).reg.addr))
            (st_asm330lhh_odr_table sensor.id).reg.mask (u8 v))] := by
  refine ⟨{ hw with dev :=
      ⟨reg_store hw.dev.mem (st_asm330lhh_odr_table sensor.id).reg.addr 1
          (masked_byte (u8 (hw.dev.mem (st_asm330lhh_odr_table sensor.id).reg.addr))
            (st_asm330lhh_odr_table sensor.id).reg.mask (u8 v)),
        hw.dev.log ++ [bus_op.rd (st_asm330lhh_odr_table sensor.id).reg.addr 1] ++
          [bus_op.wr (st_asm330lhh_odr_table sensor.id).reg.addr 1
            (masked_byte (u8 (hw.dev.mem (st_asm330lhh_odr_table sensor.id).reg.addr))
              (st_asm330lhh_odr_table sensor.id).reg.mask (u8 v))]⟩ }, ?_, rfl, rfl, rfl, rfl⟩
  unfold st_asm330lhh_set_odr
  rw [hv]
  simp only [write_with_mask_reg_bus, u8_reg_load_one]

/-- The ODR field of an acceleration or angular-rate register after a masked write of an
encoding below 16 holds that encoding. -/
theorem odr_field_after_write (mem : Nat → Nat) (id : st_asm330lhh_sensor_id) (d v : Nat)
    (hid : id ≠ ST_ASM330LHH_ID_TEMP) (hv : v < 16)
    (hmem : mem (st_asm330lhh_odr_table id).reg.addr
      = masked_byte d (st_asm330lhh_odr_table id).reg.mask (u8 v)) :
    odr_field mem id = v := by
  have hmask : (st_asm330lhh_odr_table id).reg.mask = (2 ^ 4 - 1) <<< 4 := by
    cases id <;> first | rfl | exact absurd rfl hid
  unfold odr_field
  rw [hmem, hmask, masked_byte_inside _ _ _ (by decide), ffs_contiguous 4 4 (by decide) (by decide)]
  have hu : u8 v = v := Nat.mod_eq_of_lt (by omega)
  rw [hu]
  exact field_extract 4 4 v hv

theorem pm_odr_loop_succ {β : Type} (H : st_asm330lhh_h) (tf : st_asm330lhh_transfer_function β)
    (odr_of : st_asm330lhh_sensor → Nat) (k i : Nat) (err : Int) (hw : st_asm330lhh_hw β) :
    pm_odr_loop H tf odr_of (k + 1) i err hw =
      match hw.iio_devs.getD i none with
      | none => pm_odr_loop H tf odr_of k (i + 1) err hw
      | some sensor =>
        if hw.enable_mask &&& BIT (H.id_value sensor.id) = 0 then
          pm_odr_loop H tf odr_of k (i + 1) err hw
        else
          match st_asm330lhh_set_odr H tf hw sensor (odr_of sensor) with
          | (err1, hw1) =>
            if err1 < 0 then (true, err1, hw1)
            else pm_odr_loop H tf odr_of k (i + 1) err1 hw1 := rfl

/-- On the ideal register file, when every enabled instance in the slots scanned has a
resolvable rate, the loop runs to its end, leaves the instances and the enable mask alone,
and leaves alone every register that is the ODR register of no enabled instance scanned:
its content is kept and no write to it is logged. -/
theorem pm_odr_loop_frame (H : st_asm330lhh_h) (odr_of : st_asm330lhh_sensor → Nat)
    (D : List (Option st_asm330lhh_sensor)) (M : Nat) (k : Nat) :
    ∀ (i : Nat) (err : Int) (hw : st_asm330lhh_hw reg_file),
      hw.iio_devs = D → hw.enable_mask = M → 0 ≤ err →
      (∀ j t, i ≤ j → j < i + k → D.getD j none = some t →
        M &&& BIT (H.id_value t.id) ≠ 0 →
        ∃ v, st_asm330lhh_get_odr_val H t.id (odr_of t) = Except.ok v) →
      (pm_odr_loop H reg_bus odr_of k i err hw).1 = false ∧
      0 ≤ (pm_odr_loop H reg_bus odr_of k i err hw).2.1 ∧
      (pm_odr_loop H reg_bus odr_of k i err hw).2.2.iio_devs = D ∧
      (pm_odr_loop H reg_bus odr_of k i err hw).2.2.enable_mask = M ∧
      ∀ a, (∀ j t, i ≤ j → j < i + k → D.getD j none = some t →
          M &&& BIT (H.id_value t.id) ≠ 0 → (st_asm330lhh_odr_table t.id).reg.addr ≠ a) →
        (pm_odr_loop H reg_bus odr_of k i err hw).2.2.dev.mem a = hw.dev.mem a ∧
        writes_to a (pm_odr_loop H reg_bus odr_of k i err hw).2.2.dev.log
          = writes_to a hw.dev.log := by
  induction k with
  | zero =>
    intro i err hw hD hM herr _
    exact ⟨rfl, herr, hD, hM, fun a _ => ⟨rfl, rfl⟩⟩
  | succ k ih =>
    intro i err hw hD hM herr hres
    have hres' : ∀ j t, i + 1 ≤ j → j < i + 1 + k → D.getD j none = some t →
        M &&& BIT (H.id_value t.id) ≠ 0 →
        ∃ v, st_asm330lhh_get_odr_val H t.id (odr_of t) = Except.ok v :=
      fun j t h1 h2 => hres j t (by omega) (by omega)
    rw [pm_odr_loop_succ, hD, hM]
    cases hslot : D.getD i none with
    | none =>
      simp only
      obtain ⟨r1, r2, r3, r4, r5⟩ := ih (i + 1) err hw hD hM herr hres'
      exact ⟨r1, r2, r3, r4, fun a ha => r5 a (fun j t h1 h2 => ha j t (by omega) (by omega))⟩
    | some t =>
      simp only
      by_cases hen : M &&& BIT (H.id_value t.id) = 0
      · rw [if_pos hen]
        obtain ⟨r1, r2, r3, r4, r5⟩ := ih (i + 1) err hw hD hM herr hres'
        exact ⟨r1, r2, r3, r4, fun a ha => r5 a (fun j t h1 h2 => ha j t (by omega) (by omega))⟩
      · rw [if_neg hen]
        obtain ⟨v, hv⟩ := hres i t (Nat.le_refl i) (by omega) hslot hen
        obtain ⟨hw1, hset, hd1, hm1, hmem1, hlog1⟩ := set_odr_reg_bus H hw t (odr_of t) v hv
        rw [hset]
        simp only [lt_self_iff_false, if_false]
        obtain ⟨r1, r2, r3, r4, r5⟩ := ih (i + 1) 0 hw1 (hd1.trans hD) (hm1.trans hM)
          (Int.le_refl 0) hres'
        refine ⟨r1, r2, r3, r4, fun a ha => ?_⟩
        obtain ⟨m1, m2⟩ := r5 a (fun j t h1 h2 => ha j t (by omega) (by omega))
        have hne := ha i t (Nat.le_refl i) (by omega) hslot hen
        refine ⟨?_, ?_⟩
        · rw [m1, hmem1]
          exact reg_store_other _ _ _ _ hne
        · rw [m2, hlog1]
          simp [writes_to, List.filterMap_append, hne]

/-- On the ideal register file, the register of the one enabled instance of a kind among the
slots scanned ends up holding the byte merged from its content before the loop and the
encoding of the rate asked for that instance. -/
theorem pm_odr_loop_target (H : st_asm330lhh_h) (odr_of : st_asm330lhh_sensor → Nat)
    (D : List (Option st_asm330lhh_sensor)) (M : Nat) (j : Nat) (s : st_asm330lhh_sensor)
    (v : Nat) (hs : D.getD j none = some s) (hsen : M &&& BIT (H.id_value s.id) ≠ 0)
    (hv : st_asm330lhh_get_odr_val H s.id (odr_of s) = Except.ok v) (k : Nat) :
    ∀ (i : Nat) (err : Int) (hw : st_asm330lhh_hw reg_file),
      hw.iio_devs = D → hw.enable_mask = M → 0 ≤ err →
      (∀ j' t, i ≤ j' → j' < i + k → D.getD j' none = some t →
        M &&& BIT (H.id_value t.id) ≠ 0 →
        ∃ v', st_asm330lhh_get_odr_val H t.id (odr_of t) = Except.ok v') →
      i ≤ j → j < i + k →
      (∀ j' t, i ≤ j' → j' < i + k → D.getD j' none = some t → t.id = s.id → j' = j) →
      (pm_odr_loop H reg_bus odr_of k i err hw).2.2.dev.mem
          (st_asm330lhh_odr_table s.id).reg.addr
        = masked_byte (u8 (hw.dev.mem (st_asm330lhh_odr_table s.id).reg.addr))
            (st_asm330lhh_odr_table s.id).reg.mask (u8 v) := by
  induction k with
  | zero =>
    intro i err hw _ _ _ _ h1 h2 _
    omega
  | succ k ih =>
    intro i err hw hD hM herr hres hij hjk huniq
    have hres' : ∀ j' t, i + 1 ≤ j' → j' < i + 1 + k → D.getD j' none = some t →
        M &&& BIT (H.id_value t.id) ≠ 0 →
        ∃ v', st_asm330lhh_get_odr_val H t.id (odr_of t) = Except.ok v' :=
      fun j' t h1 h2 => hres j' t (by omega) (by omega)
    have huniq' : ∀ j' t, i + 1 ≤ j' → j' < i + 1 + k → D.getD j' none = some t →
        t.id = s.id → j' = j :=
      fun j' t h1 h2 => huniq j' t (by omega) (by omega)
    rw [pm_odr_loop_succ, hD, hM]
    by_cases hij' : i = j
    · subst hij'
      rw [hs]
      simp only
      rw [if_neg hsen]
      obtain ⟨hw1, hset, hd1, hm1, hmem1, _⟩ := set_odr_reg_bus H hw s (odr_of s) v hv
      rw [hset]
      simp only [lt_self_iff_false, if_false]
      obtain ⟨_, _, _, _, r5⟩ := pm_odr_loop_frame H odr_of D M k (i + 1) 0 hw1 (hd1.trans hD)
        (hm1.trans hM) (Int.le_refl 0) hres'
      have hfr := r5 (st_asm330lhh_odr_table s.id).reg.addr (by
        intro j' t h1 h2 ht _ haddr
        have := huniq' j' t h1 h2 ht (odr_reg_addr_injective _ _ haddr)
        omega)
      rw [hfr.1, hmem1]
      exact reg_store_same _ _ _ (masked_byte_lt _ _ _)
    · have hij1 : i + 1 ≤ j := by omega
      have hjk1 : j < i + 1 + k := by omega
      cases hslot : D.getD i none with
      | none =>
        simp only
        exact ih (i + 1) err hw hD hM herr hres' hij1 hjk1 huniq'
      | some t =>
        simp only
        by_cases hen : M &&& BIT (H.id_value t.id) = 0
        · rw [if_pos hen]
          exact ih (i + 1) err hw hD hM herr hres' hij1 hjk1 huniq'
        · rw [if_neg hen]
          obtain ⟨v', hv'⟩ := hres i t (Nat.le_refl i) (by omega) hslot hen
          obtain ⟨hw1, hset, hd1, hm1, hmem1, _⟩ := set_odr_reg_bus H hw t (odr_of t) v' hv'
          rw [hset]
          simp only [lt_self_iff_false, if_false]
          rw [ih (i + 1) 0 hw1 (hd1.trans hD) (hm1.trans hM) (Int.le_refl 0) hres' hij1 hjk1
            huniq', hmem1]
          have hne : (st_asm330lhh_odr_table t.id).reg.addr
              ≠ (st_asm330lhh_odr_table s.id).reg.addr := by
            intro haddr
            exact hij' (huniq i t (Nat.le_refl i) (by omega) hslot
              (odr_reg_addr_injective _ _ haddr))
          rw [reg_store_other _ _ _ _ hne]

theorem suspend_unfold {β : Type} (H : st_asm330lhh_h) (tf : st_asm330lhh_transfer_function β)
    (suspend_fifo : st_asm330lhh_hw β → Int × st_asm330lhh_hw β) (hw : st_asm330lhh_hw β) :
    st_asm330lhh_suspend H tf suspend_fifo hw =
      if (pm_odr_loop H tf (fun _ => 0) H.ST_ASM330LHH_ID_MAX 0 0 hw).1 = true then
        (pm_odr_loop H tf (fun _ => 0) H.ST_ASM330LHH_ID_MAX 0 0 hw).2
      else if (pm_odr_loop H tf (fun _ => 0) H.ST_ASM330LHH_ID_MAX 0 0 hw).2.2.enable_mask ≠ 0
        then suspend_fifo (pm_odr_loop H tf (fun _ => 0) H.ST_ASM330LHH_ID_MAX 0 0 hw).2.2
      else (pm_odr_loop H tf (fun _ => 0) H.ST_ASM330LHH_ID_MAX 0 0 hw).2 := by
  unfold st_asm330lhh_suspend
  rcases pm_odr_loop H tf (fun _ => 0) H.ST_ASM330LHH_ID_MAX 0 0 hw with ⟨b, err, hw1⟩
  cases b <;> simp

theorem resume_unfold {β : Type} (H : st_asm330lhh_h) (tf : st_asm330lhh_transfer_function β)
    (set_fifo_mode : st_asm330lhh_hw β → Nat → Int × st_asm330lhh_hw β)
    (hw : st_asm330lhh_hw β) :
    st_asm330lhh_resume H tf set_fifo_mode hw =
      if (pm_odr_loop H tf (fun t => t.odr) H.ST_ASM330LHH_ID_MAX 0 0 hw).1 = true then
        (pm_odr_loop H tf (fun t => t.odr) H.ST_ASM330LHH_ID_MAX 0 0 hw).2
      else if (pm_odr_loop H tf (fun t => t.odr) H.ST_ASM330LHH_ID_MAX 0 0 hw).2.2.enable_mask
          ≠ 0
        then set_fifo_mode (pm_odr_loop H tf (fun t => t.odr) H.ST_ASM330LHH_ID_MAX 0 0 hw).2.2
          H.ST_ASM330LHH_FIFO_CONT
      else (pm_odr_loop H tf (fun t => t.odr) H.ST_ASM330LHH_ID_MAX 0 0 hw).2 := by
  unfold st_asm330lhh_resume
  rcases pm_odr_loop H tf (fun t => t.odr) H.ST_ASM330LHH_ID_MAX 0 0 hw with ⟨b, err, hw1⟩
  cases b <;> simp

/-- The shape common to suspend and resume on the ideal register file: the loop, then the
streaming collaborator when the enable mask is non-zero. For the one enabled instance `s` of
an acceleration or angular-rate kind, its register ends up merged with the encoding `v` of
the rate asked; instances and enable mask are unchanged; the control register of a kind whose
bit is clear is not written. -/
theorem pm_transition_reg_bus (H : st_asm330lhh_h) (odr_of : st_asm330lhh_sensor → Nat)
    (f : st_asm330lhh_hw reg_file → Int × st_asm330lhh_hw reg_file)
    (hw : st_asm330lhh_hw reg_file) (j : Nat) (s : st_asm330lhh_sensor) (v : Nat)
    (hf : fifo_frame f)
    (hj : j < H.ST_ASM330LHH_ID_MAX) (hs : hw.iio_devs.getD j none = some s)
    (hkind : s.id ≠ ST_ASM330LHH_ID_TEMP)
    (hen : hw.enable_mask &&& BIT (H.id_value s.id) ≠ 0)
    (hv : st_asm330lhh_get_odr_val H s.id (odr_of s) = Except.ok v)
    (huniq : ∀ j' t, j' < H.ST_ASM330LHH_ID_MAX → hw.iio_devs.getD j' none = some t →
      t.id = s.id → j' = j)
    (hres : ∀ j' t, j' < H.ST_ASM330LHH_ID_MAX → hw.iio_devs.getD j' none = some t →
      hw.enable_mask &&& BIT (H.id_value t.id) ≠ 0 →
      ∃ v', st_asm330lhh_get_odr_val H t.id (odr_of t) = Except.ok v')
    (r : Int × st_asm330lhh_hw reg_file)
    (hr : r =
      if (pm_odr_loop H reg_bus odr_of H.ST_ASM330LHH_ID_MAX 0 0 hw).1 = true then
        (pm_odr_loop H reg_bus odr_of H.ST_ASM330LHH_ID_MAX 0 0 hw).2
      else if (pm_odr_loop H reg_bus odr_of H.ST_ASM330LHH_ID_MAX 0 0 hw).2.2.enable_mask ≠ 0
        then f (pm_odr_loop H reg_bus odr_of H.ST_ASM330LHH_ID_MAX 0 0 hw).2.2
      else (pm_odr_loop H reg_bus odr_of H.ST_ASM330LHH_ID_MAX 0 0 hw).2) :
    r.2.iio_devs = hw.iio_devs ∧ r.2.enable_mask = hw.enable_mask ∧
    r.2.dev.mem (st_asm330lhh_odr_table s.id).reg.addr
      = masked_byte (u8 (hw.dev.mem (st_asm330lhh_odr_table s.id).reg.addr))
          (st_asm330lhh_odr_table s.id).reg.mask (u8 v) ∧
    ∀ c, c ≠ ST_ASM330LHH_ID_TEMP → hw.enable_mask &&& BIT (H.id_value c) = 0 →
      writes_to (st_asm330lhh_odr_table c).reg.addr r.2.dev.log
        = writes_to (st_asm330lhh_odr_table c).reg.addr hw.dev.log := by
  have hctrl : ∀ c, c ≠ ST_ASM330LHH_ID_TEMP →
      (st_asm330lhh_odr_table c).reg.addr = ST_ASM330LHH_REG_CTRL1_XL_ADDR ∨
      (st_asm330lhh_odr_table c).reg.addr = ST_ASM330LHH_REG_CTRL2_G_ADDR := by
    intro c hc
    cases c
    · exact Or.inl rfl
    · exact Or.inr rfl
    · exact absurd rfl hc
  have hres0 : ∀ j' t, 0 ≤ j' → j' < 0 + H.ST_ASM330LHH_ID_MAX →
      hw.iio_devs.getD j' none = some t → hw.enable_mask &&& BIT (H.id_value t.id) ≠ 0 →
      ∃ v', st_asm330lhh_get_odr_val H t.id (odr_of t) = Except.ok v' :=
    fun j' t _ h2 => hres j' t (by omega)
  obtain ⟨l1, _, l3, l4, l5⟩ := pm_odr_loop_frame H odr_of hw.iio_devs hw.enable_mask
    H.ST_ASM330LHH_ID_MAX 0 0 hw rfl rfl (Int.le_refl 0) hres0
  have ltgt := pm_odr_loop_target H odr_of hw.iio_devs hw.enable_mask j s v hs hen hv
    H.ST_ASM330LHH_ID_MAX 0 0 hw rfl rfl (Int.le_refl 0) hres0 (Nat.zero_le j) (by omega)
    (fun j' t _ h2 => huniq j' t (by omega))
  have lclear : ∀ c, hw.enable_mask &&& BIT (H.id_value c) = 0 →
      writes_to (st_asm330lhh_odr_table c).reg.addr
          (pm_odr_loop H reg_bus odr_of H.ST_ASM330LHH_ID_MAX 0 0 hw).2.2.dev.log
        = writes_to (st_asm330lhh_odr_table c).reg.addr hw.dev.log := by
    intro c hc
    refine (l5 _ ?_).2
    intro j' t _ _ _ hten haddr
    rw [odr_reg_addr_injective _ _ haddr] at hten
    exact hten hc
  rcases hloop : pm_odr_loop H reg_bus odr_of H.ST_ASM330LHH_ID_MAX 0 0 hw with ⟨b, err, hw1⟩
  rw [hloop] at l1 l3 l4 ltgt lclear
  simp only at l1 l3 l4 ltgt lclear
  subst l1
  rw [hloop] at hr
  simp only [Bool.false_eq_true, if_false] at hr
  by_cases hm : hw1.enable_mask ≠ 0
  · rw [if_pos hm] at hr
    subst hr
    obtain ⟨f1, f2, f3⟩ := hf hw1
    refine ⟨f2.trans l3, f1.trans l4, ?_, ?_⟩
    · rw [(f3 _ (hctrl s.id hkind)).1]
      exact ltgt
    · intro c hc hclear
      rw [(f3 _ (hctrl c hc)).2]
      exact lclear c hclear
  · rw [if_neg hm] at hr
    subst hr
    exact ⟨l3, l4, ltgt, fun c _ hclear => lclear c hclear⟩

/-- C10 (amended): on the ideal register file (every transfer succeeds), with streaming
collaborators that leave the enable mask, the instances and the two control registers alone,
for a handle holding one instance per kind whose enabled instances record resolvable rates,
and for an acceleration or angular-rate instance `s` whose bit is set: after
`st_asm330lhh_suspend` the ODR bit-field of its register holds the off encoding 0 while the
instances (hence every recorded ODR) and the enable mask are unchanged; after the following
`st_asm330lhh_resume` the field holds the encoding of the recorded ODR, instances and enable
mask still unchanged, so the field equals its pre-suspend value whenever it held that
encoding before the suspend; and the control register of a kind whose bit is clear is written
in neither transition. -/
theorem suspend_resume_restores_recorded_odr (H : st_asm330lhh_h)
    (suspend_fifo : st_asm330lhh_hw reg_file → Int × st_asm330lhh_hw reg_file)
    (set_fifo_mode : st_asm330lhh_hw reg_file → Nat → Int × st_asm330lhh_hw reg_file)
    (hw : st_asm330lhh_hw reg_file) (j : Nat) (s : st_asm330lhh_sensor)
    (hn : 7 ≤ H.ST_ASM330LHH_ODR_LIST_SIZE)
    (hf1 : fifo_frame suspend_fifo)
    (hf2 : fifo_frame (fun hw1 => set_fifo_mode hw1 H.ST_ASM330LHH_FIFO_CONT))
    (hj : j < H.ST_ASM330LHH_ID_MAX) (hs : hw.iio_devs.getD j none = some s)
    (hkind : s.id ≠ ST_ASM330LHH_ID_TEMP)
    (hen : hw.enable_mask &&& BIT (H.id_value s.id) ≠ 0)
    (huniq : ∀ j' t, j' < H.ST_ASM330LHH_ID_MAX → hw.iio_devs.getD j' none = some t →
      t.id = s.id → j' = j)
    (hres : ∀ j' t, j' < H.ST_ASM330LHH_ID_MAX → hw.iio_devs.getD j' none = some t →
      hw.enable_mask &&& BIT (H.id_value t.id) ≠ 0 →
      ∃ v, st_asm330lhh_get_odr_val H t.id t.odr = Except.ok v) :
    odr_field (st_asm330lhh_suspend H reg_bus suspend_fifo hw).2.dev.mem s.id = 0 ∧
    (st_asm330lhh_suspend H reg_bus suspend_fifo hw).2.iio_devs = hw.iio_devs ∧
    (st_asm330lhh_suspend H reg_bus suspend_fifo hw).2.enable_mask = hw.enable_mask ∧
    (∃ v, st_asm330lhh_get_odr_val H s.id s.odr = Except.ok v ∧
      odr_field (st_asm330lhh_resume H reg_bus set_fifo_mode
        (st_asm330lhh_suspend H reg_bus suspend_fifo hw).2).2.dev.mem s.id = v ∧
      (odr_field hw.dev.mem s.id = v →
        odr_field (st_asm330lhh_resume H reg_bus set_fifo_mode
          (st_asm330lhh_suspend H reg_bus suspend_fifo hw).2).2.dev.mem s.id
          = odr_field hw.dev.mem s.id)) ∧
    (st_asm330lhh_resume H reg_bus set_fifo_mode
      (st_asm330lhh_suspend H reg_bus suspend_fifo hw).2).2.iio_devs = hw.iio_devs ∧
    (st_asm330lhh_resume H reg_bus set_fifo_mode
      (st_asm330lhh_suspend H reg_bus suspend_fifo hw).2).2.enable_mask = hw.enable_mask ∧
    ∀ c, c ≠ ST_ASM330LHH_ID_TEMP → hw.enable_mask &&& BIT (H.id_value c) = 0 →
      writes_to (st_asm330lhh_odr_table c).reg.addr
          (st_asm330lhh_suspend H reg_bus suspend_fifo hw).2.dev.log
        = writes_to (st_asm330lhh_odr_table c).reg.addr hw.dev.log ∧
      writes_to (st_asm330lhh_odr_table c).reg.addr
          (st_asm330lhh_resume H reg_bus set_fifo_mode
            (st_asm330lhh_suspend H reg_bus suspend_fifo hw).2).2.dev.log
        = writes_to (st_asm330lhh_odr_table c).reg.addr hw.dev.log := by
  obtain ⟨a1, a2, a3, a4⟩ := pm_transition_reg_bus H (fun _ => 0) suspend_fifo hw j s 0 hf1 hj
    hs hkind hen (get_odr_val_zero H s.id hn) huniq
    (fun _ t _ _ _ => ⟨0, get_odr_val_zero H t.id hn⟩)
    (st_asm330lhh_suspend H reg_bus suspend_fifo hw) (suspend_unfold _ _ _ _)
  obtain ⟨v, hv⟩ := hres j s hj hs hen
  obtain ⟨b1, b2, b3, b4⟩ := pm_transition_reg_bus H (fun t => t.odr)
    (fun hw1 => set_fifo_mode hw1 H.ST_ASM330LHH_FIFO_CONT)
    (st_asm330lhh_suspend H reg_bus suspend_fifo hw).2 j s v hf2 hj
    (by rw [a1]; exact hs) hkind (by rw [a2]; exact hen) hv
    (by rw [a1]; exact huniq) (by rw [a1, a2]; exact hres)
    (st_asm330lhh_resume H reg_bus set_fifo_mode
      (st_asm330lhh_suspend H reg_bus suspend_fifo hw).2) (resume_unfold _ _ _ _)
  have hfield : odr_field (st_asm330lhh_resume H reg_bus set_fifo_mode
      (st_asm330lhh_suspend H reg_bus suspend_fifo hw).2).2.dev.mem s.id = v :=
    odr_field_after_write _ s.id _ v hkind (get_odr_val_lt H s.id s.odr v hn hv) b3
  refine ⟨odr_field_after_write _ s.id _ 0 hkind (by decide) a3, a1, a2,
    ⟨v, hv, hfield, fun h => hfield.trans h.symm⟩, b1.trans a1, b2.trans a2, ?_⟩
  intro c hc hclear
  refine ⟨a4 c hc hclear, ?_⟩
  rw [b4 c hc (by rw [a2]; exact hclear)]
  exact a4 c hc hclear

theorem fifo_frame_id : fifo_frame (fun hw => (0, hw)) :=
  fun _ => ⟨rfl, rfl, fun _ _ => ⟨rfl, rfl⟩⟩

theorem stale_rate_hw_one_per_kind :
    ∀ j' t, j' < reference_header.ST_ASM330LHH_ID_MAX →
      stale_rate_hw.iio_devs.getD j' none = some t →
      t.id = ST_ASM330LHH_ID_ACC → j' = 0 := by
  intro j' t hj' ht hid
  have h3 : j' < 3 := hj'
  interval_cases j'
  · rfl
  · simp [stale_rate_hw] at ht; subst ht; cases hid
  · simp [stale_rate_hw] at ht; subst ht; cases hid

theorem stale_rate_hw_resolvable :
    ∀ j' t, j' < reference_header.ST_ASM330LHH_ID_MAX →
      stale_rate_hw.iio_devs.getD j' none = some t →
      stale_rate_hw.enable_mask &&& BIT (reference_header.id_value t.id) ≠ 0 →
      ∃ v, st_asm330lhh_get_odr_val reference_header t.id t.odr = Except.ok v := by
  intro j' t hj' ht _
  have h3 : j' < 3 := hj'
  interval_cases j'
  · simp [stale_rate_hw] at ht; subst ht; exact ⟨4, rfl⟩
  · simp [stale_rate_hw] at ht; subst ht; exact ⟨1, rfl⟩
  · simp [stale_rate_hw] at ht; subst ht; exact ⟨1, rfl⟩

theorem suspend_resume_restores_recorded_odr_witness :
    odr_field (st_asm330lhh_suspend reference_header reg_bus (fun hw => (0, hw))
      stale_rate_hw).2.dev.mem ST_ASM330LHH_ID_ACC = 0 ∧
    (st_asm330lhh_suspend reference_header reg_bus (fun hw => (0, hw))
      stale_rate_hw).2.iio_devs = stale_rate_hw.iio_devs ∧
    (st_asm330lhh_suspend reference_header reg_bus (fun hw => (0, hw))
      stale_rate_hw).2.enable_mask = stale_rate_hw.enable_mask ∧
    (∃ v, st_asm330lhh_get_odr_val reference_header ST_ASM330LHH_ID_ACC 104 = Except.ok v ∧
      odr_field (st_asm330lhh_resume reference_header reg_bus (fun hw _ => (0, hw))
        (st_asm330lhh_suspend reference_header reg_bus (fun hw => (0, hw))
          stale_rate_hw).2).2.dev.mem ST_ASM330LHH_ID_ACC = v ∧
      (odr_field stale_rate_hw.dev.mem ST_ASM330LHH_ID_ACC = v →
        odr_field (st_asm330lhh_resume reference_header reg_bus (fun hw _ => (0, hw))
          (st_asm330lhh_suspend reference_header reg_bus (fun hw => (0, hw))
            stale_rate_hw).2).2.dev.mem ST_ASM330LHH_ID_ACC
          = odr_field stale_rate_hw.dev.mem ST_ASM330LHH_ID_ACC)) ∧
    (st_asm330lhh_resume reference_header reg_bus (fun hw _ => (0, hw))
      (st_asm330lhh_suspend reference_header reg_bus (fun hw => (0, hw))
        stale_rate_hw).2).2.iio_devs = stale_rate_hw.iio_devs ∧
    (st_asm330lhh_resume reference_header reg_bus (fun hw _ => (0, hw))
      (st_asm330lhh_suspend reference_header reg_bus (fun hw => (0, hw))
        stale_rate_hw).2).2.enable_mask = stale_rate_hw.enable_mask ∧
    ∀ c, c ≠ ST_ASM330LHH_ID_TEMP →
      stale_rate_hw.enable_mask &&& BIT (reference_header.id_value c) = 0 →
      writes_to (st_asm330lhh_odr_table c).reg.addr
          (st_asm330lhh_suspend reference_header reg_bus (fun hw => (0, hw))
            stale_rate_hw).2.dev.log
        = writes_to (st_asm330lhh_odr_table c).reg.addr stale_rate_hw.dev.log ∧
      writes_to (st_asm330lhh_odr_table c).reg.addr
          (st_asm330lhh_resume reference_header reg_bus (fun hw _ => (0, hw))
            (st_asm330lhh_suspend reference_header reg_bus (fun hw => (0, hw))
              stale_rate_hw).2).2.dev.log
        = writes_to (st_asm330lhh_odr_table c).reg.addr stale_rate_hw.dev.log :=
  suspend_resume_restores_recorded_odr reference_header (fun hw => (0, hw))
    (fun hw _ => (0, hw)) stale_rate_hw 0 ⟨ST_ASM330LHH_ID_ACC, 598, 104, 0, 0, 0, 6, 1, 15, 9⟩
    (by decide) fifo_frame_id fifo_frame_id (by decide) rfl (by decide) (by decide)
    stale_rate_hw_one_per_kind stale_rate_hw_resolvable

/-! ## Scale write and read back -/

/-- The scale scan reaches `size` exactly when no scanned slot holds the gain. -/
theorem fs_lookup_index_eq_size_iff (H : st_asm330lhh_h) (id : st_asm330lhh_sensor_id)
    (g : Nat) :
    fs_lookup_index H id g = (st_asm330lhh_fs_table H id).size ↔
      ¬ ∃ i, i < (st_asm330lhh_fs_table H id).size ∧ (fs_avl_at H id i).gain = g := by
  unfold fs_lookup_index
  have h := first_index_eq_bound_iff (fun i => decide ((fs_avl_at H id i).gain = g))
    (st_asm330lhh_fs_table H id).size 0
  rw [Nat.zero_add] at h
  rw [h]
  constructor
  · rintro hall ⟨i, hi, hgi⟩
    have := hall i (Nat.zero_le i) hi
    simp [hgi] at this
  · intro hne j _ hj
    by_cases hgj : (fs_avl_at H id j).gain = g
    · exact absurd ⟨j, hj, hgj⟩ hne
    · simp [hgj]

theorem int_to_u32_of_nat (g : Nat) (hg : g < 2 ^ 32) : int_to_u32 (g : Int) = g := by
  unfold int_to_u32
  have h : ((g : Int) % 2 ^ 32) = (g : Int) := by
    apply Int.emod_eq_of_lt
    · exact Int.ofNat_nonneg g
    · exact_mod_cast hg
  rw [h]
  exact Int.toNat_natCast g

theorem u32_to_int_of_lt (g : Nat) (hg : g < 2 ^ 31) : u32_to_int g = (g : Int) := by
  unfold u32_to_int
  have h : g % 2 ^ 32 = g := Nat.mod_eq_of_lt (by omega)
  rw [h, if_pos hg]

/-- A scale request whose gain is in the table and whose masked write succeeds returns 0,
records the gain and changes nothing else of the instance. -/
theorem set_full_scale_success {β : Type} (H : st_asm330lhh_h)
    (tf : st_asm330lhh_transfer_function β) (hw : st_asm330lhh_hw β)
    (sensor : st_asm330lhh_sensor) (g : Nat)
    (hg : ∃ i, i < (st_asm330lhh_fs_table H sensor.id).size ∧
      (fs_avl_at H sensor.id i).gain = g)
    (hbus : 0 ≤ (st_asm330lhh_write_with_mask tf hw.dev
      (st_asm330lhh_fs_table H sensor.id).reg.addr (st_asm330lhh_fs_table H sensor.id).reg.mask
      (u8 (fs_avl_at H sensor.id (fs_lookup_index H sensor.id g)).val)).1) :
    st_asm330lhh_set_full_scale H tf hw sensor g
      = (0, { hw with dev := (st_asm330lhh_write_with_mask tf hw.dev
            (st_asm330lhh_fs_table H sensor.id).reg.addr
            (st_asm330lhh_fs_table H sensor.id).reg.mask
            (u8 (fs_avl_at H sensor.id (fs_lookup_index H sensor.id g)).val)).2 },
          { sensor with gain := g }) := by
  have hidx : fs_lookup_index H sensor.id g ≠ (st_asm330lhh_fs_table H sensor.id).size := by
    rw [Ne, fs_lookup_index_eq_size_iff, not_not]; exact hg
  unfold st_asm330lhh_set_full_scale
  simp only [hidx, if_false]
  rw [if_neg (not_lt.mpr hbus)]

/-- C11: for an acceleration or angular-rate instance and a gain `g` of the kind's scale
table (representable as the `int` micro part), a scale write through
`st_asm330lhh_write_raw` with micro part `g` whose masked register write succeeds returns 0,
and the following scale read through `st_asm330lhh_read_raw` on the kind's channel answers
`IIO_VAL_INT_PLUS_MICRO` with integer part 0 and micro part exactly `g`, leaving the handle
(the bus state included) as it was: no transfer is issued. -/
theorem scale_write_then_read_round_trip (β : Type) (H : st_asm330lhh_h)
    (tf : st_asm330lhh_transfer_function β) (hw : st_asm330lhh_hw β)
    (sensor : st_asm330lhh_sensor) (g : Nat) (val : Int) (buffer_enabled : Bool)
    (ch : iio_chan_spec) (data0 : Nat)
    (hkind : sensor.id = ST_ASM330LHH_ID_ACC ∨ sensor.id = ST_ASM330LHH_ID_GYRO)
    (hch : ch.type = IIO_ACCEL ∨ ch.type = IIO_ANGL_VEL)
    (hg : ∃ i, i < (st_asm330lhh_fs_table H sensor.id).size ∧
      (fs_avl_at H sensor.id i).gain = g)
    (hg31 : g < 2 ^ 31)
    (hbus : 0 ≤ (st_asm330lhh_write_with_mask tf hw.dev
      (st_asm330lhh_fs_table H sensor.id).reg.addr (st_asm330lhh_fs_table H sensor.id).reg.mask
      (u8 (fs_avl_at H sensor.id (fs_lookup_index H sensor.id g)).val)).1) :
    (st_asm330lhh_write_raw H tf hw sensor val (g : Int) IIO_CHAN_INFO_SCALE).1 = 0 ∧
    st_asm330lhh_read_raw H tf
        (st_asm330lhh_write_raw H tf hw sensor val (g : Int) IIO_CHAN_INFO_SCALE).2.1
        (st_asm330lhh_write_raw H tf hw sensor val (g : Int) IIO_CHAN_INFO_SCALE).2.2
        buffer_enabled ch data0 IIO_CHAN_INFO_SCALE
      = some ⟨H.IIO_VAL_INT_PLUS_MICRO, some 0, some (g : Int),
          (st_asm330lhh_write_raw H tf hw sensor val (g : Int) IIO_CHAN_INFO_SCALE).2.1,
          (st_asm330lhh_write_raw H tf hw sensor val (g : Int) IIO_CHAN_INFO_SCALE).2.2⟩ := by
  have _ := hkind
  have hw_eq : st_asm330lhh_write_raw H tf hw sensor val (g : Int) IIO_CHAN_INFO_SCALE
      = st_asm330lhh_set_full_scale H tf hw sensor g := by
    simp only [st_asm330lhh_write_raw, int_to_u32_of_nat g (by omega)]
  rw [hw_eq, set_full_scale_success H tf hw sensor g hg hbus]
  refine ⟨rfl, ?_⟩
  rcases hch with h | h <;>
    simp [st_asm330lhh_read_raw, h, u32_to_int_of_lt g hg31]

theorem scale_write_then_read_round_trip_witness :
    (st_asm330lhh_write_raw reference_header reg_bus ⟨blank_device, 0, 0, []⟩
        ⟨ST_ASM330LHH_ID_ACC, 598, 13, 0, 0, 0, 0, 1, 15, 9⟩ 0 ((1196 : Nat) : Int)
        IIO_CHAN_INFO_SCALE).1 = 0 ∧
    st_asm330lhh_read_raw reference_header reg_bus
        (st_asm330lhh_write_raw reference_header reg_bus ⟨blank_device, 0, 0, []⟩
          ⟨ST_ASM330LHH_ID_ACC, 598, 13, 0, 0, 0, 0, 1, 15, 9⟩ 0 ((1196 : Nat) : Int)
          IIO_CHAN_INFO_SCALE).2.1
        (st_asm330lhh_write_raw reference_header reg_bus ⟨blank_device, 0, 0, []⟩
          ⟨ST_ASM330LHH_ID_ACC, 598, 13, 0, 0, 0, 0, 1, 15, 9⟩ 0 ((1196 : Nat) : Int)
          IIO_CHAN_INFO_SCALE).2.2
        false ⟨IIO_ACCEL, 0x28⟩ 0 IIO_CHAN_INFO_SCALE
      = some ⟨reference_header.IIO_VAL_INT_PLUS_MICRO, some 0, some ((1196 : Nat) : Int),
          (st_asm330lhh_write_raw reference_header reg_bus ⟨blank_device, 0, 0, []⟩
            ⟨ST_ASM330LHH_ID_ACC, 598, 13, 0, 0, 0, 0, 1, 15, 9⟩ 0 ((1196 : Nat) : Int)
            IIO_CHAN_INFO_SCALE).2.1,
          (st_asm330lhh_write_raw reference_header reg_bus ⟨blank_device, 0, 0, []⟩
            ⟨ST_ASM330LHH_ID_ACC, 598, 13, 0, 0, 0, 0, 1, 15, 9⟩ 0 ((1196 : Nat) : Int)
            IIO_CHAN_INFO_SCALE).2.2⟩ :=
  scale_write_then_read_round_trip reg_file reference_header reg_bus ⟨blank_device, 0, 0, []⟩
    ⟨ST_ASM330LHH_ID_ACC, 598, 13, 0, 0, 0, 0, 1, 15, 9⟩ 1196 0 false ⟨IIO_ACCEL, 0x28⟩ 0
    (Or.inl rfl) (Or.inl rfl) ⟨1, by decide, by decide⟩ (by decide) (by decide)

/-! ## Enable and disable -/

/-- Setting the bit of a kind in a mask changes that bit only. -/
theorem or_bit_testBit (m n i : Nat) :
    (m ||| BIT n).testBit i = if i = n then true else m.testBit i := by
  unfold BIT
  rw [Nat.one_shiftLeft]
  simp only [Nat.testBit_or, Nat.testBit_two_pow]
  by_cases h : i = n
  · subst h; simp
  · have h' : ¬ n = i := fun e => h e.symm
    simp [h, h']

/-- Clearing the bit of a kind in a 64-bit mask changes that bit only. -/
theorem and_not_bit_testBit (m n i : Nat) (hm : m < 2 ^ 64) (hn : n < 64) :
    (m &&& bitnot64 (BIT n)).testBit i = if i = n then false else m.testBit i := by
  unfold BIT bitnot64
  rw [Nat.one_shiftLeft]
  simp only [Nat.testBit_and, Nat.testBit_xor, Nat.testBit_two_pow_sub_one, Nat.testBit_two_pow]
  by_cases h : i = n
  · subst h; simp [hn]
  · have h' : ¬ n = i := fun e => h e.symm
    simp only [h, h', if_false, decide_False, Bool.xor_false]
    by_cases h64 : i < 64
    · simp [h64]
    · have : m.testBit i = false :=
        Nat.testBit_lt_two_pow
          (lt_of_lt_of_le hm (Nat.pow_le_pow_right (by decide) (by omega)))
      simp [this]

/-- The mask update of `st_asm330lhh_sensor_set_enable` leaves the device state, the
interrupt and the instances alone and sets the kind's bit to `enable`, every other bit of a
64-bit mask being kept. -/
theorem update_enable_mask_bits {β : Type} (H : st_asm330lhh_h) (hw : st_asm330lhh_hw β)
    (sensor : st_asm330lhh_sensor) (enable : Bool)
    (hm : hw.enable_mask < 2 ^ 64) (hid : H.id_value sensor.id < 64) :
    (update_enable_mask H hw sensor enable).dev = hw.dev ∧
    (update_enable_mask H hw sensor enable).irq = hw.irq ∧
    (update_enable_mask H hw sensor enable).iio_devs = hw.iio_devs ∧
    ∀ i, (update_enable_mask H hw sensor enable).enable_mask.testBit i
      = if i = H.id_value sensor.id then enable else hw.enable_mask.testBit i := by
  cases enable
  · refine ⟨rfl, rfl, rfl, fun i => ?_⟩
    simp only [update_enable_mask, Bool.false_eq_true, if_false]
    exact and_not_bit_testBit _ _ _ hm hid
  · refine ⟨rfl, rfl, rfl, fun i => ?_⟩
    simp only [update_enable_mask, if_true]
    exact or_bit_testBit _ _ _

/-- C12: for every instance and both values of `enable`, with a 64-bit enable mask:
for acceleration and angular-rate `st_asm330lhh_sensor_set_enable` first issues the masked
write of the encoding of the recorded ODR (enable) or of 0 (disable) into the kind's ODR
bit-field; if the write fails it returns the error with the enable mask unchanged; only if
it succeeds it returns 0 with exactly the kind's bit of the mask set (enable) or cleared
(disable) and every other bit kept; a recorded ODR without encoding returns `-EINVAL` before
any transfer, mask unchanged. For temperature it issues no transfer and updates only the
kind's bit. -/
theorem sensor_set_enable_write_then_mask (β : Type) (H : st_asm330lhh_h)
    (tf : st_asm330lhh_transfer_function β) (hw : st_asm330lhh_hw β)
    (sensor : st_asm330lhh_sensor) (enable : Bool)
    (hn : 7 ≤ H.ST_ASM330LHH_ODR_LIST_SIZE)
    (hm : hw.enable_mask < 2 ^ 64) (hid : H.id_value sensor.id < 64) :
    (sensor.id ≠ ST_ASM330LHH_ID_TEMP →
      (∀ v, st_asm330lhh_get_odr_val H sensor.id (if enable then sensor.odr else 0)
            = Except.ok v →
        ((st_asm330lhh_write_with_mask tf hw.dev (st_asm330lhh_odr_table sensor.id).reg.addr
            (st_asm330lhh_odr_table sensor.id).reg.mask (u8 v)).1 < 0 →
          st_asm330lhh_sensor_set_enable H tf hw sensor enable
            = ((st_asm330lhh_write_with_mask tf hw.dev
                  (st_asm330lhh_odr_table sensor.id).reg.addr
                  (st_asm330lhh_odr_table sensor.id).reg.mask (u8 v)).1,
                { hw with dev := (st_asm330lhh_write_with_mask tf hw.dev
                  (st_asm330lhh_odr_table sensor.id).reg.addr
                  (st_asm330lhh_odr_table sensor.id).reg.mask (u8 v)).2 })) ∧
        (¬ (st_asm330lhh_write_with_mask tf hw.dev (st_asm330lhh_odr_table sensor.id).reg.addr
            (st_asm330lhh_odr_table sensor.id).reg.mask (u8 v)).1 < 0 →
          (st_asm330lhh_sensor_set_enable H tf hw sensor enable).1 = 0 ∧
          (st_asm330lhh_sensor_set_enable H tf hw sensor enable).2.dev
            = (st_asm330lhh_write_with_mask tf hw.dev
                (st_asm330lhh_odr_table sensor.id).reg.addr
                (st_asm330lhh_odr_table sensor.id).reg.mask (u8 v)).2 ∧
          (st_asm330lhh_sensor_set_enable H tf hw sensor enable).2.iio_devs = hw.iio_devs ∧
          ∀ i, (st_asm330lhh_sensor_set_enable H tf hw sensor enable).2.enable_mask.testBit i
            = if i = H.id_value sensor.id then enable else hw.enable_mask.testBit i)) ∧
      (∀ e, st_asm330lhh_get_odr_val H sensor.id (if enable then sensor.odr else 0)
            = Except.error e →
        st_asm330lhh_sensor_set_enable H tf hw sensor enable = (-EINVAL, hw)) ∧
      (enable = false → st_asm330lhh_get_odr_val H sensor.id 0 = Except.ok 0)) ∧
    (sensor.id = ST_ASM330LHH_ID_TEMP →
      (st_asm330lhh_sensor_set_enable H tf hw sensor enable).1 = 0 ∧
      (st_asm330lhh_sensor_set_enable H tf hw sensor enable).2.dev = hw.dev ∧
      (st_asm330lhh_sensor_set_enable H tf hw sensor enable).2.iio_devs = hw.iio_devs ∧
      ∀ i, (st_asm330lhh_sensor_set_enable H tf hw sensor enable).2.enable_mask.testBit i
        = if i = H.id_value sensor.id then enable else hw.enable_mask.testBit i) := by
  refine ⟨fun hkind => ⟨?_, ?_, fun _ => get_odr_val_zero H sensor.id hn⟩, ?_⟩
  · intro v hv
    refine ⟨?_, ?_⟩
    · intro hfail
      simp only [st_asm330lhh_sensor_set_enable, st_asm330lhh_set_odr, hv, ne_eq, hkind,
        not_false_eq_true, if_true, hfail]
    · intro hok
      have hres : st_asm330lhh_sensor_set_enable H tf hw sensor enable
          = (0, update_enable_mask H { hw with dev := (st_asm330lhh_write_with_mask tf hw.dev
              (st_asm330lhh_odr_table sensor.id).reg.addr
              (st_asm330lhh_odr_table sensor.id).reg.mask (u8 v)).2 } sensor enable) := by
        simp only [st_asm330lhh_sensor_set_enable, st_asm330lhh_set_odr, hv, ne_eq, hkind,
          not_false_eq_true, if_true, hok, if_false]
      rw [hres]
      obtain ⟨b1, _, b3, b4⟩ := update_enable_mask_bits H
        { hw with dev := (st_asm330lhh_write_with_mask tf hw.dev
            (st_asm330lhh_odr_table sensor.id).reg.addr
            (st_asm330lhh_odr_table sensor.id).reg.mask (u8 v)).2 } sensor enable hm hid
      exact ⟨rfl, b1, b3, b4⟩
  · intro e he
    simp only [st_asm330lhh_sensor_set_enable, st_asm330lhh_set_odr, he, ne_eq, hkind,
      not_false_eq_true, if_true]
    have : (-EINVAL : Int) < 0 := by decide
    simp [this]
  · intro htemp
    have hres : st_asm330lhh_sensor_set_enable H tf hw sensor enable
        = (0, update_enable_mask H hw sensor enable) := by
      simp [st_asm330lhh_sensor_set_enable, htemp]
    rw [hres]
    obtain ⟨b1, _, b3, b4⟩ := update_enable_mask_bits H hw sensor enable hm hid
    exact ⟨rfl, b1, b3, b4⟩

theorem sensor_set_enable_write_then_mask_witness :
    (probed_acc.id ≠ ST_ASM330LHH_ID_TEMP →
      (∀ v, st_asm330lhh_get_odr_val reference_header probed_acc.id (if true then probed_acc.odr else 0)
            = Except.ok v →
        ((st_asm330lhh_write_with_mask reg_bus idle_hw.dev (st_asm330lhh_odr_table probed_acc.id).reg.addr
            (st_asm330lhh_odr_table probed_acc.id).reg.mask (u8 v)).1 < 0 →
          st_asm330lhh_sensor_set_enable reference_header reg_bus idle_hw probed_acc true
            = ((st_asm330lhh_write_with_mask reg_bus idle_hw.dev
                  (st_asm330lhh_odr_table probed_acc.id).reg.addr
                  (st_asm330lhh_odr_table probed_acc.id).reg.mask (u8 v)).1,
                { idle_hw with dev := (st_asm330lhh_write_with_mask reg_bus idle_hw.dev
                  (st_asm330lhh_odr_table probed_acc.id).reg.addr
                  (st_asm330lhh_odr_table probed_acc.id).reg.mask (u8 v)).2 })) ∧
        (¬ (st_asm330lhh_write_with_mask reg_bus idle_hw.dev (st_asm330lhh_odr_table probed_acc.id).reg.addr
            (st_asm330lhh_odr_table probed_acc.id).reg.mask (u8 v)).1 < 0 →
          (st_asm330lhh_sensor_set_enable reference_header reg_bus idle_hw probed_acc true).1 = 0 ∧
          (st_asm330lhh_sensor_set_enable reference_header reg_bus idle_hw probed_acc true).2.dev
            = (st_asm330lhh_write_with_mask reg_bus idle_hw.dev
                (st_asm330lhh_odr_table probed_acc.id).reg.addr
                (st_asm330lhh_odr_table probed_acc.id).reg.mask (u8 v)).2 ∧
          (st_asm330lhh_sensor_set_enable reference_header reg_bus idle_hw probed_acc true).2.iio_devs = idle_hw.iio_devs ∧
          ∀ i, (st_asm330lhh_sensor_set_enable reference_header reg_bus idle_hw probed_acc true).2.enable_mask.testBit i
            = if i = reference_header.id_value probed_acc.id then true else idle_hw.enable_mask.testBit i)) ∧
      (∀ e, st_asm330lhh_get_odr_val reference_header probed_acc.id (if true then probed_acc.odr else 0)
            = Except.error e →
        st_asm330lhh_sensor_set_enable reference_header reg_bus idle_hw probed_acc true = (-EINVAL, idle_hw)) ∧
      (true = false → st_asm330lhh_get_odr_val reference_header probed_acc.id 0 = Except.ok 0)) ∧
    (probed_acc.id = ST_ASM330LHH_ID_TEMP →
      (st_asm330lhh_sensor_set_enable reference_header reg_bus idle_hw probed_acc true).1 = 0 ∧
      (st_asm330lhh_sensor_set_enable reference_header reg_bus idle_hw probed_acc true).2.dev = idle_hw.dev ∧
      (st_asm330lhh_sensor_set_enable reference_header reg_bus idle_hw probed_acc true).2.iio_devs = idle_hw.iio_devs ∧
      ∀ i, (st_asm330lhh_sensor_set_enable reference_header reg_bus idle_hw probed_acc true).2.enable_mask.testBit i
        = if i = reference_header.id_value probed_acc.id then true else idle_hw.enable_mask.testBit i) :=
  sensor_set_enable_write_then_mask reg_file reference_header reg_bus idle_hw probed_acc true
    (by decide) (by decide) (by decide)

/-! ## Transfers issued by a masked write -/

/-- C13: on any bus, with every transfer recorded, a call of `st_asm330lhh_write_with_mask`
issues one read of one byte at the address; if the read fails it issues nothing more and
returns the read's error; if the read succeeds it issues one write of one byte `w` to the
same address and returns the write's result, whatever it is. -/
theorem write_with_mask_transfers (β : Type) (tf : st_asm330lhh_transfer_function β)
    (dev : β) (log : List bus_op) (addr mask val : Nat) :
    ((tf.read dev addr 1).1 < 0 →
      st_asm330lhh_write_with_mask (logging_bus tf) (dev, log) addr mask val
        = ((tf.read dev addr 1).1, ((tf.read dev addr 1).2.2, log ++ [bus_op.rd addr 1]))) ∧
    (¬ (tf.read dev addr 1).1 < 0 →
      ∃ w, w < 256 ∧
        st_asm330lhh_write_with_mask (logging_bus tf) (dev, log) addr mask val
          = ((tf.write (tf.read dev addr 1).2.2 addr 1 w).1,
              ((tf.write (tf.read dev addr 1).2.2 addr 1 w).2,
                log ++ [bus_op.rd addr 1, bus_op.wr addr 1 w]))) := by
  refine ⟨?_, ?_⟩
  · intro h
    simp [st_asm330lhh_write_with_mask, logging_bus, h]
  · intro h
    refine ⟨masked_byte (u8 (tf.read dev addr 1).2.1) mask val, masked_byte_lt _ _ _, ?_⟩
    simp [st_asm330lhh_write_with_mask, logging_bus, h]

/-! ## Discard level on a failed rate change -/

/-- C14 (the code at a failing input): on an acceleration instance recording 13 Hz with
discard level 2 and 5 samples counted, a sampling-frequency write of 104 Hz whose masked
register write fails with `e < 0` returns `e`, yet the instance then holds discard level 6
and sample count 0: `st_asm330lhh_set_std_level` has updated them before the register write
is attempted. -/
theorem write_raw_failed_write_updates_std_level (β : Type) (H : st_asm330lhh_h)
    (tf : st_asm330lhh_transfer_function β) (hw : st_asm330lhh_hw β)
    (sensor : st_asm330lhh_sensor) (e : Int) (dev1 : β)
    (hn : 7 ≤ H.ST_ASM330LHH_ODR_LIST_SIZE)
    (hid : sensor.id = ST_ASM330LHH_ID_ACC)
    (hlevel : sensor.std_level = 2) (hsamples : sensor.std_samples = 5)
    (hfail : st_asm330lhh_write_with_mask tf hw.dev ST_ASM330LHH_REG_CTRL1_XL_ADDR
      (GENMASK 7 4) 4 = (e, dev1))
    (he : e < 0) :
    (st_asm330lhh_write_raw H tf hw sensor 104 0 IIO_CHAN_INFO_SAMP_FREQ).1 = e ∧
    (st_asm330lhh_write_raw H tf hw sensor 104 0 IIO_CHAN_INFO_SAMP_FREQ).2.2.std_level = 6 ∧
    (st_asm330lhh_write_raw H tf hw sensor 104 0 IIO_CHAN_INFO_SAMP_FREQ).2.2.std_samples = 0 ∧
    (st_asm330lhh_write_raw H tf hw sensor 104 0 IIO_CHAN_INFO_SAMP_FREQ).2.2.std_level
      ≠ sensor.std_level ∧
    (st_asm330lhh_write_raw H tf hw sensor 104 0 IIO_CHAN_INFO_SAMP_FREQ).2.2.std_samples
      ≠ sensor.std_samples := by
  have h104 : int_to_u16 104 = 104 := rfl
  have hget : st_asm330lhh_get_odr_val H ST_ASM330LHH_ID_ACC 104 = Except.ok 4 := by
    rw [get_odr_val_acc H 104 hn]; simp
  have hres : st_asm330lhh_write_raw H tf hw sensor 104 0 IIO_CHAN_INFO_SAMP_FREQ
      = (e, { hw with dev := dev1 },
          { sensor with std_level := 6, std_samples := 0, odr := 104 }) := by
    have _ := he
    simp only [st_asm330lhh_write_raw, h104, std_level_104, st_asm330lhh_set_odr, hid, hget]
    have hu : u8 4 = 4 := rfl
    have hreg : (st_asm330lhh_odr_table ST_ASM330LHH_ID_ACC).reg
        = ⟨ST_ASM330LHH_REG_CTRL1_XL_ADDR, GENMASK 7 4⟩ := rfl
    simp [hu, hreg, hfail]
  rw [hres, hlevel, hsamples]
  refine ⟨rfl, rfl, rfl, ?_, ?_⟩
  · show (6 : Nat) ≠ 2
    omega
  · show (0 : Nat) ≠ 5
    omega

theorem write_raw_failed_write_updates_std_level_witness :
    (st_asm330lhh_write_raw reference_header dead_bus ⟨(), 0, 0, []⟩
        ⟨ST_ASM330LHH_ID_ACC, 598, 13, 0, 0, 5, 2, 1, 15, 9⟩ 104 0
        IIO_CHAN_INFO_SAMP_FREQ).1 = -5 ∧
    (st_asm330lhh_write_raw reference_header dead_bus ⟨(), 0, 0, []⟩
        ⟨ST_ASM330LHH_ID_ACC, 598, 13, 0, 0, 5, 2, 1, 15, 9⟩ 104 0
        IIO_CHAN_INFO_SAMP_FREQ).2.2.std_level = 6 ∧
    (st_asm330lhh_write_raw reference_header dead_bus ⟨(), 0, 0, []⟩
        ⟨ST_ASM330LHH_ID_ACC, 598, 13, 0, 0, 5, 2, 1, 15, 9⟩ 104 0
        IIO_CHAN_INFO_SAMP_FREQ).2.2.std_samples = 0 ∧
    (st_asm330lhh_write_raw reference_header dead_bus ⟨(), 0, 0, []⟩
        ⟨ST_ASM330LHH_ID_ACC, 598, 13, 0, 0, 5, 2, 1, 15, 9⟩ 104 0
        IIO_CHAN_INFO_SAMP_FREQ).2.2.std_level
      ≠ (⟨ST_ASM330LHH_ID_ACC, 598, 13, 0, 0, 5, 2, 1, 15, 9⟩ : st_asm330lhh_sensor).std_level ∧
    (st_asm330lhh_write_raw reference_header dead_bus ⟨(), 0, 0, []⟩
        ⟨ST_ASM330LHH_ID_ACC, 598, 13, 0, 0, 5, 2, 1, 15, 9⟩ 104 0
        IIO_CHAN_INFO_SAMP_FREQ).2.2.std_samples
      ≠ (⟨ST_ASM330LHH_ID_ACC, 598, 13, 0, 0, 5, 2, 1, 15, 9⟩ : st_asm330lhh_sensor).std_samples :=
  write_raw_failed_write_updates_std_level Unit reference_header dead_bus ⟨(), 0, 0, []⟩
    ⟨ST_ASM330LHH_ID_ACC, 598, 13, 0, 0, 5, 2, 1, 15, 9⟩ (-5) () (by decide) rfl rfl rfl rfl
    (by decide)

/-! ## Offset read -/

/-- A call of `st_asm330lhh_write_raw` never changes the kind or the offset of the
instance. -/
theorem write_raw_id_offset {β : Type} (H : st_asm330lhh_h)
    (tf : st_asm330lhh_transfer_function β) (hw : st_asm330lhh_hw β)
    (sensor : st_asm330lhh_sensor) (val val2 : Int) (mask : iio_chan_info_enum) :
    (st_asm330lhh_write_raw H tf hw sensor val val2 mask).2.2.id = sensor.id ∧
    (st_asm330lhh_write_raw H tf hw sensor val val2 mask).2.2.offset = sensor.offset := by
  cases mask with
  | IIO_CHAN_INFO_SCALE =>
    simp only [st_asm330lhh_write_raw, st_asm330lhh_set_full_scale]
    split
    · exact ⟨rfl, rfl⟩
    · split <;> exact ⟨rfl, rfl⟩
  | IIO_CHAN_INFO_SAMP_FREQ =>
    simp only [st_asm330lhh_write_raw, st_asm330lhh_set_std_level]
    by_cases hi : std_lookup_index (int_to_u16 val) = st_asm330lhh_std_table.length
    · simp [hi, show (-EINVAL : Int) < 0 by decide]
    · simp only [hi, if_false, lt_self_iff_false]
      split <;> exact ⟨rfl, rfl⟩
  | IIO_CHAN_INFO_RAW => exact ⟨rfl, rfl⟩
  | IIO_CHAN_INFO_OFFSET => exact ⟨rfl, rfl⟩
  | other n => exact ⟨rfl, rfl⟩

/-- C15 (as stated, refuted): an offset read on the acceleration channel of the acceleration
instance built by `st_asm330lhh_alloc_iiodev` does not succeed with 0: it returns `-EINVAL`
and stores no value. -/
theorem offset_read_refused_on_accel_channel :
    st_asm330lhh_alloc_iiodev reference_header true ST_ASM330LHH_ID_ACC = some probed_acc ∧
    ∃ r, st_asm330lhh_read_raw reference_header reg_bus idle_hw probed_acc false
        ⟨IIO_ACCEL, 0x28⟩ 0 IIO_CHAN_INFO_OFFSET = some r ∧
      r.ret = -EINVAL ∧ r.ret ≠ reference_header.IIO_VAL_INT ∧ r.val = none :=
  ⟨rfl, _, rfl, rfl, by decide, rfl⟩

/-- C15 (amended): for every instance, on any bus, an offset read through
`st_asm330lhh_read_raw` leaves the handle (the bus state included) and the instance as they
were; on a temperature channel it succeeds with `IIO_VAL_INT` and the recorded offset, which
is the constant 6400 on the temperature instance built by `st_asm330lhh_alloc_iiodev` and is
never changed by `st_asm330lhh_write_raw`; on any other channel type it returns `-EINVAL`
and stores no value (the offset 0 recorded for acceleration and angular-rate is not
exposed). -/
theorem offset_read_temperature_only (β : Type) (H : st_asm330lhh_h)
    (tf : st_asm330lhh_transfer_function β) (hw : st_asm330lhh_hw β)
    (sensor : st_asm330lhh_sensor) (buffer_enabled : Bool) (ch : iio_chan_spec)
    (data0 : Nat) :
    (ch.type = IIO_TEMP →
      st_asm330lhh_read_raw H tf hw sensor buffer_enabled ch data0 IIO_CHAN_INFO_OFFSET
        = some ⟨H.IIO_VAL_INT, some (u32_to_int sensor.offset), none, hw, sensor⟩) ∧
    (ch.type ≠ IIO_TEMP →
      st_asm330lhh_read_raw H tf hw sensor buffer_enabled ch data0 IIO_CHAN_INFO_OFFSET
        = some ⟨-EINVAL, none, none, hw, sensor⟩) ∧
    (∀ s, st_asm330lhh_alloc_iiodev H true ST_ASM330LHH_ID_TEMP = some s →
      u32_to_int s.offset = 6400) ∧
    (∀ s, st_asm330lhh_alloc_iiodev H true ST_ASM330LHH_ID_ACC = some s → s.offset = 0) ∧
    (∀ s, st_asm330lhh_alloc_iiodev H true ST_ASM330LHH_ID_GYRO = some s → s.offset = 0) ∧
    (∀ (val val2 : Int) (mask : iio_chan_info_enum),
      (st_asm330lhh_write_raw H tf hw sensor val val2 mask).2.2.offset = sensor.offset) := by
  refine ⟨?_, ?_, ?_, ?_, ?_, fun val val2 mask =>
    (write_raw_id_offset H tf hw sensor val val2 mask).2⟩
  · intro h
    simp [st_asm330lhh_read_raw, h]
  · intro h
    cases hty : ch.type with
    | IIO_TEMP => exact absurd hty h
    | IIO_ACCEL => simp [st_asm330lhh_read_raw, hty]
    | IIO_ANGL_VEL => simp [st_asm330lhh_read_raw, hty]
    | other n => simp [st_asm330lhh_read_raw, hty]
  · intro s hs
    simp only [st_asm330lhh_alloc_iiodev, Bool.not_true, Bool.false_eq_true, if_false,
      Option.some.injEq] at hs
    subst hs
    rfl
  · intro s hs
    simp only [st_asm330lhh_alloc_iiodev, Bool.not_true, Bool.false_eq_true, if_false,
      Option.some.injEq] at hs
    subst hs
    rfl
  · intro s hs
    simp only [st_asm330lhh_alloc_iiodev, Bool.not_true, Bool.false_eq_true, if_false,
      Option.some.injEq] at hs
    subst hs
    rfl

/-! ## Recorded rate and gain of reachable instances -/

/-- A rate accepted by `st_asm330lhh_set_std_level` is one of the six rates of the discard
table. -/
theorem std_lookup_found (odr : Nat) (h : std_lookup_index odr ≠ st_asm330lhh_std_table.length) :
    odr = 13 ∨ odr = 26 ∨ odr = 52 ∨ odr = 104 ∨ odr = 208 ∨ odr = 416 := by
  by_contra hno
  apply h
  unfold std_lookup_index
  have hb := first_index_eq_bound_iff
    (fun i => decide ((st_asm330lhh_std_table.getD i ⟨0, 0⟩).odr = odr))
    st_asm330lhh_std_table.length 0
  rw [Nat.zero_add] at hb
  rw [hb]
  intro j _ hj
  have hj6 : j < 6 := hj
  interval_cases j <;> simp [st_asm330lhh_std_table] <;> omega

/-- What `st_asm330lhh_set_std_level` does: either it refuses and leaves the instance alone,
or the rate is a discard-table rate and only the discard state changes. -/
theorem set_std_level_cases (sensor : st_asm330lhh_sensor) (odr : Nat) :
    st_asm330lhh_set_std_level sensor odr = (-EINVAL, sensor) ∨
    ((odr = 13 ∨ odr = 26 ∨ odr = 52 ∨ odr = 104 ∨ odr = 208 ∨ odr = 416) ∧
      (st_asm330lhh_set_std_level sensor odr).1 = 0 ∧
      (st_asm330lhh_set_std_level sensor odr).2.id = sensor.id ∧
      (st_asm330lhh_set_std_level sensor odr).2.gain = sensor.gain ∧
      (st_asm330lhh_set_std_level sensor odr).2.odr = sensor.odr) := by
  by_cases hi : std_lookup_index odr = st_asm330lhh_std_table.length
  · left
    simp [st_asm330lhh_set_std_level, hi]
  · right
    refine ⟨std_lookup_found odr hi, ?_⟩
    simp [st_asm330lhh_set_std_level, hi]

/-- A gain found by the scale scan within the initialised slots is the gain of a table
entry. -/
theorem fs_gain_mem (H : st_asm330lhh_h) (id : st_asm330lhh_sensor_id) (i : Nat)
    (hi : i < (st_asm330lhh_fs_table H id).fs_avl.length) :
    ∃ e ∈ (st_asm330lhh_fs_table H id).fs_avl, e.gain = (fs_avl_at H id i).gain := by
  refine ⟨(st_asm330lhh_fs_table H id).fs_avl.get ⟨i, hi⟩, List.get_mem _ _ _, ?_⟩
  unfold fs_avl_at
  rw [List.getD_eq_getElem _ _ hi]
  rfl

theorem alloc_rate_gain_invariant (H : st_asm330lhh_h) (id : st_asm330lhh_sensor_id)
    (s : st_asm330lhh_sensor) (hs : st_asm330lhh_alloc_iiodev H true id = some s) :
    rate_gain_invariant H id s := by
  cases id <;>
    (simp only [st_asm330lhh_alloc_iiodev, Bool.not_true, Bool.false_eq_true, if_false,
       Option.some.injEq] at hs
     subst hs
     refine ⟨rfl, ?_, ?_, ?_⟩
     · exact ⟨_, List.mem_cons_self _ _, rfl⟩
     · intro _
       exact ⟨_, List.mem_cons_of_mem _ (List.mem_cons_self _ _), rfl⟩
     · intro h
       first
         | exact Or.inr (Or.inr rfl)
         | cases h)

theorem write_raw_rate_gain_invariant {β : Type} (H : st_asm330lhh_h)
    (id : st_asm330lhh_sensor_id) (tf : st_asm330lhh_transfer_function β)
    (hw : st_asm330lhh_hw β) (s : st_asm330lhh_sensor) (val val2 : Int)
    (mask : iio_chan_info_enum)
    (hn : 7 ≤ H.ST_ASM330LHH_ODR_LIST_SIZE)
    (hsize : (st_asm330lhh_fs_table H id).size ≤ (st_asm330lhh_fs_table H id).fs_avl.length)
    (hinv : rate_gain_invariant H id s) :
    rate_gain_invariant H id (st_asm330lhh_write_raw H tf hw s val val2 mask).2.2 := by
  obtain ⟨hid, hgain, hodr, hodrt⟩ := hinv
  cases mask with
  | IIO_CHAN_INFO_RAW => exact ⟨hid, hgain, hodr, hodrt⟩
  | IIO_CHAN_INFO_OFFSET => exact ⟨hid, hgain, hodr, hodrt⟩
  | other n => exact ⟨hid, hgain, hodr, hodrt⟩
  | IIO_CHAN_INFO_SCALE =>
    simp only [st_asm330lhh_write_raw, st_asm330lhh_set_full_scale]
    split
    · exact ⟨hid, hgain, hodr, hodrt⟩
    · rename_i hfound
      split
      · exact ⟨hid, hgain, hodr, hodrt⟩
      · refine ⟨hid, ?_, hodr, hodrt⟩
        rw [hid] at hfound
        have hex : ∃ i, i < (st_asm330lhh_fs_table H id).size ∧
            (fs_avl_at H id i).gain = int_to_u32 val2 := by
          by_contra hne
          exact hfound ((fs_lookup_index_eq_size_iff H id _).mpr hne)
        obtain ⟨i, hi, hgi⟩ := hex
        obtain ⟨e, he, heg⟩ := fs_gain_mem H id i (by omega)
        exact ⟨e, he, heg.trans hgi⟩
  | IIO_CHAN_INFO_SAMP_FREQ =>
    simp only [st_asm330lhh_write_raw]
    rcases set_std_level_cases s (int_to_u16 val) with hrej | ⟨hrate, h0, h1, h2, h3⟩
    · rw [hrej]
      simp only [show (-EINVAL : Int) < 0 by decide, if_true]
      exact ⟨hid, hgain, hodr, hodrt⟩
    · rcases hstd : st_asm330lhh_set_std_level s (int_to_u16 val) with ⟨err, s1⟩
      rw [hstd] at h0 h1 h2 h3
      simp only at h0 h1 h2 h3
      subst h0
      simp only [lt_self_iff_false, if_false]
      rw [h1, hid]
      cases hget : st_asm330lhh_get_odr_val H id (int_to_u16 val) with
      | error e =>
        simp only
        exact ⟨h1.trans hid, by rw [h2]; exact hgain, by rw [h3]; exact hodr,
          by rw [h3]; exact hodrt⟩
      | ok v =>
        simp only
        refine ⟨rfl, by rw [h2]; exact hgain, ?_, ?_⟩
        · intro hnt
          cases id with
          | ST_ASM330LHH_ID_TEMP => exact absurd rfl hnt
          | ST_ASM330LHH_ID_ACC =>
            rcases hrate with h | h | h | h | h | h <;> rw [h] <;>
              simp [st_asm330lhh_odr_table]
          | ST_ASM330LHH_ID_GYRO =>
            rcases hrate with h | h | h | h | h | h <;> rw [h] <;>
              simp [st_asm330lhh_odr_table]
        · intro ht
          subst ht
          rw [get_odr_val_temp H _ hn] at hget
          show int_to_u16 val = 13 ∨ int_to_u16 val = 26 ∨ int_to_u16 val = 52
          rcases hrate with h | h | h | h | h | h <;> rw [h] at hget ⊢ <;>
            first
              | exact Or.inl rfl
              | exact Or.inr (Or.inl rfl)
              | exact Or.inr (Or.inr rfl)
              | (simp at hget)

/-- What every reachable instance state keeps, for every sensor kind and any sequence of
`st_asm330lhh_write_raw` calls (any attribute, any arguments, any bus outcomes), with `size`
counting initialised scale slots: the recorded gain is the gain of some entry of the kind's
scale table; for acceleration and angular-rate the recorded ODR is the Hz of some entry of
the kind's rate table; for temperature the recorded ODR is one of the discard-table rates
13, 26 and 52 Hz. -/
theorem reachable_rate_gain_in_tables (H : st_asm330lhh_h) (id : st_asm330lhh_sensor_id)
    (s : st_asm330lhh_sensor)
    (hn : 7 ≤ H.ST_ASM330LHH_ODR_LIST_SIZE)
    (hsize : (st_asm330lhh_fs_table H id).size ≤ (st_asm330lhh_fs_table H id).fs_avl.length)
    (hreach : reachable_sensor H id s) :
    s.id = id ∧
    (∃ e ∈ (st_asm330lhh_fs_table H id).fs_avl, e.gain = s.gain) ∧
    (id ≠ ST_ASM330LHH_ID_TEMP → ∃ e ∈ (st_asm330lhh_odr_table id).odr_avl, e.hz = s.odr) ∧
    (id = ST_ASM330LHH_ID_TEMP → s.odr = 13 ∨ s.odr = 26 ∨ s.odr = 52) := by
  have key : rate_gain_invariant H id s := by
    induction hreach with
    | alloc s hs => exact alloc_rate_gain_invariant H id s hs
    | write_raw s β tf hw val val2 mask _ ih =>
      exact write_raw_rate_gain_invariant H id tf hw s val val2 mask hn hsize ih
  exact key

theorem reachable_rate_gain_in_tables_witness :
    (st_asm330lhh_write_raw reference_header reg_bus idle_hw probed_temp 13 0
      IIO_CHAN_INFO_SAMP_FREQ).2.2.id = ST_ASM330LHH_ID_TEMP ∧
    (∃ e ∈ (st_asm330lhh_fs_table reference_header ST_ASM330LHH_ID_TEMP).fs_avl,
      e.gain = (st_asm330lhh_write_raw reference_header reg_bus idle_hw probed_temp 13 0
        IIO_CHAN_INFO_SAMP_FREQ).2.2.gain) ∧
    (ST_ASM330LHH_ID_TEMP ≠ ST_ASM330LHH_ID_TEMP →
      ∃ e ∈ (st_asm330lhh_odr_table ST_ASM330LHH_ID_TEMP).odr_avl,
        e.hz = (st_asm330lhh_write_raw reference_header reg_bus idle_hw probed_temp 13 0
          IIO_CHAN_INFO_SAMP_FREQ).2.2.odr) ∧
    (ST_ASM330LHH_ID_TEMP = ST_ASM330LHH_ID_TEMP →
      (st_asm330lhh_write_raw reference_header reg_bus idle_hw probed_temp 13 0
        IIO_CHAN_INFO_SAMP_FREQ).2.2.odr = 13 ∨
      (st_asm330lhh_write_raw reference_header reg_bus idle_hw probed_temp 13 0
        IIO_CHAN_INFO_SAMP_FREQ).2.2.odr = 26 ∨
      (st_asm330lhh_write_raw reference_header reg_bus idle_hw probed_temp 13 0
        IIO_CHAN_INFO_SAMP_FREQ).2.2.odr = 52) :=
  reachable_rate_gain_in_tables reference_header ST_ASM330LHH_ID_TEMP _ (by decide) (by decide)
    (reachable_sensor.write_raw probed_temp reg_file reg_bus idle_hw 13 0
      IIO_CHAN_INFO_SAMP_FREQ (reachable_sensor.alloc probed_temp rfl))

/-! ## Power-down -/

/-- C17 (the code on every input): `st_asm330lhh_regulator_power_down` issues exactly six
regulator calls whatever each returns, per rail disable, then clear voltage, then clear load;
but the three Vdd calls come first and the three Vio calls after them, so Vdd is disabled
before Vio, the same rail order as power-up and the opposite of the unwind path of
`st_asm330lhh_regulator_power_up`. -/
theorem power_down_issues_vdd_then_vio (rb : regulator_backend) (log : List rail_op) :
    st_asm330lhh_regulator_power_down rb log
      = log ++ [regulator_disable vdd, regulator_set_voltage vdd 0 INT_MAX,
          regulator_set_load vdd 0, regulator_disable vio,
          regulator_set_voltage vio 0 INT_MAX, regulator_set_load vio 0] := by
  simp [st_asm330lhh_regulator_power_down, regulator_call]

/-! ## One-shot read, acceleration and angular rate -/

theorem s16_range (x : Nat) : -32768 ≤ s16 x ∧ s16 x ≤ 32767 := by
  unfold s16
  have h : x % 2 ^ 16 < 2 ^ 16 := Nat.mod_lt _ (by decide)
  split <;> omega

/-- C18: for an acceleration or angular-rate instance with a non-zero recorded ODR, if the
enable step and the 2-byte data read of `st_asm330lhh_read_oneshot` succeed with the object
`r`, then on any bus, whatever the final disable step returns, the one-shot read returns
`IIO_VAL_INT` and stores the low 16 bits of `r` read as a two's-complement number: `r` itself
when `r < 32768`, `r - 65536` when `32768 ≤ r < 65536`, always within [-32768, 32767]. The
handle is the one the disable step leaves and the instance is unchanged. -/
theorem oneshot_value_survives_disable (β : Type) (H : st_asm330lhh_h)
    (tf : st_asm330lhh_transfer_function β) (hw : st_asm330lhh_hw β)
    (sensor : st_asm330lhh_sensor) (addr data0 r : Nat) (e1 e2 : Int)
    (hw1 : st_asm330lhh_hw β) (dev2 : β)
    (hkind : sensor.id ≠ ST_ASM330LHH_ID_TEMP) (hodr : sensor.odr ≠ 0)
    (hen : st_asm330lhh_sensor_set_enable H tf hw sensor true = (e1, hw1)) (he1 : 0 ≤ e1)
    (hrd : tf.read hw1.dev addr 2 = (e2, r, dev2)) (he2 : 0 ≤ e2) :
    ∃ res v, st_asm330lhh_read_oneshot H tf hw sensor addr data0 = some res ∧
      res.ret = H.IIO_VAL_INT ∧ res.val = some v ∧
      v = (if r % 65536 < 32768 then ((r % 65536 : Nat) : Int)
        else ((r % 65536 : Nat) : Int) - 65536) ∧
      (r < 32768 → v = (r : Int)) ∧
      (32768 ≤ r → r < 65536 → v = (r : Int) - 65536) ∧
      -32768 ≤ v ∧ v ≤ 32767 ∧
      res.hw = (st_asm330lhh_sensor_set_enable H tf { hw1 with dev := dev2 } sensor false).2 ∧
      res.sensor = sensor := by
  have hr : r % 65536 < 65536 := Nat.mod_lt _ (by decide)
  refine ⟨⟨H.IIO_VAL_INT, some (s16 (u16 r)),
    (st_asm330lhh_sensor_set_enable H tf { hw1 with dev := dev2 } sensor false).2, sensor⟩,
    s16 (u16 r), ?_, rfl, rfl, s16_u16_eq r, ?_, ?_, ?_, ?_, rfl, rfl⟩
  · simp [st_asm330lhh_read_oneshot, hkind, hen, not_lt.mpr he1, hodr, hrd, not_lt.mpr he2]
  · intro h
    rw [s16_u16_eq, Nat.mod_eq_of_lt (by omega), if_pos h]
  · intro h1 h2
    rw [s16_u16_eq, Nat.mod_eq_of_lt h2, if_neg (by omega)]
  · rw [s16_u16_eq]
    split <;> omega
  · rw [s16_u16_eq]
    split <;> omega

theorem oneshot_value_survives_disable_witness :
    (st_asm330lhh_sensor_set_enable reference_header (fails_after 3)
      { (⟨2, 1, 0, []⟩ : st_asm330lhh_hw Nat) with dev := 3 } probed_acc false).1 = -5 ∧
    (st_asm330lhh_read_oneshot reference_header (fails_after 3) ⟨0, 0, 0, []⟩ probed_acc
        0x28 0).map (fun res => (res.ret, res.val, res.sensor)) =
      some (1, some (-2), probed_acc) := by
  refine ⟨by decide, ?_⟩
  obtain ⟨res, v, hres, hret, hval, _, _, hv, _, _, _, hs⟩ :=
    oneshot_value_survives_disable Nat reference_header (fails_after 3) ⟨0, 0, 0, []⟩
      probed_acc 0x28 0 0xFFFE 0 0 ⟨2, 1, 0, []⟩ 3 (by decide) (by decide) rfl (by decide) rfl
      (by decide)
  have hv2 : v = -2 := by
    rw [hv (by decide) (by decide)]
    rfl
  rw [hres]
  show some (res.ret, res.val, res.sensor) = some (1, some (-2), probed_acc)
  rw [hret, hval, hs, hv2]
  rfl

/-! ## Independence of the rate and scale bit-fields -/

/-- A masked write leaves every bit of the register outside its mask as it was: a field
disjoint from the mask reads the same before and after. -/
theorem masked_byte_disjoint (d m v o : Nat) (ho : o < 256) (hdis : o &&& m = 0) :
    masked_byte (u8 d) m v &&& o = d &&& o := by
  apply Nat.eq_of_testBit_eq
  intro i
  have hbit : (Nat.testBit o i && Nat.testBit m i) = false := by
    rw [← Nat.testBit_and, hdis]; exact Nat.zero_testBit i
  simp only [masked_byte, u8, bitnot32, Nat.testBit_and, Nat.testBit_or, Nat.testBit_xor,
    Nat.testBit_mod_two_pow, Nat.testBit_two_pow_sub_one]
  by_cases h8 : i < 8
  · have h32 : i < 32 := by omega
    cases ho' : Nat.testBit o i <;> cases hm' : Nat.testBit m i <;>
      simp_all
  · have hoi : Nat.testBit o i = false :=
      Nat.testBit_lt_two_pow
        (lt_of_lt_of_le (show o < 2 ^ 8 from ho)
          (Nat.pow_le_pow_right (by decide) (by omega)))
    simp [hoi]

/-- The register and bit-field of the scale tables do not depend on the header. -/
theorem fs_reg (H : st_asm330lhh_h) :
    (st_asm330lhh_fs_table H ST_ASM330LHH_ID_ACC).reg
      = ⟨ST_ASM330LHH_REG_CTRL1_XL_ADDR, GENMASK 3 2⟩ ∧
    (st_asm330lhh_fs_table H ST_ASM330LHH_ID_GYRO).reg
      = ⟨ST_ASM330LHH_REG_CTRL2_G_ADDR, GENMASK 3 0⟩ :=
  ⟨rfl, rfl⟩

/-- C19: for the acceleration and angular-rate kinds the rate bit-field and the scale
bit-field lie in the same control register, are disjoint, and every table encoding fits
inside its field; hence on the ideal register file, for every content of the register, a
successful `st_asm330lhh_set_full_scale` leaves the ODR bit-field and the recorded ODR
unchanged, and a successful `st_asm330lhh_set_odr`, which does not act on the instance at
all, leaves the scale bit-field unchanged. -/
theorem rate_and_scale_fields_independent (H : st_asm330lhh_h)
    (hw : st_asm330lhh_hw reg_file) (sensor : st_asm330lhh_sensor)
    (hkind : sensor.id = ST_ASM330LHH_ID_ACC ∨ sensor.id = ST_ASM330LHH_ID_GYRO) :
    (st_asm330lhh_odr_table sensor.id).reg.addr = (st_asm330lhh_fs_table H sensor.id).reg.addr ∧
    (st_asm330lhh_odr_table sensor.id).reg.mask &&& (st_asm330lhh_fs_table H sensor.id).reg.mask
      = 0 ∧
    (∀ e ∈ (st_asm330lhh_odr_table sensor.id).odr_avl,
      (e.val <<< __ffs (st_asm330lhh_odr_table sensor.id).reg.mask)
          &&& (st_asm330lhh_odr_table sensor.id).reg.mask
        = e.val <<< __ffs (st_asm330lhh_odr_table sensor.id).reg.mask) ∧
    (∀ e ∈ (st_asm330lhh_fs_table H sensor.id).fs_avl,
      (e.val <<< __ffs (st_asm330lhh_fs_table H sensor.id).reg.mask)
          &&& (st_asm330lhh_fs_table H sensor.id).reg.mask
        = e.val <<< __ffs (st_asm330lhh_fs_table H sensor.id).reg.mask) ∧
    (∀ g, (∃ i, i < (st_asm330lhh_fs_table H sensor.id).size ∧
        (fs_avl_at H sensor.id i).gain = g) →
      (st_asm330lhh_set_full_scale H reg_bus hw sensor g).1 = 0 ∧
      odr_field (st_asm330lhh_set_full_scale H reg_bus hw sensor g).2.1.dev.mem sensor.id
        = odr_field hw.dev.mem sensor.id ∧
      (st_asm330lhh_set_full_scale H reg_bus hw sensor g).2.2.odr = sensor.odr ∧
      (st_asm330lhh_set_full_scale H reg_bus hw sensor g).2.2.gain = g) ∧
    (∀ odr v, st_asm330lhh_get_odr_val H sensor.id odr = Except.ok v →
      (st_asm330lhh_set_odr H reg_bus hw sensor odr).1 = 0 ∧
      fs_field H (st_asm330lhh_set_odr H reg_bus hw sensor odr).2.dev.mem sensor.id
        = fs_field H hw.dev.mem sensor.id) := by
  have haddr : (st_asm330lhh_odr_table sensor.id).reg.addr
      = (st_asm330lhh_fs_table H sensor.id).reg.addr := by
    rcases hkind with h | h <;> rw [h] <;> rfl
  have hdis : (st_asm330lhh_odr_table sensor.id).reg.mask
      &&& (st_asm330lhh_fs_table H sensor.id).reg.mask = 0 := by
    rcases hkind with h | h
    · rw [h, (fs_reg H).1]; decide
    · rw [h, (fs_reg H).2]; decide
  have hdis' : (st_asm330lhh_fs_table H sensor.id).reg.mask
      &&& (st_asm330lhh_odr_table sensor.id).reg.mask = 0 := by
    rcases hkind with h | h
    · rw [h, (fs_reg H).1]; decide
    · rw [h, (fs_reg H).2]; decide
  have hom : (st_asm330lhh_odr_table sensor.id).reg.mask < 256 := by
    rcases hkind with h | h <;> rw [h] <;> decide
  have hfm : (st_asm330lhh_fs_table H sensor.id).reg.mask < 256 := by
    rcases hkind with h | h
    · rw [h, (fs_reg H).1]; decide
    · rw [h, (fs_reg H).2]; decide
  refine ⟨haddr, hdis, ?_, ?_, ?_, ?_⟩
  · intro e he
    rcases hkind with h | h <;> rw [h] at he ⊢ <;>
      simp only [st_asm330lhh_odr_table, List.mem_cons, List.mem_singleton, List.not_mem_nil,
        or_false] at he ⊢ <;>
      rcases he with h | h | h | h | h | h | h <;> subst h <;> rfl
  · intro e he
    rcases hkind with h | h <;> rw [h] at he ⊢ <;>
      simp only [st_asm330lhh_fs_table, List.mem_cons, List.mem_singleton, List.not_mem_nil,
        or_false] at he ⊢
    · rcases he with h | h | h | h <;> subst h <;> dsimp only <;> decide
    · rcases he with h | h | h | h | h | h <;> subst h <;> dsimp only <;> decide
  · intro g hg
    have hbus : 0 ≤ (st_asm330lhh_write_with_mask reg_bus hw.dev
        (st_asm330lhh_fs_table H sensor.id).reg.addr
        (st_asm330lhh_fs_table H sensor.id).reg.mask
        (u8 (fs_avl_at H sensor.id (fs_lookup_index H sensor.id g)).val)).1 := by
      rw [write_with_mask_reg_bus]
    rw [set_full_scale_success H reg_bus hw sensor g hg hbus]
    refine ⟨rfl, ?_, rfl, rfl⟩
    simp only [write_with_mask_reg_bus, u8_reg_load_one]
    unfold odr_field
    rw [haddr, reg_store_same _ _ _ (masked_byte_lt _ _ _),
      masked_byte_disjoint _ _ _ _ hom hdis]
  · intro odr v hv
    obtain ⟨hw1, hset, _, _, hmem1, _⟩ := set_odr_reg_bus H hw sensor odr v hv
    rw [hset]
    refine ⟨rfl, ?_⟩
    unfold fs_field
    simp only [hmem1]
    rw [← haddr, reg_store_same _ _ _ (masked_byte_lt _ _ _),
      masked_byte_disjoint _ _ _ _ hfm hdis']

theorem rate_and_scale_fields_independent_witness :
    (st_asm330lhh_odr_table probed_acc.id).reg.addr = (st_asm330lhh_fs_table reference_header probed_acc.id).reg.addr ∧
    (st_asm330lhh_odr_table probed_acc.id).reg.mask &&& (st_asm330lhh_fs_table reference_header probed_acc.id).reg.mask
      = 0 ∧
    (∀ e ∈ (st_asm330lhh_odr_table probed_acc.id).odr_avl,
      (e.val <<< __ffs (st_asm330lhh_odr_table probed_acc.id).reg.mask)
          &&& (st_asm330lhh_odr_table probed_acc.id).reg.mask
        = e.val <<< __ffs (st_asm330lhh_odr_table probed_acc.id).reg.mask) ∧
    (∀ e ∈ (st_asm330lhh_fs_table reference_header probed_acc.id).fs_avl,
      (e.val <<< __ffs (st_asm330lhh_fs_table reference_header probed_acc.id).reg.mask)
          &&& (st_asm330lhh_fs_table reference_header probed_acc.id).reg.mask
        = e.val <<< __ffs (st_asm330lhh_fs_table reference_header probed_acc.id).reg.mask) ∧
    (∀ g, (∃ i, i < (st_asm330lhh_fs_table reference_header probed_acc.id).size ∧
        (fs_avl_at reference_header probed_acc.id i).gain = g) →
      (st_asm330lhh_set_full_scale reference_header reg_bus idle_hw probed_acc g).1 = 0 ∧
      odr_field (st_asm330lhh_set_full_scale reference_header reg_bus idle_hw probed_acc g).2.1.dev.mem probed_acc.id
        = odr_field idle_hw.dev.mem probed_acc.id ∧
      (st_asm330lhh_set_full_scale reference_header reg_bus idle_hw probed_acc g).2.2.odr = probed_acc.odr ∧
      (st_asm330lhh_set_full_scale reference_header reg_bus idle_hw probed_acc g).2.2.gain = g) ∧
    (∀ odr v, st_asm330lhh_get_odr_val reference_header probed_acc.id odr = Except.ok v →
      (st_asm330lhh_set_odr reference_header reg_bus idle_hw probed_acc odr).1 = 0 ∧
      fs_field reference_header (st_asm330lhh_set_odr reference_header reg_bus idle_hw probed_acc odr).2.dev.mem probed_acc.id
        = fs_field reference_header idle_hw.dev.mem probed_acc.id) :=
  rate_and_scale_fields_independent reference_header idle_hw probed_acc (Or.inl rfl)

/-! ## Ordering of the tables -/

/-- C20 (as stated, refuted): among the rate slots of the temperature kind that
`st_asm330lhh_get_odr_val` scans, slot 1 holds 52 Hz and slot 2, which is not initialised,
holds 0: the scanned slots are not non-decreasing in Hz. -/
theorem temp_rate_slots_not_sorted :
    2 < reference_header.ST_ASM330LHH_ODR_LIST_SIZE ∧
    (odr_avl_at ST_ASM330LHH_ID_TEMP 1).hz = 52 ∧
    (odr_avl_at ST_ASM330LHH_ID_TEMP 2).hz = 0 ∧
    ¬ ∀ i, i + 1 < reference_header.ST_ASM330LHH_ODR_LIST_SIZE →
      (odr_avl_at ST_ASM330LHH_ID_TEMP i).hz ≤ (odr_avl_at ST_ASM330LHH_ID_TEMP (i + 1)).hz := by
  refine ⟨by decide, rfl, rfl, ?_⟩
  intro h
  exact absurd (h 1 (by decide)) (by decide)

theorem fs_slots_acc (H : st_asm330lhh_h) :
    fs_avl_at H ST_ASM330LHH_ID_ACC 0 = ⟨u32 (H.IIO_G_TO_M_S_2 61), 0x0⟩ ∧
    fs_avl_at H ST_ASM330LHH_ID_ACC 1 = ⟨u32 (H.IIO_G_TO_M_S_2 122), 0x2⟩ ∧
    fs_avl_at H ST_ASM330LHH_ID_ACC 2 = ⟨u32 (H.IIO_G_TO_M_S_2 244), 0x3⟩ ∧
    fs_avl_at H ST_ASM330LHH_ID_ACC 3 = ⟨u32 (H.IIO_G_TO_M_S_2 488), 0x1⟩ :=
  ⟨rfl, rfl, rfl, rfl⟩

theorem fs_slots_gyro (H : st_asm330lhh_h) :
    fs_avl_at H ST_ASM330LHH_ID_GYRO 0 = ⟨u32 (H.IIO_DEGREE_TO_RAD 4375), 0x2⟩ ∧
    fs_avl_at H ST_ASM330LHH_ID_GYRO 1 = ⟨u32 (H.IIO_DEGREE_TO_RAD 8750), 0x0⟩ ∧
    fs_avl_at H ST_ASM330LHH_ID_GYRO 2 = ⟨u32 (H.IIO_DEGREE_TO_RAD 17500), 0x4⟩ ∧
    fs_avl_at H ST_ASM330LHH_ID_GYRO 3 = ⟨u32 (H.IIO_DEGREE_TO_RAD 35000), 0x8⟩ ∧
    fs_avl_at H ST_ASM330LHH_ID_GYRO 4 = ⟨u32 (H.IIO_DEGREE_TO_RAD 70000), 0xC⟩ ∧
    fs_avl_at H ST_ASM330LHH_ID_GYRO 5 = ⟨u32 (H.IIO_DEGREE_TO_RAD 140000), 0x1⟩ :=
  ⟨rfl, rfl, rfl, rfl, rfl, rfl⟩

/-- With the kernel's unit macros and the sizes the spec gives, the scale slots scanned are
strictly increasing in gain. -/
theorem fs_gains_increasing (H : st_asm330lhh_h) (id : st_asm330lhh_sensor_id)
    (hH : header_units_and_sizes H) :
    ∀ i, i + 1 < (st_asm330lhh_fs_table H id).size →
      (fs_avl_at H id i).gain < (fs_avl_at H id (i + 1)).gain := by
  obtain ⟨hG, hR, ha, hg, ht⟩ := hH
  obtain ⟨a0, a1, a2, a3⟩ := fs_slots_acc H
  obtain ⟨g0, g1, g2, g3, g4, g5⟩ := fs_slots_gyro H
  intro i hi
  cases id
  · have hi' : i < 3 := by
      have : (st_asm330lhh_fs_table H ST_ASM330LHH_ID_ACC).size = 4 := ha
      omega
    interval_cases i <;>
      simp only [Nat.zero_add, Nat.reduceAdd, a0, a1, a2, a3, hG, u32] <;> decide
  · have hi' : i < 5 := by
      have : (st_asm330lhh_fs_table H ST_ASM330LHH_ID_GYRO).size = 6 := hg
      omega
    interval_cases i <;>
      simp only [Nat.zero_add, Nat.reduceAdd, g0, g1, g2, g3, g4, g5, hR, u32] <;> decide
  · have hi' : i + 1 < 1 := by
      have : (st_asm330lhh_fs_table H ST_ASM330LHH_ID_TEMP).size = 1 := ht
      omega
    omega

/-- C20 (amended): for every sensor kind the initialised entries of the rate table (seven for
acceleration and angular-rate, two for temperature) are strictly increasing in Hz and every
further slot scanned by `st_asm330lhh_get_odr_val` is zero, so with exactly seven slots the
acceleration and angular-rate tables are non-decreasing over all slots scanned; and, with the
kernel's unit macros and the table sizes of the spec, the first `size` entries of the scale
table are strictly increasing in gain. -/
theorem tables_sorted_over_initialised_entries (H : st_asm330lhh_h)
    (id : st_asm330lhh_sensor_id) (hH : header_units_and_sizes H) :
    (∀ i, i + 1 < (st_asm330lhh_odr_table id).odr_avl.length →
      (odr_avl_at id i).hz < (odr_avl_at id (i + 1)).hz) ∧
    (∀ i, (st_asm330lhh_odr_table id).odr_avl.length ≤ i → odr_avl_at id i = ⟨0, 0⟩) ∧
    (st_asm330lhh_odr_table id).odr_avl.length = (if id = ST_ASM330LHH_ID_TEMP then 2 else 7) ∧
    (id ≠ ST_ASM330LHH_ID_TEMP → H.ST_ASM330LHH_ODR_LIST_SIZE = 7 →
      ∀ i, i + 1 < H.ST_ASM330LHH_ODR_LIST_SIZE →
        (odr_avl_at id i).hz ≤ (odr_avl_at id (i + 1)).hz) ∧
    (∀ i, i + 1 < (st_asm330lhh_fs_table H id).size →
      (fs_avl_at H id i).gain < (fs_avl_at H id (i + 1)).gain) := by
  obtain ⟨a0, a1, a2, a3, a4, a5, a6⟩ := odr_slots_acc
  obtain ⟨g0, g1, g2, g3, g4, g5, g6⟩ := odr_slots_gyro
  obtain ⟨t0, t1⟩ := odr_slots_temp
  have hinc : ∀ i, i + 1 < (st_asm330lhh_odr_table id).odr_avl.length →
      (odr_avl_at id i).hz < (odr_avl_at id (i + 1)).hz := by
    intro i hi
    cases id
    · have hi' : i < 6 := Nat.lt_of_succ_lt_succ hi
      interval_cases i <;>
        simp only [Nat.zero_add, Nat.reduceAdd, a0, a1, a2, a3, a4, a5, a6] <;> decide
    · have hi' : i < 6 := Nat.lt_of_succ_lt_succ hi
      interval_cases i <;>
        simp only [Nat.zero_add, Nat.reduceAdd, g0, g1, g2, g3, g4, g5, g6] <;> decide
    · have hi' : i < 1 := Nat.lt_of_succ_lt_succ hi
      interval_cases i
      simp only [Nat.zero_add, t0, t1]
      decide
  refine ⟨hinc, ?_, ?_, ?_, fs_gains_increasing H id hH⟩
  · intro i hi
    cases id
    · exact odr_avl_at_acc_zero i hi
    · exact odr_avl_at_gyro_zero i hi
    · exact odr_avl_at_temp_zero i hi
  · cases id <;> rfl
  · intro hnt h7 i hi
    rw [h7] at hi
    apply Nat.le_of_lt
    apply hinc
    cases id
    · exact hi
    · exact hi
    · exact absurd rfl hnt

theorem reference_header_units_and_sizes : header_units_and_sizes reference_header :=
  ⟨fun _ => rfl, fun _ => rfl, rfl, rfl, rfl⟩

theorem tables_sorted_over_initialised_entries_witness :
    (∀ i, i + 1 < (st_asm330lhh_odr_table ST_ASM330LHH_ID_GYRO).odr_avl.length →
      (odr_avl_at ST_ASM330LHH_ID_GYRO i).hz < (odr_avl_at ST_ASM330LHH_ID_GYRO (i + 1)).hz) ∧
    (∀ i, (st_asm330lhh_odr_table ST_ASM330LHH_ID_GYRO).odr_avl.length ≤ i → odr_avl_at ST_ASM330LHH_ID_GYRO i = ⟨0, 0⟩) ∧
    (st_asm330lhh_odr_table ST_ASM330LHH_ID_GYRO).odr_avl.length = (if ST_ASM330LHH_ID_GYRO = ST_ASM330LHH_ID_TEMP then 2 else 7) ∧
    (ST_ASM330LHH_ID_GYRO ≠ ST_ASM330LHH_ID_TEMP → reference_header.ST_ASM330LHH_ODR_LIST_SIZE = 7 →
      ∀ i, i + 1 < reference_header.ST_ASM330LHH_ODR_LIST_SIZE →
        (odr_avl_at ST_ASM330LHH_ID_GYRO i).hz ≤ (odr_avl_at ST_ASM330LHH_ID_GYRO (i + 1)).hz) ∧
    (∀ i, i + 1 < (st_asm330lhh_fs_table reference_header ST_ASM330LHH_ID_GYRO).size →
      (fs_avl_at reference_header ST_ASM330LHH_ID_GYRO i).gain < (fs_avl_at reference_header ST_ASM330LHH_ID_GYRO (i + 1)).gain) :=
  tables_sorted_over_initialised_entries reference_header ST_ASM330LHH_ID_GYRO
    reference_header_units_and_sizes

/-! ## One-shot read: the return path of a failed data read -/

/-- The call `st_asm330lhh_set_odr` acts on the device state only. -/
theorem set_odr_enable_mask {β : Type} (H : st_asm330lhh_h)
    (tf : st_asm330lhh_transfer_function β) (hw : st_asm330lhh_hw β)
    (sensor : st_asm330lhh_sensor) (odr : Nat) :
    (st_asm330lhh_set_odr H tf hw sensor odr).2.enable_mask = hw.enable_mask ∧
    (st_asm330lhh_set_odr H tf hw sensor odr).2.iio_devs = hw.iio_devs := by
  unfold st_asm330lhh_set_odr
  cases st_asm330lhh_get_odr_val H sensor.id odr <;> exact ⟨rfl, rfl⟩

/-- A successful enable step leaves the kind's bit set in the enable mask. -/
theorem sensor_set_enable_ok_mask {β : Type} (H : st_asm330lhh_h)
    (tf : st_asm330lhh_transfer_function β) (hw hw1 : st_asm330lhh_hw β)
    (sensor : st_asm330lhh_sensor) (e1 : Int)
    (hen : st_asm330lhh_sensor_set_enable H tf hw sensor true = (e1, hw1)) (he1 : 0 ≤ e1) :
    hw1.enable_mask = hw.enable_mask ||| BIT (H.id_value sensor.id) := by
  unfold st_asm330lhh_sensor_set_enable at hen
  simp only [if_true] at hen
  by_cases hk : sensor.id ≠ ST_ASM330LHH_ID_TEMP
  · rw [if_pos hk] at hen
    have hm := (set_odr_enable_mask H tf hw sensor sensor.odr).1
    rcases hs : st_asm330lhh_set_odr H tf hw sensor sensor.odr with ⟨err, hwa⟩
    rw [hs] at hen hm
    simp only at hen hm
    by_cases herr : err < 0
    · rw [if_pos herr] at hen
      cases hen
      omega
    · rw [if_neg herr] at hen
      cases hen
      simp [update_enable_mask, hm]
  · rw [if_neg hk] at hen
    cases hen
    simp [update_enable_mask]

/-- C21 (the code at a failing input): for an acceleration or angular-rate instance with a
non-zero recorded ODR, when the enable step of `st_asm330lhh_read_oneshot` has succeeded and
the data read fails with `e2 < 0`, the function returns `e2` at once: the handle is the one
left by the enable step and the failed read, no disable step is run, and the kind's bit of
the enable mask is set. -/
theorem oneshot_failed_read_skips_disable (β : Type) (H : st_asm330lhh_h)
    (tf : st_asm330lhh_transfer_function β) (hw hw1 : st_asm330lhh_hw β)
    (sensor : st_asm330lhh_sensor) (addr data0 r : Nat) (e1 e2 : Int) (dev2 : β)
    (hkind : sensor.id ≠ ST_ASM330LHH_ID_TEMP) (hodr : sensor.odr ≠ 0)
    (hen : st_asm330lhh_sensor_set_enable H tf hw sensor true = (e1, hw1)) (he1 : 0 ≤ e1)
    (hrd : tf.read hw1.dev addr 2 = (e2, r, dev2)) (he2 : e2 < 0) :
    st_asm330lhh_read_oneshot H tf hw sensor addr data0
      = some ⟨e2, none, { hw1 with dev := dev2 }, sensor⟩ ∧
    ({ hw1 with dev := dev2 } : st_asm330lhh_hw β).enable_mask.testBit (H.id_value sensor.id)
      = true := by
  refine ⟨?_, ?_⟩
  · simp [st_asm330lhh_read_oneshot, hkind, hen, not_lt.mpr he1, hodr, hrd, he2]
  · show hw1.enable_mask.testBit (H.id_value sensor.id) = true
    rw [sensor_set_enable_ok_mask H tf hw hw1 sensor e1 hen he1, or_bit_testBit]
    simp

theorem oneshot_failed_read_skips_disable_witness :
    (idle_hw.enable_mask.testBit (reference_header.id_value probed_acc.id) = false ∧
      odr_field (st_asm330lhh_sensor_set_enable reference_header data_read_fails idle_hw
        probed_acc true).2.dev.mem ST_ASM330LHH_ID_ACC = 1 ∧
      (st_asm330lhh_read_oneshot reference_header reg_bus idle_hw probed_acc 0x28 0).map
          (fun r => (r.hw.enable_mask.testBit (reference_header.id_value probed_acc.id),
            odr_field r.hw.dev.mem ST_ASM330LHH_ID_ACC)) = some (false, 0)) ∧
    (st_asm330lhh_read_oneshot reference_header data_read_fails idle_hw probed_acc 0x28 0
      = some ⟨-5, none,
          { (st_asm330lhh_sensor_set_enable reference_header data_read_fails idle_hw
              probed_acc true).2 with
            dev := (data_read_fails.read (st_asm330lhh_sensor_set_enable reference_header
              data_read_fails idle_hw probed_acc true).2.dev 0x28 2).2.2 }, probed_acc⟩ ∧
    ({ (st_asm330lhh_sensor_set_enable reference_header data_read_fails idle_hw
          probed_acc true).2 with
        dev := (data_read_fails.read (st_asm330lhh_sensor_set_enable reference_header
          data_read_fails idle_hw probed_acc true).2.dev 0x28 2).2.2 } :
        st_asm330lhh_hw reg_file).enable_mask.testBit
          (reference_header.id_value probed_acc.id) = true) :=
  ⟨⟨by decide, by decide, by decide⟩,
    oneshot_failed_read_skips_disable reg_file reference_header data_read_fails idle_hw
      (st_asm330lhh_sensor_set_enable reference_header data_read_fails idle_hw probed_acc true).2
      probed_acc 0x28 0 0 0 (-5)
      (data_read_fails.read (st_asm330lhh_sensor_set_enable reference_header data_read_fails
        idle_hw probed_acc true).2.dev 0x28 2).2.2
      (by decide) (by decide) (Prod.ext (by decide) rfl) (by decide) rfl (by decide)⟩

/-! ## The settle delay of the one-shot read -/

/-- The instance built by `st_asm330lhh_alloc_iiodev` records a discard-table rate. -/
theorem alloc_odr_is_std_rate (H : st_asm330lhh_h) (id : st_asm330lhh_sensor_id)
    (s : st_asm330lhh_sensor) (hs : st_asm330lhh_alloc_iiodev H true id = some s) :
    odr_is_std_rate s := by
  cases id <;>
    (simp only [st_asm330lhh_alloc_iiodev, Bool.not_true, Bool.false_eq_true, if_false,
       Option.some.injEq] at hs
     subst hs
     first
       | exact Or.inl rfl
       | exact Or.inr (Or.inr (Or.inl rfl)))

/-- A call of `st_asm330lhh_write_raw` keeps the recorded ODR among the discard-table
rates, whatever the arguments and the bus do. -/
theorem write_raw_odr_is_std_rate {β : Type} (H : st_asm330lhh_h)
    (tf : st_asm330lhh_transfer_function β) (hw : st_asm330lhh_hw β)
    (s : st_asm330lhh_sensor) (val val2 : Int) (mask : iio_chan_info_enum)
    (hinv : odr_is_std_rate s) :
    odr_is_std_rate (st_asm330lhh_write_raw H tf hw s val val2 mask).2.2 := by
  cases mask with
  | IIO_CHAN_INFO_RAW => exact hinv
  | IIO_CHAN_INFO_OFFSET => exact hinv
  | other n => exact hinv
  | IIO_CHAN_INFO_SCALE =>
    simp only [st_asm330lhh_write_raw, st_asm330lhh_set_full_scale]
    split
    · exact hinv
    · split
      · exact hinv
      · exact hinv
  | IIO_CHAN_INFO_SAMP_FREQ =>
    simp only [st_asm330lhh_write_raw]
    rcases set_std_level_cases s (int_to_u16 val) with hrej | ⟨hrate, h0, _, _, h3⟩
    · rw [hrej]
      simp only [show (-EINVAL : Int) < 0 by decide, if_true]
      exact hinv
    · rcases hstd : st_asm330lhh_set_std_level s (int_to_u16 val) with ⟨err, s1⟩
      rw [hstd] at h0 h3
      simp only at h0 h3
      subst h0
      simp only [lt_self_iff_false, if_false]
      cases hget : st_asm330lhh_get_odr_val H s1.id (int_to_u16 val) with
      | error e =>
        simp only
        unfold odr_is_std_rate
        rw [h3]
        exact hinv
      | ok v =>
        simp only
        exact hrate

/-- Every reachable instance state records a discard-table rate. -/
theorem reachable_odr_is_std_rate (H : st_asm330lhh_h) (id : st_asm330lhh_sensor_id)
    (s : st_asm330lhh_sensor) (hreach : reachable_sensor H id s) : odr_is_std_rate s := by
  induction hreach with
  | alloc s hs => exact alloc_odr_is_std_rate H id s hs
  | write_raw s β tf hw val val2 mask _ ih =>
    exact write_raw_odr_is_std_rate H tf hw s val val2 mask ih

/-- C23: for every instance state (of any kind, so for every acceleration and every
angular-rate instance) reachable from construction by `st_asm330lhh_alloc_iiodev` through
any sequence of `st_asm330lhh_write_raw` calls (any integer arguments, any bus and bus
outcomes), the recorded ODR is non-zero, the settle delay `1000000 / odr` of
`st_asm330lhh_read_oneshot` lies between 2403 and 76923 microseconds, and
`st_asm330lhh_read_oneshot` on that instance always computes a result (it never takes the
division-by-zero path). -/
theorem reachable_odr_nonzero_delay_bounded (H : st_asm330lhh_h)
    (id : st_asm330lhh_sensor_id) (s : st_asm330lhh_sensor)
    (hreach : reachable_sensor H id s) :
    s.odr ≠ 0 ∧ 2403 ≤ 1000000 / s.odr ∧ 1000000 / s.odr ≤ 76923 ∧
    ∀ (β : Type) (tf : st_asm330lhh_transfer_function β) (hw : st_asm330lhh_hw β)
      (addr data0 : Nat),
      (st_asm330lhh_read_oneshot H tf hw s addr data0).isSome = true := by
  have hstd := reachable_odr_is_std_rate H id s hreach
  have hne : s.odr ≠ 0 := by
    unfold odr_is_std_rate at hstd
    omega
  refine ⟨hne, ?_, ?_, ?_⟩
  · rcases hstd with h | h | h | h | h | h <;> rw [h] <;> decide
  · rcases hstd with h | h | h | h | h | h <;> rw [h] <;> decide
  · intro β tf hw addr data0
    simp only [st_asm330lhh_read_oneshot, hne, if_false]
    split_ifs <;> rfl

theorem reachable_odr_nonzero_delay_bounded_witness :
    (st_asm330lhh_write_raw reference_header dead_bus ⟨(), 0, 0, []⟩ probed_acc
        (65536 + 416) 0 IIO_CHAN_INFO_SAMP_FREQ).2.2.odr ≠ 0 ∧
    2403 ≤ 1000000 / (st_asm330lhh_write_raw reference_header dead_bus ⟨(), 0, 0, []⟩
        probed_acc (65536 + 416) 0 IIO_CHAN_INFO_SAMP_FREQ).2.2.odr ∧
    1000000 / (st_asm330lhh_write_raw reference_header dead_bus ⟨(), 0, 0, []⟩
        probed_acc (65536 + 416) 0 IIO_CHAN_INFO_SAMP_FREQ).2.2.odr ≤ 76923 ∧
    ∀ (β : Type) (tf : st_asm330lhh_transfer_function β) (hw : st_asm330lhh_hw β)
      (addr data0 : Nat),
      (st_asm330lhh_read_oneshot reference_header tf hw
        (st_asm330lhh_write_raw reference_header dead_bus ⟨(), 0, 0, []⟩
          probed_acc (65536 + 416) 0 IIO_CHAN_INFO_SAMP_FREQ).2.2 addr data0).isSome = true :=
  reachable_odr_nonzero_delay_bounded reference_header ST_ASM330LHH_ID_ACC _
    (reachable_sensor.write_raw probed_acc Unit dead_bus ⟨(), 0, 0, []⟩ (65536 + 416) 0
      IIO_CHAN_INFO_SAMP_FREQ (reachable_sensor.alloc probed_acc rfl))

/-! ## The mask argument of the masked write -/

/-- C22 (the code at failing inputs): the temperature entries of the rate table and of the
scale table have no `.reg` initialiser, so their mask is 0, the value on which `__ffs` is
undefined (the model's scan runs to index 64, past the promoted operand's width). For a
temperature instance the calls that `st_asm330lhh_suspend` and `st_asm330lhh_resume` make
for an enabled instance, `st_asm330lhh_set_odr(sensor, 0)` and
`st_asm330lhh_set_odr(sensor, sensor->odr)`, are the masked write at address 0 with mask 0,
and so is the call made by `st_asm330lhh_write_raw` for a scale of 3906 (the temperature
gain) and for a sampling frequency of 52. -/
theorem temperature_paths_pass_zero_mask (β : Type) (H : st_asm330lhh_h)
    (tf : st_asm330lhh_transfer_function β) (hw : st_asm330lhh_hw β)
    (sensor : st_asm330lhh_sensor)
    (hn : 7 ≤ H.ST_ASM330LHH_ODR_LIST_SIZE) (hfs : 1 ≤ H.ST_ASM330LHH_FS_TEMP_LIST_SIZE)
    (hid : sensor.id = ST_ASM330LHH_ID_TEMP) :
    (st_asm330lhh_odr_table sensor.id).reg.mask = 0 ∧
    (st_asm330lhh_fs_table H sensor.id).reg.mask = 0 ∧
    __ffs 0 = 64 ∧
    st_asm330lhh_set_odr H tf hw sensor 0
      = ((st_asm330lhh_write_with_mask tf hw.dev 0 0 0).1,
          { hw with dev := (st_asm330lhh_write_with_mask tf hw.dev 0 0 0).2 }) ∧
    (0 < sensor.odr → sensor.odr ≤ 52 →
      st_asm330lhh_set_odr H tf hw sensor sensor.odr
        = ((st_asm330lhh_write_with_mask tf hw.dev 0 0 1).1,
            { hw with dev := (st_asm330lhh_write_with_mask tf hw.dev 0 0 1).2 })) ∧
    st_asm330lhh_write_raw H tf hw sensor 0 3906 IIO_CHAN_INFO_SCALE
      = (if (st_asm330lhh_write_with_mask tf hw.dev 0 0 0).1 < 0 then
          ((st_asm330lhh_write_with_mask tf hw.dev 0 0 0).1,
            { hw with dev := (st_asm330lhh_write_with_mask tf hw.dev 0 0 0).2 }, sensor)
        else
          (0, { hw with dev := (st_asm330lhh_write_with_mask tf hw.dev 0 0 0).2 },
            { sensor with gain := 3906 })) ∧
    (st_asm330lhh_write_raw H tf hw sensor 52 0 IIO_CHAN_INFO_SAMP_FREQ).1
      = (st_asm330lhh_write_with_mask tf hw.dev 0 0 1).1 ∧
    (st_asm330lhh_write_raw H tf hw sensor 52 0 IIO_CHAN_INFO_SAMP_FREQ).2.1.dev
      = (st_asm330lhh_write_with_mask tf hw.dev 0 0 1).2 := by
  have hodr : ∀ v, st_asm330lhh_set_odr H tf hw sensor v
      = match st_asm330lhh_get_odr_val H ST_ASM330LHH_ID_TEMP v with
        | Except.error _ => (-EINVAL, hw)
        | Except.ok val =>
          ((st_asm330lhh_write_with_mask tf hw.dev 0 0 (u8 val)).1,
            { hw with dev := (st_asm330lhh_write_with_mask tf hw.dev 0 0 (u8 val)).2 }) := by
    intro v
    unfold st_asm330lhh_set_odr
    rw [hid]
    cases st_asm330lhh_get_odr_val H ST_ASM330LHH_ID_TEMP v <;> rfl
  refine ⟨by rw [hid]; rfl, by rw [hid]; rfl, by decide, ?_, ?_, ?_, ?_⟩
  · rw [hodr 0, get_odr_val_temp H 0 hn]
    rfl
  · intro h0 h52
    rw [hodr sensor.odr, get_odr_val_temp H sensor.odr hn, if_neg (by omega), if_pos h52]
    rfl
  · obtain ⟨m, hm⟩ : ∃ m, H.ST_ASM330LHH_FS_TEMP_LIST_SIZE = m + 1 :=
      ⟨_, (Nat.sub_add_cancel hfs).symm⟩
    have hsize : (st_asm330lhh_fs_table H ST_ASM330LHH_ID_TEMP).size = m + 1 := hm
    have hidx : fs_lookup_index H ST_ASM330LHH_ID_TEMP 3906 = 0 := by
      unfold fs_lookup_index
      rw [hsize, first_index_succ]
      rfl
    have h32 : int_to_u32 3906 = 3906 := by decide
    simp only [st_asm330lhh_write_raw, st_asm330lhh_set_full_scale, hid, h32, hidx, hsize]
    rw [if_neg (by omega)]
    rfl
  · have h16 : int_to_u16 52 = 52 := by decide
    have hstd : st_asm330lhh_set_std_level sensor 52
        = (0, { sensor with std_level := 4, std_samples := 0 }) := rfl
    have hget : st_asm330lhh_get_odr_val H ST_ASM330LHH_ID_TEMP 52 = Except.ok 1 := by
      rw [get_odr_val_temp H 52 hn]
      rfl
    have hset : ∀ s : st_asm330lhh_sensor, s.id = ST_ASM330LHH_ID_TEMP →
        st_asm330lhh_set_odr H tf hw s 52
          = ((st_asm330lhh_write_with_mask tf hw.dev 0 0 1).1,
              { hw with dev := (st_asm330lhh_write_with_mask tf hw.dev 0 0 1).2 }) := by
      intro s hs
      unfold st_asm330lhh_set_odr
      rw [hs, hget]
      rfl
    simp only [st_asm330lhh_write_raw, h16, hstd, lt_self_iff_false, if_false, hid, hget]
    rw [hset _ rfl]
    exact ⟨rfl, rfl⟩

theorem temperature_paths_pass_zero_mask_witness :
    (st_asm330lhh_suspend reference_header reg_bus (fun hw => (0, hw)) temp_enabled_hw
        = (0, { temp_enabled_hw with
            dev := (st_asm330lhh_write_with_mask reg_bus temp_enabled_hw.dev 0 0 0).2 }) ∧
      (st_asm330lhh_suspend reference_header reg_bus (fun hw => (0, hw))
          temp_enabled_hw).2.dev.log = [bus_op.rd 0 1, bus_op.wr 0 1 0] ∧
      st_asm330lhh_resume reference_header reg_bus (fun hw _ => (0, hw)) temp_enabled_hw
        = (0, { temp_enabled_hw with
            dev := (st_asm330lhh_write_with_mask reg_bus temp_enabled_hw.dev 0 0 1).2 }) ∧
      (st_asm330lhh_sensor_set_enable reference_header reg_bus temp_enabled_hw probed_temp
          false).2.dev.log = []) ∧
    ((st_asm330lhh_odr_table probed_temp.id).reg.mask = 0 ∧
    (st_asm330lhh_fs_table reference_header probed_temp.id).reg.mask = 0 ∧
    __ffs 0 = 64 ∧
    st_asm330lhh_set_odr reference_header reg_bus temp_enabled_hw probed_temp 0
      = ((st_asm330lhh_write_with_mask reg_bus temp_enabled_hw.dev 0 0 0).1,
          { temp_enabled_hw with
            dev := (st_asm330lhh_write_with_mask reg_bus temp_enabled_hw.dev 0 0 0).2 }) ∧
    (0 < probed_temp.odr → probed_temp.odr ≤ 52 →
      st_asm330lhh_set_odr reference_header reg_bus temp_enabled_hw probed_temp probed_temp.odr
        = ((st_asm330lhh_write_with_mask reg_bus temp_enabled_hw.dev 0 0 1).1,
            { temp_enabled_hw with
              dev := (st_asm330lhh_write_with_mask reg_bus temp_enabled_hw.dev 0 0 1).2 })) ∧
    st_asm330lhh_write_raw reference_header reg_bus temp_enabled_hw probed_temp 0 3906
        IIO_CHAN_INFO_SCALE
      = (if (st_asm330lhh_write_with_mask reg_bus temp_enabled_hw.dev 0 0 0).1 < 0 then
          ((st_asm330lhh_write_with_mask reg_bus temp_enabled_hw.dev 0 0 0).1,
            { temp_enabled_hw with
              dev := (st_asm330lhh_write_with_mask reg_bus temp_enabled_hw.dev 0 0 0).2 },
            probed_temp)
        else
          (0, { temp_enabled_hw with
              dev := (st_asm330lhh_write_with_mask reg_bus temp_enabled_hw.dev 0 0 0).2 },
            { probed_temp with gain := 3906 })) ∧
    (st_asm330lhh_write_raw reference_header reg_bus temp_enabled_hw probed_temp 52 0
        IIO_CHAN_INFO_SAMP_FREQ).1
      = (st_asm330lhh_write_with_mask reg_bus temp_enabled_hw.dev 0 0 1).1 ∧
    (st_asm330lhh_write_raw reference_header reg_bus temp_enabled_hw probed_temp 52 0
        IIO_CHAN_INFO_SAMP_FREQ).2.1.dev
      = (st_asm330lhh_write_with_mask reg_bus temp_enabled_hw.dev 0 0 1).2) :=
  ⟨⟨rfl, by decide, rfl, by decide⟩,
    temperature_paths_pass_zero_mask reg_file reference_header reg_bus temp_enabled_hw
      probed_temp (by decide) (by decide) rfl⟩

end StAsm330lhh
